import Mathlib

/-!
FAST Computer Vision: acquisition, detection and publish pipeline.

A shallow embedding of the pipeline classes of `fast-computer-vision/src`
(`Camera`, `MarkerDetection`, `NetworkCommunication`, `Calibration`,
`FrameRateTimer`, `AppManager`) and the properties proved about them.

Conventions of the embedding

* Every class is a structure holding its data members; a member function is a
  function from the old object (and the inputs the call reads from the device,
  the clock or the vision library) to the new object and the effects it emits.
* `unsigned int` members are naturals reduced modulo `2 ^ 32` where the code
  can overflow; `int` members are integers.
* `float` and `double` quantities are real numbers: rounding is not modelled,
  except for the angle of a marker, which `Detection.angleBinary32` evaluates a
  second time in binary32 and binary64 arithmetic; the frame rate is a real
  number or infinite. The object representation of a `float` (the four bytes
  the publisher copies) is a parameter of the serialisation.
* A library or device call returns normally unless the source wraps it in a
  `try` block; where it does, the raising path is an input of the model.
* `std::lock_guard` scopes are sequential code; the mutexes are not modelled.
* `executionTimer` members only feed log lines that are commented out
  and are left out; `std::this_thread::sleep_for` calls only take time and are
  left out.
-/

noncomputable section

namespace FAST

/-! ## Machine words and bytes -/

/-- The four bytes of a 32-bit object in memory order, as `QByteArray::fromRawData`
copies them from `reinterpret_cast<const char *>(&x)` with `sizeof x = 4`
(little-endian host: `pch.h` targets Windows). -/
def rawBytes32 (w : Nat) : List Nat :=
  [w % 256, w / 256 % 256, w / 65536 % 256, w / 16777216 % 256]

/-- The 32-bit pattern of an `int` (two's complement). -/
def int32Bits (i : Int) : Nat := (i % 4294967296).toNat

/-! ## Marker observations (`MarkerData.h`, `std::map<int, MarkerData>`) -/

/-- Fields of `MarkerData` as `MarkerDetection::Run` writes them and
`NetworkCommunication::Run` reads them. `F` is the carrier of the `float`
members; the two-element arrays are pairs. -/
structure MarkerData (F : Type) where
  id : Int
  topLeft : F × F
  topRight : F × F
  bottomRight : F × F
  bottomLeft : F × F
  center : F × F
  angle : F
  size : F

/-- A `std::map<int, V>`: its entries in iteration order (ascending key). -/
abbrev StdMap (V : Type) := List (Int × V)

/-- The statement `m[k] = v` of `std::map`: replaces the entry of key `k`, or
inserts it at its place in key order. -/
def StdMap.assign {V : Type} : StdMap V → Int → V → StdMap V
  | [], k, v => [(k, v)]
  | (k0, v0) :: rest, k, v =>
    if k < k0 then (k, v) :: (k0, v0) :: rest
    else if k = k0 then (k, v) :: rest
    else (k0, v0) :: StdMap.assign rest k v

/-- Keys of a map, in iteration order. -/
def StdMap.keys {V : Type} (m : StdMap V) : List Int := m.map Prod.fst

/-- The entry `m.find(k)`, if any. -/
def StdMap.find {V : Type} (m : StdMap V) (k : Int) : Option V :=
  (List.find? (fun e => decide (e.1 = k)) m).map Prod.snd

/-! ## The datagram of `NetworkCommunication::Run` -/

/-- The five appends of one loop iteration of `NetworkCommunication::Run`
(lines 67-72): `id`, `center[0]`, `center[1]`, `angle`, `size`. -/
def recordBytes {F : Type} (floatBits : F → Nat) (markerData : MarkerData F) : List Nat :=
  rawBytes32 (int32Bits markerData.id) ++ rawBytes32 (floatBits markerData.center.1) ++
  rawBytes32 (floatBits markerData.center.2) ++ rawBytes32 (floatBits markerData.angle) ++
  rawBytes32 (floatBits markerData.size)

/-- The `byteArray` built in the `try` block of `NetworkCommunication::Run`
(lines 59-73): `currentFrameNumber`, `numMarkers = trackingData.size()` as
`unsigned int`, then one record per map entry in iteration order. -/
def byteArray {F : Type} (floatBits : F → Nat) (currentFrameNumber : Nat)
    (trackingData : StdMap (MarkerData F)) : List Nat :=
  rawBytes32 currentFrameNumber ++ rawBytes32 (trackingData.length % 4294967296) ++
  (trackingData.map (fun entry => recordBytes floatBits entry.2)).flatten

/-! ### Reading a datagram by the published layout -/

/-- One marker record of the payload layout:
`int32 id | float32 centerX | float32 centerY | float32 angleDegrees | float32 normalizedSize`. -/
structure MarkerRecord (F : Type) where
  id : Int
  centerX : F
  centerY : F
  angleDegrees : F
  normalizedSize : F

/-- Reads one little-endian 32-bit word off the front of a byte list. -/
def readWord32 : List Nat → Option (Nat × List Nat)
  | b0 :: b1 :: b2 :: b3 :: rest => some (b0 + 256 * b1 + 65536 * b2 + 16777216 * b3, rest)
  | _ => none

/-- The `int32` value of a 32-bit pattern. -/
def int32OfBits (w : Nat) : Int := if w < 2147483648 then (w : Int) else (w : Int) - 4294967296

/-- Reads `count` marker records; the bytes must end with the last record. -/
def readRecords {F : Type} (floatOfBits : Nat → F) : Nat → List Nat → Option (List (MarkerRecord F))
  | 0, [] => some []
  | 0, _ :: _ => none
  | count + 1, bytes =>
    match readWord32 bytes with
    | none => none
    | some (wId, r1) =>
      match readWord32 r1 with
      | none => none
      | some (wX, r2) =>
        match readWord32 r2 with
        | none => none
        | some (wY, r3) =>
          match readWord32 r3 with
          | none => none
          | some (wAngle, r4) =>
            match readWord32 r4 with
            | none => none
            | some (wSize, r5) =>
              match readRecords floatOfBits count r5 with
              | none => none
              | some records =>
                some (⟨int32OfBits wId, floatOfBits wX, floatOfBits wY, floatOfBits wAngle,
                  floatOfBits wSize⟩ :: records)

/-- A decoded payload: `uint32 frameNumber | uint32 markerCount | markerCount × record`. -/
structure Payload (F : Type) where
  frameNumber : Nat
  markerCount : Nat
  records : List (MarkerRecord F)

/-- Deserialises a datagram by the layout of the network-publish interface. -/
def decodeDatagram {F : Type} (floatOfBits : Nat → F) (bytes : List Nat) : Option (Payload F) :=
  match readWord32 bytes with
  | none => none
  | some (frameNumber, r1) =>
    match readWord32 r1 with
    | none => none
    | some (markerCount, r2) =>
      match readRecords floatOfBits markerCount r2 with
      | none => none
      | some records => some ⟨frameNumber, markerCount, records⟩

/-- The record the layout assigns to an observation. -/
def MarkerData.toRecord {F : Type} (markerData : MarkerData F) : MarkerRecord F :=
  ⟨markerData.id, markerData.center.1, markerData.center.2, markerData.angle, markerData.size⟩

/-- An observation whose members fit their machine types: `id` is an `int` and
each published `float` has a 32-bit object representation that reads back. -/
def MarkerData.Fits {F : Type} (floatBits : F → Nat) (floatOfBits : Nat → F)
    (markerData : MarkerData F) : Prop :=
  -2147483648 ≤ markerData.id ∧ markerData.id < 2147483648 ∧
  ∀ v ∈ [markerData.center.1, markerData.center.2, markerData.angle, markerData.size],
    floatBits v < 4294967296 ∧ floatOfBits (floatBits v) = v

/-! ## Clock and timers -/

/-- A value of the `double` member `frameRate`: a real number, or the positive
infinity that the division by a zero `duration` gives. -/
inductive Rate where
  | finite (value : ℝ)
  | infinite

/-- The rate 0 that the constructor and `Reset` assign. -/
instance : Zero Rate := ⟨Rate.finite 0⟩

/-- Class `FrameRateTimer`: clock readings are in nanoseconds, `duration` is the
elapsed time in whole milliseconds (`duration_cast<milliseconds>`). -/
structure FrameRateTimer where
  frameRate : Rate
  startTime : Nat
  endTime : Nat
  duration : Nat

/-- Member function `FrameRateTimer::FrameRateTimer` at clock reading `now`. -/
def FrameRateTimer.new (now : Nat) : FrameRateTimer := ⟨0, now, 0, 0⟩

/-- Member function `FrameRateTimer::MeasureElapsedTime` at clock reading `now`. -/
def FrameRateTimer.MeasureElapsedTime (t : FrameRateTimer) (now : Nat) : FrameRateTimer :=
  { t with endTime := now, duration := (now - t.startTime) / 1000000, startTime := now }

/-- Member function `FrameRateTimer::Update`:
`frameRate = (.9 * frameRate) + (.1 * 1000.0 / duration)`. With a `duration` of 0 the
quotient is positive infinity and so is the sum; an infinite `frameRate` stays infinite,
the quotient never being negative. -/
def FrameRateTimer.Update (t : FrameRateTimer) (now : Nat) : FrameRateTimer :=
  let t1 := t.MeasureElapsedTime now
  { t1 with frameRate :=
      match t1.frameRate with
      | Rate.finite rate =>
        if t1.duration = 0 then Rate.infinite
        else Rate.finite ((0.9 * rate) + (0.1 * 1000.0 / (t1.duration : ℝ)))
      | Rate.infinite => Rate.infinite }

/-- Member function `FrameRateTimer::Reset`. -/
def FrameRateTimer.Reset (t : FrameRateTimer) (now : Nat) : FrameRateTimer :=
  let t1 := t.MeasureElapsedTime now
  { t1 with frameRate := 0 }

/-- Modelled from the spec: `ExecutionTimer.h` is not among the sources. The
calibration engine times a detection "from the transition into detected":
`Start` records the clock, `MeasureElapsedTime` sets `duration` to the whole
milliseconds elapsed since the last `Start`. -/
structure ExecutionTimer where
  startTime : Nat
  duration : Nat

/-- Modelled from the spec: `ExecutionTimer::Start` at clock reading `now`. -/
def ExecutionTimer.Start (t : ExecutionTimer) (now : Nat) : ExecutionTimer :=
  { t with startTime := now }

/-- Modelled from the spec: `ExecutionTimer::MeasureElapsedTime` at clock reading `now`. -/
def ExecutionTimer.MeasureElapsedTime (t : ExecutionTimer) (now : Nat) : ExecutionTimer :=
  { t with duration := (now - t.startTime) / 1000000 }

/-! ## Images -/

/-- A point with `float` or `double` coordinates (`cv::Point2f`, `cv::Point2d`, `cv::Vec2f`). -/
structure Point2 where
  x : ℝ
  y : ℝ

/-- A remap table (`distortMap`, `undistortMap`): its size and an identifier of its content. -/
structure MapTable where
  rows : Nat
  cols : Nat
  tag : Nat

/-- The content of a `cv::Mat`, as the expression of library calls that produced it. -/
inductive Pixels where
  | unset
  | zeros
  | raster (tag : Nat)
  | remap (src : Pixels) (map1 map2 : MapTable)
  | rotate180 (src : Pixels)
  | region (src : Pixels) (x y : Int)
  | grayAsBgr (src : Pixels)
  | chessboardCorners (src : Pixels) (patternWidth patternHeight : Int)
      (corners : List Point2) (patternWasFound : Bool)

/-- A `cv::Mat`: `rows`, `cols` and content. -/
structure Mat where
  rows : Nat
  cols : Nat
  pixels : Pixels

/-- Library function `cv::Mat::empty`. -/
def Mat.empty (m : Mat) : Bool := m.rows == 0 || m.cols == 0

/-- Library type `cv::Rect2d`. -/
structure Rect2d where
  x : ℝ
  y : ℝ
  width : ℝ
  height : ℝ

/-- Library type `cv::Rect`. -/
structure Rect where
  x : Int
  y : Int
  width : Int
  height : Int

/-- Library function `cvRound`: the nearest integer, halves to the even neighbour. -/
def cvRound (v : ℝ) : Int :=
  if v - ⌊v⌋ < 1 / 2 then ⌊v⌋
  else if 1 / 2 < v - ⌊v⌋ then ⌊v⌋ + 1
  else if ⌊v⌋ % 2 = 0 then ⌊v⌋ else ⌊v⌋ + 1

/-- The conversion `cv::Rect2d` to `cv::Rect` (`saturate_cast<int>` of each member)
that `inputImage(trackingAreaInPixels)` applies to its argument. -/
def Rect2d.toRect (r : Rect2d) : Rect :=
  ⟨cvRound r.x, cvRound r.y, cvRound r.width, cvRound r.height⟩

/-- Library function `cv::Mat::operator()(const Rect&)`: the sub-image of `roi`. -/
def Mat.roi (m : Mat) (roi : Rect) : Mat :=
  ⟨roi.height.toNat, roi.width.toNat, Pixels.region m.pixels roi.x roi.y⟩

/-! ## Camera -/

/-- Modelled from the spec: `CalibrationData.h` is not among the sources; the
kind of a calibration profile is one of None, Preview, Saved. -/
inductive CalibrationType where
  | None
  | Preview
  | Saved
  deriving DecidableEq

/-- Modelled from the spec: `CalibrationData.h` is not among the sources. The
members are those the sources read and write; matrices are identifiers. -/
structure CalibrationData where
  cameraMatrix : Nat
  distortionCoefficients : Nat
  distortMap : MapTable
  undistortMap : MapTable
  type : CalibrationType

/-- Modelled from the spec: a default-constructed profile has kind None. -/
def CalibrationData.default : CalibrationData := ⟨0, 0, ⟨0, 0, 0⟩, ⟨0, 0, 0⟩, CalibrationType.None⟩

/-- Qt signals emitted by the pipeline classes. -/
inductive Signal where
  | CameraConnected
  | CameraDisconnected
  | NumImagesChanged (numImages : Nat)
  | MinimumImagesCaptured
  | CalibrationDone (rmsError : ℝ)

/-- Data members of `Camera`. `pCamera` holds whether the device pointer is non-null. -/
structure Camera where
  pCamera : Bool
  isConnected : Bool
  outputImage : Mat
  currentFrameNumber : Nat
  gamma : ℝ
  isApplyRotation : Bool
  isRotate : Bool
  isApplyCalibration : Bool
  calibrationData : CalibrationData
  isApplyCalibrationPreview : Bool
  calibrationPreviewData : CalibrationData
  frameRateTimer : FrameRateTimer

/-- Constant `kImageWidth` of `pch.h`. -/
def kImageWidth : Nat := 3072

/-- Constant `kImageHeight` of `pch.h`. -/
def kImageHeight : Nat := 2048

/-- Member function `Camera::Camera`. The constructor does not set `isApplyRotation`
and `isRotate`; their values are arguments. -/
def Camera.new (isApplyRotation isRotate : Bool) (now : Nat) : Camera :=
  { pCamera := false, isConnected := false,
    outputImage := ⟨kImageHeight, kImageWidth, Pixels.unset⟩,
    currentFrameNumber := 0, gamma := 0.5,
    isApplyRotation := isApplyRotation, isRotate := isRotate,
    isApplyCalibration := false, calibrationData := CalibrationData.default,
    isApplyCalibrationPreview := false, calibrationPreviewData := CalibrationData.default,
    frameRateTimer := FrameRateTimer.new now }

/-- What `GetNextImage` and the conversion deliver in one `Camera::GetFrame`:
a device exception before the frame is stored, an incomplete image, or a
complete image converted to `rawImage`. -/
inductive Grab where
  | raises
  | incomplete
  | complete (rawImage : Mat)

/-- What the device and the clock answer during one `Camera::Run`. -/
structure DevicePoll where
  now : Nat
  numCameras : Nat
  initRaises : Bool
  statusRaises : Bool
  isInitialized : Bool
  isStreaming : Bool
  grab : Grab

/-- Member function `Camera::GetIsConnected`. -/
def Camera.GetIsConnected (c : Camera) : Bool := c.isConnected

/-- Member function `Camera::GetFrameNumber`. -/
def Camera.GetFrameNumber (c : Camera) : Nat := c.currentFrameNumber

/-- Member function `Camera::CopyImageTo`: the value copied into the destination. -/
def Camera.CopyImageTo (c : Camera) : Mat := c.outputImage

/-- Member function `Camera::Calibrate`. -/
def Camera.Calibrate (c : Camera) (calibrationData : CalibrationData) : Camera :=
  if calibrationData.type = CalibrationType.Preview then
    { c with calibrationPreviewData := calibrationData }
  else if calibrationData.type = CalibrationType.Saved then
    { c with calibrationData := calibrationData }
  else c

/-- Member function `Camera::ToggleCalibrationPreview`. -/
def Camera.ToggleCalibrationPreview (c : Camera) (isOn : Bool) : Camera :=
  { c with isApplyCalibrationPreview := isOn }

/-- Member function `Camera::ToggleCalibration`. -/
def Camera.ToggleCalibration (c : Camera) (isOn : Bool) : Camera :=
  { c with isApplyCalibration := isOn }

/-- Member function `Camera::UpdateRotation`. -/
def Camera.UpdateRotation (c : Camera) (isRotate : Bool) : Camera :=
  { c with isRotate := isRotate }

/-- Member function `Camera::ToggleRotation`. -/
def Camera.ToggleRotation (c : Camera) (isOn : Bool) : Camera :=
  { c with isApplyRotation := isOn }

/-- Member function `Camera::Disconnect`: releases the device and emits `CameraDisconnected`. -/
def Camera.Disconnect (c : Camera) : Camera × List Signal :=
  ({ c with pCamera := false }, [Signal.CameraDisconnected])

/-- Member function `Camera::Connect`. -/
def Camera.Connect (c : Camera) (device : DevicePoll) : Camera × List Signal :=
  let c1 := { c with frameRateTimer := c.frameRateTimer.Reset device.now,
                     outputImage := ⟨c.outputImage.rows, c.outputImage.cols, Pixels.zeros⟩ }
  if device.numCameras < 1 then (c1, [])
  else
    let c2 := { c1 with pCamera := true }
    let r := if device.initRaises then c2.Disconnect else (c2, [])
    ({ r.1 with isConnected := true }, r.2 ++ [Signal.CameraConnected])

/-- The calibration step of `Camera::GetFrame` (lines 276-287). -/
def Camera.calibratedImage (c : Camera) (rawImage : Mat) : Mat :=
  if c.isApplyCalibrationPreview && decide (c.calibrationPreviewData.type = CalibrationType.Preview) then
    ⟨c.calibrationPreviewData.distortMap.rows, c.calibrationPreviewData.distortMap.cols,
      Pixels.remap rawImage.pixels c.calibrationPreviewData.distortMap
        c.calibrationPreviewData.undistortMap⟩
  else if c.isApplyCalibration && decide (c.calibrationData.type = CalibrationType.Saved) then
    ⟨c.calibrationData.distortMap.rows, c.calibrationData.distortMap.cols,
      Pixels.remap rawImage.pixels c.calibrationData.distortMap c.calibrationData.undistortMap⟩
  else rawImage

/-- The rotation step of `Camera::GetFrame` (lines 289-296): the new `outputImage`. -/
def Camera.rotatedImage (c : Camera) (calibratedImage : Mat) : Mat :=
  if c.isApplyRotation && c.isRotate then
    ⟨calibratedImage.rows, calibratedImage.cols, Pixels.rotate180 calibratedImage.pixels⟩
  else calibratedImage

/-- Member function `Camera::GetFrame`. -/
def Camera.GetFrame (c : Camera) (device : DevicePoll) : Camera × List Signal :=
  if !c.pCamera then ({ c with isConnected := false }, [Signal.CameraDisconnected])
  else if device.statusRaises || !device.isInitialized || !device.isStreaming then
    ({ c with isConnected := false }, [Signal.CameraDisconnected])
  else
    match device.grab with
    | Grab.raises => (c, [])
    | Grab.incomplete => (c, [])
    | Grab.complete rawImage =>
      ({ c with outputImage := c.rotatedImage (c.calibratedImage rawImage),
                currentFrameNumber := (c.currentFrameNumber + 1) % 4294967296,
                frameRateTimer := c.frameRateTimer.Update device.now }, [])

/-- Member function `Camera::Run`. -/
def Camera.Run (c : Camera) (device : DevicePoll) : Camera × List Signal :=
  if c.isConnected then c.GetFrame device else c.Connect device

/-- A sequence of `Camera::Run` calls, one per device answer. -/
def Camera.runs (c : Camera) : List DevicePoll → Camera
  | [] => c
  | device :: rest => Camera.runs (c.Run device).1 rest

/-- Whether this `Camera::Run` acquires a complete image: the camera is connected,
the device is present, initialised and streaming, and the grab is complete. -/
def Camera.acquires (c : Camera) (device : DevicePoll) : Bool :=
  c.isConnected && c.pCamera && !device.statusRaises && device.isInitialized &&
    device.isStreaming &&
    match device.grab with
    | Grab.complete _ => true
    | _ => false

/-! ## MarkerDetection -/

/-- Struct `DetectorParameterData`, with the defaults of `DetectorParameterData.h`. -/
structure DetectorParameterData where
  markerDictionarySize : Int := 24
  markerNumBits : Int := 4
  adaptiveThreshWinSizeMin : Int := 3
  adaptiveThreshWinSizeMax : Int := 23
  adaptiveThreshWinSizeStep : Int := 10
  adaptiveThreshConstant : ℝ := 10
  minMarkerPerimeterRate : ℝ := 0.02
  maxMarkerPerimeterRate : ℝ := 2.0
  polygonalApproxAccuracyRate : ℝ := 0.1
  minCornerDistanceRate : ℝ := 0.05
  minMarkerDistanceRate : ℝ := 0.05
  minDistanceToBorder : Int := 3
  markerBorderBits : Int := 1
  minOtsuStdDev : ℝ := 5.0
  perspectiveRemovePixelPerCell : Int := 8
  perspectiveRemoveIgnoredMarginPerCell : ℝ := 0.25
  maxErroneousBitsInBorderRate : ℝ := 0.35
  errorCorrectionRate : ℝ := 0.6

/-- The members of `cv::aruco::DetectorParameters` that `MarkerDetection::Run` sets. -/
structure DetectorParameters where
  adaptiveThreshWinSizeMin : Int
  adaptiveThreshWinSizeMax : Int
  adaptiveThreshWinSizeStep : Int
  adaptiveThreshConstant : ℝ
  minMarkerPerimeterRate : ℝ
  maxMarkerPerimeterRate : ℝ
  polygonalApproxAccuracyRate : ℝ
  minCornerDistanceRate : ℝ
  minMarkerDistanceRate : ℝ
  minDistanceToBorder : Int
  markerBorderBits : Int
  minOtsuStdDev : ℝ
  perspectiveRemovePixelPerCell : Int
  perspectiveRemoveIgnoredMarginPerCell : ℝ
  maxErroneousBitsInBorderRate : ℝ
  errorCorrectionRate : ℝ

/-- A `cv::aruco::Dictionary`: the members `MarkerDetection::Run` compares, and
`serial`, which numbers the `generateCustomDictionary` call that built the object. -/
structure Dictionary where
  bytesListRows : Int
  markerSize : Int
  serial : Nat

/-- Library function `cv::aruco::generateCustomDictionary(nMarkers, markerSize)`, as call number `serial`. -/
def generateCustomDictionary (nMarkers markerSize : Int) (serial : Nat) : Dictionary :=
  ⟨nMarkers, markerSize, serial⟩

/-- One detected marker: `markerIds[i]` and the four points of `markerCorners[i]`
(`corners[0]` top left, `corners[1]` top right, `corners[2]` bottom right,
`corners[3]` bottom left), in pixels of the tracking sub-image. -/
structure Detection where
  id : Int
  corner0 : Point2
  corner1 : Point2
  corner2 : Point2
  corner3 : Point2

/-- Data members of `MarkerDetection`. -/
structure MarkerDetection where
  inputImage : Mat
  trackingImage : Mat
  outputImage : Mat
  isDetected : Bool
  trackingData : StdMap (MarkerData ℝ)
  trackingArea : Rect2d
  currentFrameNumber : Nat
  lastFrameNumber : Nat
  detectorParameters : DetectorParameterData
  markerDictionary : Dictionary
  markerParameters : DetectorParameters
  detected : List Detection
  frameRateTimer : FrameRateTimer

/-- What the clock and `arucoDetector.detectMarkers` answer during one
`MarkerDetection::Run`: `detected` is the content of `markerIds` and `markerCorners`
after the call, when the call is made. -/
structure DetectionPoll where
  now : Nat
  detected : List Detection

/-- Constant `kRadiansToDegrees` of `pch.h`. -/
def kRadiansToDegrees : ℝ := 180.0 / 3.141592653589793238463

/-- Library function `cv::norm` of a point or two-vector. -/
def Point2.norm (p : Point2) : ℝ := Real.sqrt (p.x * p.x + p.y * p.y)

/-- Sum of two points. -/
def Point2.add (p q : Point2) : Point2 := ⟨p.x + q.x, p.y + q.y⟩

/-- Difference of two points. -/
def Point2.sub (p q : Point2) : Point2 := ⟨p.x - q.x, p.y - q.y⟩

/-- A point scaled by a number. -/
def Point2.scale (p : Point2) (a : ℝ) : Point2 := ⟨p.x * a, p.y * a⟩

/-- Library function `cv::Vec2f::dot`. -/
def Point2.dot (p q : Point2) : ℝ := p.x * q.x + p.y * q.y

/-- Library function `cv::normalize` of a vector: `v * (nv ? 1./nv : 0.)` with `nv = norm(v)`. -/
def Point2.normalize (v : Point2) : Point2 :=
  v.scale (if v.norm = 0 then 0 else 1 / v.norm)

/-- The `center` of the loop body of `MarkerDetection::Run` (lines 162-166): the sum
of the corners divided by their number. -/
def Detection.center (d : Detection) : Point2 :=
  (((((⟨0, 0⟩ : Point2).add d.corner0).add d.corner1).add d.corner2).add d.corner3).scale (1 / 4)

/-- The `pointA` of the loop body (line 171): `(corners[1] + corners[2]) * 0.5`. -/
def Detection.pointA (d : Detection) : Point2 := (d.corner1.add d.corner2).scale 0.5

/-- The `radius` of the loop body (line 172). -/
def Detection.radius (d : Detection) : ℝ := (d.pointA.sub d.center).norm

/-- The value stored in `markerData.angle` (lines 173-184). -/
def Detection.angle (d : Detection) : ℝ :=
  let center := d.center
  let radius := d.radius
  let pointB := center.add ⟨radius, 0⟩
  let pointN := center.add ⟨0, -radius⟩
  let vectorA := (d.pointA.sub center).normalize
  let vectorB := (pointB.sub center).normalize
  let vectorN := (pointN.sub center).normalize
  let cosineNormal := vectorA.dot vectorN
  let signNormal : ℝ := if cosineNormal < 0 then -1 else 1
  signNormal * kRadiansToDegrees * Real.arccos (vectorA.dot vectorB)

/-- The loop body of `MarkerDetection::Run` (lines 142-188): the `MarkerData` of one
detection, for the offset of the tracking area and the size of `outputImage`. -/
def Detection.markerData (d : Detection) (trackingAreaOffset : Point2) (outputImage : Mat) :
    MarkerData ℝ :=
  { id := d.id,
    topLeft := ((d.corner0.x + trackingAreaOffset.x) / outputImage.cols,
                (d.corner0.y + trackingAreaOffset.y) / outputImage.rows),
    topRight := ((d.corner1.x + trackingAreaOffset.x) / outputImage.cols,
                 (d.corner1.y + trackingAreaOffset.y) / outputImage.rows),
    bottomRight := ((d.corner2.x + trackingAreaOffset.x) / outputImage.cols,
                    (d.corner2.y + trackingAreaOffset.y) / outputImage.rows),
    bottomLeft := ((d.corner3.x + trackingAreaOffset.x) / outputImage.cols,
                   (d.corner3.y + trackingAreaOffset.y) / outputImage.rows),
    center := ((d.center.x + trackingAreaOffset.x) / outputImage.cols,
               (d.center.y + trackingAreaOffset.y) / outputImage.rows),
    angle := d.angle,
    size := (4 * d.radius * d.radius) / ((outputImage.cols * outputImage.rows : Nat) : ℝ) }

/-- The loop of `MarkerDetection::Run` (lines 141-192) over the detections, from an
emptied map: each iteration executes `trackingData[markerData.id] = markerData`. -/
def storeDetections (trackingAreaOffset : Point2) (outputImage : Mat) :
    StdMap (MarkerData ℝ) → List Detection → StdMap (MarkerData ℝ)
  | trackingData, [] => trackingData
  | trackingData, d :: rest =>
    storeDetections trackingAreaOffset outputImage
      (trackingData.assign d.id (d.markerData trackingAreaOffset outputImage)) rest

/-- The `trackingAreaInPixels` of `MarkerDetection::Run` (lines 112-119). -/
def trackingAreaInPixels (trackingArea : Rect2d) (inputImage : Mat) : Rect2d :=
  ⟨trackingArea.x * inputImage.cols, trackingArea.y * inputImage.rows,
   trackingArea.width * inputImage.cols, trackingArea.height * inputImage.rows⟩

/-- Member function `MarkerDetection::MarkerDetection`; the library defaults of
`cv::aruco::DetectorParameters::create()` are an argument. -/
def MarkerDetection.new (camera : Camera) (libraryDefaults : DetectorParameters) (now : Nat) :
    MarkerDetection :=
  let detectorParameters : DetectorParameterData := {}
  { inputImage := camera.CopyImageTo, trackingImage := ⟨0, 0, Pixels.unset⟩,
    outputImage := camera.CopyImageTo, isDetected := false, trackingData := [],
    trackingArea := ⟨0, 0, 0, 0⟩, currentFrameNumber := 0, lastFrameNumber := 0,
    detectorParameters := detectorParameters,
    markerDictionary := generateCustomDictionary detectorParameters.markerDictionarySize
      detectorParameters.markerNumBits 0,
    markerParameters := libraryDefaults, detected := [],
    frameRateTimer := FrameRateTimer.new now }

/-- Member function `MarkerDetection::Pause`. -/
def MarkerDetection.Pause (md : MarkerDetection) (now : Nat) : MarkerDetection :=
  { md with frameRateTimer := md.frameRateTimer.Reset now }

/-- The block of `MarkerDetection::Run` under `detectorParametersMutex` (lines 80-110). -/
def MarkerDetection.applyDetectorParameters (md : MarkerDetection) : MarkerDetection :=
  let p := md.detectorParameters
  { md with
    markerParameters :=
      { adaptiveThreshWinSizeMin := p.adaptiveThreshWinSizeMin,
        adaptiveThreshWinSizeMax := p.adaptiveThreshWinSizeMax,
        adaptiveThreshWinSizeStep := p.adaptiveThreshWinSizeStep,
        adaptiveThreshConstant := p.adaptiveThreshConstant,
        minMarkerPerimeterRate := p.minMarkerPerimeterRate,
        maxMarkerPerimeterRate := p.maxMarkerPerimeterRate,
        polygonalApproxAccuracyRate := p.polygonalApproxAccuracyRate,
        minCornerDistanceRate := p.minCornerDistanceRate,
        minMarkerDistanceRate := p.minMarkerDistanceRate,
        minDistanceToBorder := p.minDistanceToBorder,
        markerBorderBits := p.markerBorderBits,
        minOtsuStdDev := p.minOtsuStdDev,
        perspectiveRemovePixelPerCell := p.perspectiveRemovePixelPerCell,
        perspectiveRemoveIgnoredMarginPerCell := p.perspectiveRemoveIgnoredMarginPerCell,
        maxErroneousBitsInBorderRate := p.maxErroneousBitsInBorderRate,
        errorCorrectionRate := p.errorCorrectionRate },
    markerDictionary :=
      if md.markerDictionary.bytesListRows ≠ p.markerDictionarySize ∨
          md.markerDictionary.markerSize ≠ p.markerNumBits then
        generateCustomDictionary p.markerDictionarySize p.markerNumBits
          (md.markerDictionary.serial + 1)
      else md.markerDictionary }

/-- Member function `MarkerDetection::Run`, reading the camera it refers to. -/
def MarkerDetection.Run (md : MarkerDetection) (camera : Camera) (poll : DetectionPoll) :
    MarkerDetection :=
  let md1 := { md with currentFrameNumber := camera.GetFrameNumber }
  if md1.lastFrameNumber = md1.currentFrameNumber then md1
  else
    let md2 := { md1 with inputImage := camera.CopyImageTo, detected := [] }
    let md3 := md2.applyDetectorParameters
    let areaInPixels := trackingAreaInPixels md3.trackingArea md3.inputImage
    let trackingImage := md3.inputImage.roi areaInPixels.toRect
    let detected := if !trackingImage.empty then poll.detected else md3.detected
    let isDetected := decide (0 < detected.length)
    let trackingData :=
      if isDetected then
        storeDetections ⟨areaInPixels.x, areaInPixels.y⟩ md3.outputImage [] detected
      else []
    { md3 with trackingImage := trackingImage, detected := detected, isDetected := isDetected,
               trackingData := trackingData, outputImage := md3.inputImage,
               lastFrameNumber := md3.currentFrameNumber,
               frameRateTimer := md3.frameRateTimer.Update poll.now }

/-- Member function `MarkerDetection::GetTrackingData`. -/
def MarkerDetection.GetTrackingData (md : MarkerDetection) : StdMap (MarkerData ℝ) :=
  md.trackingData

/-- Member function `MarkerDetection::GetFrameNumber`. -/
def MarkerDetection.GetFrameNumber (md : MarkerDetection) : Nat := md.currentFrameNumber

/-- Member function `MarkerDetection::GetFrameRate`. -/
def MarkerDetection.GetFrameRate (md : MarkerDetection) : Rate := md.frameRateTimer.frameRate

/-- Member function `MarkerDetection::UpdateTrackingArea`. -/
def MarkerDetection.UpdateTrackingArea (md : MarkerDetection) (trackingArea : Rect2d) :
    MarkerDetection :=
  { md with trackingArea := trackingArea }

/-- Member function `MarkerDetection::UpdateDetectorParameters`. -/
def MarkerDetection.UpdateDetectorParameters (md : MarkerDetection)
    (detectorParameters : DetectorParameterData) : MarkerDetection :=
  { md with detectorParameters := detectorParameters }

/-! ## NetworkCommunication -/

/-- One call of `socket.writeDatagram(byteArray, address, port)`; `transmitted` is
whether the call reported success (the source ignores the return value). -/
structure WriteDatagram where
  bytes : List Nat
  address : Nat
  port : Nat
  transmitted : Bool

/-- How the `try` block of `NetworkCommunication::Run` ends: the write reports
success, the write reports failure, or the block raises at or before the write
and `catch(...)` swallows the exception. -/
inductive SendOutcome where
  | sent
  | failed
  | raised
  deriving DecidableEq

/-- What the clock and the socket answer during one `NetworkCommunication::Run`. -/
structure NetworkPoll where
  now : Nat
  outcome : SendOutcome

/-- Data members of `NetworkCommunication`; the host address is an identifier. -/
structure NetworkCommunication (F : Type) where
  trackingData : StdMap (MarkerData F)
  currentFrameNumber : Nat
  lastFrameNumber : Nat
  address : Nat
  port : Nat
  frameRateTimer : FrameRateTimer

/-- Member function `NetworkCommunication::NetworkCommunication`. The constructor does not set the
destination; its values are arguments. -/
def NetworkCommunication.new (F : Type) (address port now : Nat) : NetworkCommunication F :=
  ⟨[], 0, 0, address, port, FrameRateTimer.new now⟩

/-- Member function `NetworkCommunication::Pause`. -/
def NetworkCommunication.Pause {F : Type} (nc : NetworkCommunication F) (now : Nat) :
    NetworkCommunication F :=
  { nc with frameRateTimer := nc.frameRateTimer.Reset now }

/-- Member function `NetworkCommunication::Run`. `frameNumber` and `snapshot` are what
`markerDetection.GetFrameNumber()` and `markerDetection.GetTrackingData()` return;
the result is the new object and the `writeDatagram` calls made. -/
def NetworkCommunication.Run {F : Type} (floatBits : F → Nat) (nc : NetworkCommunication F)
    (frameNumber : Nat) (snapshot : StdMap (MarkerData F)) (poll : NetworkPoll) :
    NetworkCommunication F × List WriteDatagram :=
  let nc1 := { nc with currentFrameNumber := frameNumber }
  if nc1.lastFrameNumber = nc1.currentFrameNumber then (nc1, [])
  else
    let nc2 := { nc1 with trackingData := snapshot }
    let bytes := byteArray floatBits nc2.currentFrameNumber nc2.trackingData
    match poll.outcome with
    | SendOutcome.raised =>
      ({ nc2 with frameRateTimer := nc2.frameRateTimer.Update poll.now }, [])
    | SendOutcome.sent =>
      ({ nc2 with lastFrameNumber := nc2.currentFrameNumber,
                  frameRateTimer := nc2.frameRateTimer.Update poll.now },
       [⟨bytes, nc2.address, nc2.port, true⟩])
    | SendOutcome.failed =>
      ({ nc2 with lastFrameNumber := nc2.currentFrameNumber,
                  frameRateTimer := nc2.frameRateTimer.Update poll.now },
       [⟨bytes, nc2.address, nc2.port, false⟩])

/-- Member function `NetworkCommunication::UpdateUdpParameters`. -/
def NetworkCommunication.UpdateUdpParameters {F : Type} (nc : NetworkCommunication F)
    (address port : Nat) : NetworkCommunication F :=
  { nc with address := address, port := port }

/-- Member function `NetworkCommunication::GetFrameRate`. -/
def NetworkCommunication.GetFrameRate {F : Type} (nc : NetworkCommunication F) : Rate :=
  nc.frameRateTimer.frameRate

/-! ## Calibration (the members and functions the scheduler drives) -/

/-- Library type `cv::Size`. -/
structure Size where
  width : Int
  height : Int

/-- What the clock and the chessboard search answer during one `Calibration::Run`:
`now` is read by `frameRateTimer`, `detectionNow` by `chessboardDetectionTimer`;
each search result is the returned flag and the corners written. -/
structure CalibrationPoll where
  now : Nat
  detectionNow : Nat
  findChessboardCornersSB : Bool × List Point2
  findChessboardCorners : Bool × List Point2

/-- Data members of `Calibration`. -/
structure Calibration where
  inputImage : Mat
  outputImage : Mat
  isCaptureImage : Bool
  isChessboardDetectedCurrent : Bool
  isChessboardDetectedPrevious : Bool
  isChessboardAcquired : Bool
  isCalibrated : Bool
  currentFrameNumber : Nat
  lastFrameNumber : Nat
  chessboardIntersections : Size
  squareSize : ℝ
  capturedCoordinates : List (List (ℝ × ℝ × ℝ))
  capturedCorners : List (List Point2)
  capturedImages : List Mat
  calibrationData : CalibrationData
  frameRateTimer : FrameRateTimer
  chessboardDetectionTimer : ExecutionTimer

/-- Member function `Calibration::Calibration`. -/
def Calibration.new (camera : Camera) (now : Nat) : Calibration :=
  { inputImage := camera.CopyImageTo, outputImage := camera.CopyImageTo,
    isCaptureImage := false, isChessboardDetectedCurrent := false,
    isChessboardDetectedPrevious := false, isChessboardAcquired := false,
    isCalibrated := false, currentFrameNumber := 0, lastFrameNumber := 0,
    chessboardIntersections := ⟨24, 17⟩, squareSize := 1.0,
    capturedCoordinates := [], capturedCorners := [], capturedImages := [],
    calibrationData := CalibrationData.default,
    frameRateTimer := FrameRateTimer.new now, chessboardDetectionTimer := ⟨now, 0⟩ }

/-- Member function `Calibration::Pause`. -/
def Calibration.Pause (cal : Calibration) (now : Nat) : Calibration :=
  { cal with frameRateTimer := cal.frameRateTimer.Reset now }

/-- The block of `Calibration::Run` guarded by `isCaptureImage` (lines 74-115), after
`isChessboardDetectedCurrent` was cleared. -/
def Calibration.capture (cal : Calibration) (poll : CalibrationPoll) : Calibration × List Signal :=
  let search := if cal.isChessboardDetectedPrevious then poll.findChessboardCornersSB
                else poll.findChessboardCorners
  let chessboardCorners := search.2
  let cal1 := { cal with isChessboardDetectedCurrent := search.1 }
  let r : Calibration × List Signal :=
    if cal1.isChessboardDetectedCurrent && !cal1.isChessboardDetectedPrevious then
      ({ cal1 with chessboardDetectionTimer := cal1.chessboardDetectionTimer.Start poll.detectionNow },
       [])
    else if cal1.isChessboardDetectedCurrent && cal1.isChessboardDetectedPrevious then
      let cal2 := { cal1 with chessboardDetectionTimer :=
                      cal1.chessboardDetectionTimer.MeasureElapsedTime poll.detectionNow }
      if 2000 < cal2.chessboardDetectionTimer.duration then
        let cal3 := { cal2 with capturedCorners := cal2.capturedCorners ++ [chessboardCorners],
                                capturedImages := cal2.capturedImages ++ [cal2.inputImage],
                                inputImage := ⟨cal2.inputImage.rows, cal2.inputImage.cols, Pixels.zeros⟩,
                                isChessboardAcquired := true }
        (cal3, Signal.NumImagesChanged cal3.capturedImages.length ::
          (if 12 ≤ cal3.capturedImages.length then [Signal.MinimumImagesCaptured] else []))
      else (cal2, [])
    else (cal1, [])
  ({ r.1 with inputImage := ⟨r.1.inputImage.rows, r.1.inputImage.cols,
                  Pixels.chessboardCorners r.1.inputImage.pixels
                    r.1.chessboardIntersections.width r.1.chessboardIntersections.height
                    chessboardCorners r.1.isChessboardDetectedCurrent⟩,
              isChessboardDetectedPrevious := r.1.isChessboardDetectedCurrent }, r.2)

/-- Member function `Calibration::Run`, reading the camera it refers to. -/
def Calibration.Run (cal : Calibration) (camera : Camera) (poll : CalibrationPoll) :
    Calibration × List Signal :=
  let cal1 := { cal with currentFrameNumber := camera.GetFrameNumber }
  if cal1.lastFrameNumber = cal1.currentFrameNumber then (cal1, [])
  else
    let copied := camera.CopyImageTo
    let cal2 := { cal1 with inputImage := ⟨copied.rows, copied.cols, Pixels.grayAsBgr copied.pixels⟩,
                            isChessboardDetectedCurrent := false }
    let r := if cal2.isCaptureImage then cal2.capture poll else (cal2, [])
    let cal3 := { r.1 with outputImage := r.1.inputImage,
                           lastFrameNumber := r.1.currentFrameNumber,
                           frameRateTimer := r.1.frameRateTimer.Update poll.now }
    if cal3.isChessboardAcquired then
      ({ cal3 with isChessboardDetectedCurrent := false, isChessboardDetectedPrevious := false,
                   isChessboardAcquired := false, isCaptureImage := false }, r.2)
    else (cal3, r.2)

/-! ## AppManager -/

/-- Modelled from the spec: `AppManager.h` is not among the sources; the operating
mode is one of the two enumerators the sources name. -/
inductive AppMode where
  | Tracking
  | Calibration
  deriving DecidableEq

/-- The calls `AppManager::RunProcessingThread` makes on its members. -/
inductive StageCall where
  | cameraRun
  | markerDetectionRun
  | markerDetectionPause
  | networkCommunicationRun
  | networkCommunicationPause
  | calibrationRun
  | calibrationPause
  deriving DecidableEq

/-- Data members of `AppManager`. -/
structure AppManager where
  camera : Camera
  calibration : Calibration
  markerDetection : MarkerDetection
  networkCommunication : NetworkCommunication ℝ
  mode : AppMode
  isRunning : Bool

/-- The answers of device, clock, detector and socket during one loop iteration. -/
structure IterationPoll where
  device : DevicePoll
  detection : DetectionPoll
  network : NetworkPoll
  calibration : CalibrationPoll

/-- The outcome of one loop iteration: the new members, the member calls in the
order made, and the signals and `writeDatagram` calls they emitted. -/
structure IterationResult where
  app : AppManager
  calls : List StageCall
  signals : List Signal
  datagrams : List WriteDatagram

/-- Member function `AppManager::SetMode`. -/
def AppManager.SetMode (app : AppManager) (mode : AppMode) : AppManager :=
  { app with mode := mode }

/-- The body of the `while (isRunning)` loop of `AppManager::RunProcessingThread`. -/
def AppManager.iteration (floatBits : ℝ → Nat) (app : AppManager) (poll : IterationPoll) :
    IterationResult :=
  let cameraRun := app.camera.Run poll.device
  let camera := cameraRun.1
  if camera.GetIsConnected then
    match app.mode with
    | AppMode.Calibration =>
      let markerDetection := app.markerDetection.Pause poll.detection.now
      let networkCommunication := app.networkCommunication.Pause poll.network.now
      let calibrationRun := app.calibration.Run camera poll.calibration
      { app := { app with camera := camera, markerDetection := markerDetection,
                          networkCommunication := networkCommunication,
                          calibration := calibrationRun.1 },
        calls := [StageCall.cameraRun, StageCall.markerDetectionPause,
                  StageCall.networkCommunicationPause, StageCall.calibrationRun],
        signals := cameraRun.2 ++ calibrationRun.2,
        datagrams := [] }
    | AppMode.Tracking =>
      let markerDetection := app.markerDetection.Run camera poll.detection
      let networkRun := app.networkCommunication.Run floatBits markerDetection.GetFrameNumber
        markerDetection.GetTrackingData poll.network
      let calibration := app.calibration.Pause poll.calibration.now
      { app := { app with camera := camera, markerDetection := markerDetection,
                          networkCommunication := networkRun.1, calibration := calibration },
        calls := [StageCall.cameraRun, StageCall.markerDetectionRun,
                  StageCall.networkCommunicationRun, StageCall.calibrationPause],
        signals := cameraRun.2,
        datagrams := networkRun.2 }
  else
    { app := { app with camera := camera,
                        markerDetection := app.markerDetection.Pause poll.detection.now,
                        networkCommunication := app.networkCommunication.Pause poll.network.now,
                        calibration := app.calibration.Pause poll.calibration.now },
      calls := [StageCall.cameraRun, StageCall.markerDetectionPause,
                StageCall.networkCommunicationPause, StageCall.calibrationPause],
      signals := cameraRun.2,
      datagrams := [] }

/-! ## Calibration: capture control, persistence -/

/-- Member function `Calibration::CaptureImage`. -/
def Calibration.CaptureImage (cal : Calibration) : Calibration :=
  { cal with isCaptureImage := true }

/-- Member function `Calibration::ClearImages`. -/
def Calibration.ClearImages (cal : Calibration) : Calibration × List Signal :=
  ({ cal with capturedCorners := [], capturedImages := [] }, [Signal.NumImagesChanged 0])

/-- Member function `Calibration::GetIsCalibrated`. -/
def Calibration.GetIsCalibrated (cal : Calibration) : Bool := cal.isCalibrated

/-- Member function `Calibration::GetFrameRate`. -/
def Calibration.GetFrameRate (cal : Calibration) : Rate := cal.frameRateTimer.frameRate

/-- Member function `Calibration::UpdateCalibrationParameters`. -/
def Calibration.UpdateCalibrationParameters (cal : Calibration) (chessboardIntersections : Size)
    (squareSize : ℝ) : Calibration :=
  { cal with chessboardIntersections := chessboardIntersections, squareSize := squareSize }

/-- Enumeration `CalibrationLoadResult` of `calibration.h`. -/
inductive CalibrationLoadResult where
  | Succeeded
  | FileDoesNotExist
  | FileParseError
  deriving DecidableEq

/-- Enumeration `CalibrationSaveResult` of `calibration.h`. -/
inductive CalibrationSaveResult where
  | Succeeded
  | CalibrationError
  | ImagesError
  | Failed
  deriving DecidableEq

/-- How the `try` block of `Calibration::LoadCalibration` ends: the storage does not
open, the three entries are read, or a `cv::Exception` is raised after the listed
members of `calibrationData` were assigned. -/
inductive ProfileRead where
  | notOpened
  | parsed (imageSize : Size) (cameraMatrix distortionCoefficients : Nat)
  | raised (cameraMatrix distortionCoefficients : Option Nat)

/-- Whether the `try` block of `Calibration::LoadCalibration` raises. -/
def ProfileRead.raises : ProfileRead → Bool
  | ProfileRead.raised _ _ => true
  | _ => false

/-- What the file system and the vision library answer during one
`Calibration::LoadCalibration`: whether `calibration.yml` exists, how reading it ends,
and the identifiers of the tables `cv::initUndistortRectifyMap` computes. -/
structure LoadPoll where
  fileExists : Bool
  read : ProfileRead
  distortMapTag : Nat
  undistortMapTag : Nat

/-- The block of `Calibration::LoadCalibration` run when `loadResult` is still
`Succeeded` (lines 165-181), for the `imageSize` read. -/
def Calibration.install (cal : Calibration) (camera : Camera) (imageSize : Size)
    (poll : LoadPoll) : Calibration × Camera :=
  let calibrationData : CalibrationData :=
    { cal.calibrationData with
      distortMap := ⟨imageSize.height.toNat, imageSize.width.toNat, poll.distortMapTag⟩,
      undistortMap := ⟨imageSize.height.toNat, imageSize.width.toNat, poll.undistortMapTag⟩,
      type := CalibrationType.Saved }
  ({ cal with calibrationData := calibrationData, isCalibrated := true },
   (camera.Calibrate calibrationData).ToggleCalibration true)

/-- Member function `Calibration::LoadCalibration`, acting on the camera it refers to. -/
def Calibration.LoadCalibration (cal : Calibration) (camera : Camera) (poll : LoadPoll) :
    Calibration × Camera × CalibrationLoadResult :=
  if !poll.fileExists then (cal, camera, CalibrationLoadResult.FileDoesNotExist)
  else
    match poll.read with
    | ProfileRead.raised cameraMatrix distortionCoefficients =>
      ({ cal with calibrationData :=
          { cal.calibrationData with
            cameraMatrix := cameraMatrix.getD cal.calibrationData.cameraMatrix,
            distortionCoefficients :=
              distortionCoefficients.getD cal.calibrationData.distortionCoefficients } },
       camera, CalibrationLoadResult.FileParseError)
    | ProfileRead.notOpened =>
      let r := cal.install camera ⟨0, 0⟩ poll
      (r.1, r.2, CalibrationLoadResult.Succeeded)
    | ProfileRead.parsed imageSize cameraMatrix distortionCoefficients =>
      let r := Calibration.install
        { cal with calibrationData :=
            { cal.calibrationData with cameraMatrix := cameraMatrix,
                                       distortionCoefficients := distortionCoefficients } }
        camera imageSize poll
      (r.1, r.2, CalibrationLoadResult.Succeeded)

/-- What the file system answers during one `Calibration::SaveCalibration`: whether
the storage for `calibration.yml` opens, whether the first `try` block raises a
`cv::Exception`, and the index of the loop iteration whose `cv::imwrite` raises one,
if any. -/
structure SavePoll where
  profileOpened : Bool
  profileRaises : Bool
  imageRaisesAt : Option Nat

/-- A file written by `Calibration::SaveCalibration`: the profile (`imageSize`,
`cameraMatrix`, `distortionCoefficients`) or the image `image_<number>.png`. -/
inductive FileWrite where
  | profile (rows cols : Nat) (cameraMatrix distortionCoefficients : Nat)
  | image (number : Nat) (image : Mat)

/-- Whether the second `try` block of `Calibration::SaveCalibration` raises when it
writes `count` images. -/
def SavePoll.imagesRaise (poll : SavePoll) (count : Nat) : Bool :=
  match poll.imageRaisesAt with
  | some index => decide (index < count)
  | none => false

/-- The `cv::imwrite` calls of the loop of `Calibration::SaveCalibration` from index
`i` on that complete: `image_<i+1>.png` holds `capturedImages[i]`. -/
def writeImages (imageRaisesAt : Option Nat) : Nat → List Mat → List FileWrite
  | _, [] => []
  | i, image :: rest =>
    if imageRaisesAt = some i then []
    else FileWrite.image (i + 1) image :: writeImages imageRaisesAt (i + 1) rest

/-- The outcome of `Calibration::SaveCalibration`: the objects afterwards, the value
returned and the files written. -/
structure SaveOutcome where
  calibration : Calibration
  camera : Camera
  saveResult : CalibrationSaveResult
  written : List FileWrite

/-- Member function `Calibration::SaveCalibration`, acting on the camera it refers to. -/
def Calibration.SaveCalibration (cal : Calibration) (camera : Camera) (poll : SavePoll) :
    SaveOutcome :=
  let afterProfile : CalibrationSaveResult × List FileWrite :=
    if poll.profileRaises then (CalibrationSaveResult.CalibrationError, [])
    else if poll.profileOpened then
      (CalibrationSaveResult.Succeeded,
       [FileWrite.profile cal.inputImage.rows cal.inputImage.cols cal.calibrationData.cameraMatrix
          cal.calibrationData.distortionCoefficients])
    else (CalibrationSaveResult.Succeeded, [])
  let images := writeImages poll.imageRaisesAt 0 cal.capturedImages
  let saveResult :=
    if poll.imagesRaise cal.capturedImages.length then
      if afterProfile.1 = CalibrationSaveResult.CalibrationError then CalibrationSaveResult.Failed
      else CalibrationSaveResult.ImagesError
    else afterProfile.1
  let calibrationData := { cal.calibrationData with type := CalibrationType.Saved }
  { calibration := { cal with calibrationData := calibrationData, isCalibrated := true },
    camera := (camera.Calibrate calibrationData).ToggleCalibration true,
    saveResult := saveResult,
    written := afterProfile.2 ++ images }

/-! ## MarkerDetection: marker images -/

/-- One iteration of the loop of `MarkerDetection::GenerateMarkerImages` that completes:
`cv::aruco::drawMarker(markerDictionary, id, imageSize, markerImage, 1)` and the write of
`markers/marker-<id>.png`. -/
structure MarkerImage where
  dictionary : Dictionary
  id : Nat
  imageSize : Int

/-- The iterations `i, i + 1, ...` of the loop of `MarkerDetection::GenerateMarkerImages`
that complete, `remaining` being the number of iterations up to the loop bound;
`raisesAt` is the index of the iteration whose rendering or write raises, if any. -/
def renderMarkers (dictionary : Dictionary) (imageSize : Int) (raisesAt : Option Nat) :
    Nat → Nat → List MarkerImage
  | _, 0 => []
  | i, remaining + 1 =>
    if raisesAt = some i then []
    else ⟨dictionary, i, imageSize⟩ :: renderMarkers dictionary imageSize raisesAt (i + 1) remaining

/-- Member function `MarkerDetection::GenerateMarkerImages`: the images written and the
value returned. The loop runs `i` from 0 while `i < detectorParameters.markerDictionarySize`
and returns false when an iteration raises a `cv::Exception`. -/
def MarkerDetection.GenerateMarkerImages (md : MarkerDetection) (imageSize : Int)
    (raisesAt : Option Nat) : List MarkerImage × Bool :=
  (renderMarkers md.markerDictionary imageSize raisesAt 0
      md.detectorParameters.markerDictionarySize.toNat,
   match raisesAt with
   | some index => !decide (index < md.detectorParameters.markerDictionarySize.toNat)
   | none => true)

/-- A sequence of `MarkerDetection::UpdateDetectorParameters` calls. -/
def MarkerDetection.updates (md : MarkerDetection) : List DetectorParameterData → MarkerDetection
  | [] => md
  | detectorParameters :: rest =>
    MarkerDetection.updates (md.UpdateDetectorParameters detectorParameters) rest

/-- A sequence of `MarkerDetection::Run` calls, each with the camera state it reads. -/
def MarkerDetection.runs (md : MarkerDetection) : List (Camera × DetectionPoll) → MarkerDetection
  | [] => md
  | step :: rest => MarkerDetection.runs (md.Run step.1 step.2) rest

/-! ## Calibration: the solve -/

/-- What the vision library answers during one `Calibration::CalibrateCamera`: the
error `cv::calibrateCamera` returns, identifiers of the two matrices it computes and of
the two tables `cv::initUndistortRectifyMap` computes. -/
structure SolvePoll where
  rmsError : ℝ
  cameraMatrix : Nat
  distortionCoefficients : Nat
  distortMapTag : Nat
  undistortMapTag : Nat

/-- The `chessboardCoordinates` the nested loops of `Calibration::CalibrateCamera`
build (lines 246-249): `y` runs over the height in the outer loop, `x` over the width in
the inner loop, and each iteration appends `(squareSize * x, squareSize * y, 0)`. -/
def chessboardCoordinates (chessboardIntersections : Size) (squareSize : ℝ) :
    List (ℝ × ℝ × ℝ) :=
  ((List.range chessboardIntersections.height.toNat).map (fun (y : Nat) =>
    (List.range chessboardIntersections.width.toNat).map (fun (x : Nat) =>
      (squareSize * (x : ℝ), squareSize * (y : ℝ), (0 : ℝ))))).flatten

/-- Member function `Calibration::CalibrateCamera`, acting on the camera it refers to:
the new engine, the new camera and the signal emitted. -/
def Calibration.CalibrateCamera (cal : Calibration) (camera : Camera) (poll : SolvePoll) :
    Calibration × Camera × List Signal :=
  let coordinates := chessboardCoordinates cal.chessboardIntersections cal.squareSize
  let cal1 := { cal with capturedCoordinates := cal.capturedImages.map (fun _ => coordinates) }
  let calibrationData : CalibrationData :=
    { cameraMatrix := poll.cameraMatrix, distortionCoefficients := poll.distortionCoefficients,
      distortMap := ⟨cal1.inputImage.rows, cal1.inputImage.cols, poll.distortMapTag⟩,
      undistortMap := ⟨cal1.inputImage.rows, cal1.inputImage.cols, poll.undistortMapTag⟩,
      type := CalibrationType.Preview }
  ({ cal1 with calibrationData := calibrationData }, camera.Calibrate calibrationData,
   [Signal.CalibrationDone poll.rmsError])

/-- A sequence of `Calibration::Run` calls, each with the camera state it reads. -/
def Calibration.runs (cal : Calibration) : List (Camera × CalibrationPoll) → Calibration
  | [] => cal
  | step :: rest => Calibration.runs (cal.Run step.1 step.2).1 rest

/-- The states of `Calibration` a program can reach: the constructed engine, and the
result of any public member function on a reachable state. -/
inductive Calibration.Reachable : Calibration → Prop where
  | new (camera : Camera) (now : Nat) : Calibration.Reachable (Calibration.new camera now)
  | Pause {cal : Calibration} (h : Calibration.Reachable cal) (now : Nat) :
      Calibration.Reachable (cal.Pause now)
  | Run {cal : Calibration} (h : Calibration.Reachable cal) (camera : Camera)
      (poll : CalibrationPoll) : Calibration.Reachable (cal.Run camera poll).1
  | UpdateCalibrationParameters {cal : Calibration} (h : Calibration.Reachable cal)
      (chessboardIntersections : Size) (squareSize : ℝ) :
      Calibration.Reachable (cal.UpdateCalibrationParameters chessboardIntersections squareSize)
  | LoadCalibration {cal : Calibration} (h : Calibration.Reachable cal) (camera : Camera)
      (poll : LoadPoll) : Calibration.Reachable (cal.LoadCalibration camera poll).1
  | SaveCalibration {cal : Calibration} (h : Calibration.Reachable cal) (camera : Camera)
      (poll : SavePoll) : Calibration.Reachable (cal.SaveCalibration camera poll).calibration
  | CaptureImage {cal : Calibration} (h : Calibration.Reachable cal) :
      Calibration.Reachable cal.CaptureImage
  | CalibrateCamera {cal : Calibration} (h : Calibration.Reachable cal) (camera : Camera)
      (poll : SolvePoll) : Calibration.Reachable (cal.CalibrateCamera camera poll).1
  | ClearImages {cal : Calibration} (h : Calibration.Reachable cal) :
      Calibration.Reachable cal.ClearImages.1

/-! ## Repeated rate updates -/

/-- The timer after `count` calls of `FrameRateTimer::Update`, each made `period`
nanoseconds after the previous measurement. -/
def FrameRateTimer.ticks (t : FrameRateTimer) (period : Nat) : Nat → FrameRateTimer
  | 0 => t
  | count + 1 =>
    (FrameRateTimer.ticks t period count).Update
      ((FrameRateTimer.ticks t period count).startTime + period)

/-! ## Mutexes held around library calls -/

/-- The mutex members of the components: `Camera::cameraParametersMutex`, the four of
`MarkerDetection`, `NetworkCommunication::udpParametersMutex` and the two of
`Calibration` (both classes have an `outputImageMutex`). -/
inductive Mutex where
  | cameraParametersMutex
  | markerOutputImageMutex
  | trackingAreaMutex
  | trackingDataMutex
  | detectorParametersMutex
  | udpParametersMutex
  | calibrationParametersMutex
  | calibrationOutputImageMutex
  deriving DecidableEq

/-- The detection, generation and I/O calls made by `MarkerDetection::Run`,
`MarkerDetection::GenerateMarkerImages`, `NetworkCommunication::Run` and
`Calibration::Run`. -/
inductive LibraryCall where
  | generateCustomDictionary
  | detectMarkers
  | drawMarker
  | imwrite
  | writeDatagram
  | findChessboardCornersSB
  | findChessboardCorners
  deriving DecidableEq

/-- What a member function does with mutexes, in program order: a `std::lock_guard`
is constructed (`lock`), leaves its scope (`unlock`), or a library call is made. -/
inductive Event where
  | lock (mutex : Mutex)
  | unlock (mutex : Mutex)
  | call (libraryCall : LibraryCall)
  deriving DecidableEq

/-- The events of `MarkerDetection::Run`: the block under `detectorParametersMutex`
(lines 80-110) with the dictionary generation when size or bit length differ, the block
under `trackingAreaMutex` (113-119), the detector call on a non-empty sub-image
(122-124), the block under `trackingDataMutex` (133-194) and the copy under
`outputImageMutex` (196-199). -/
def MarkerDetection.RunEvents (md : MarkerDetection) (camera : Camera) : List Event :=
  if md.lastFrameNumber = camera.GetFrameNumber then []
  else
    [Event.lock Mutex.detectorParametersMutex] ++
    (if md.markerDictionary.bytesListRows ≠ md.detectorParameters.markerDictionarySize ∨
        md.markerDictionary.markerSize ≠ md.detectorParameters.markerNumBits then
      [Event.call LibraryCall.generateCustomDictionary] else []) ++
    [Event.unlock Mutex.detectorParametersMutex,
     Event.lock Mutex.trackingAreaMutex, Event.unlock Mutex.trackingAreaMutex] ++
    (if !(camera.CopyImageTo.roi
          (trackingAreaInPixels md.trackingArea camera.CopyImageTo).toRect).empty then
      [Event.call LibraryCall.detectMarkers] else []) ++
    [Event.lock Mutex.trackingDataMutex, Event.unlock Mutex.trackingDataMutex,
     Event.lock Mutex.markerOutputImageMutex, Event.unlock Mutex.markerOutputImageMutex]

/-- The events of `MarkerDetection::GenerateMarkerImages`: the guard of
`detectorParametersMutex` is constructed on entry (line 222) and lives to the return;
each loop iteration that completes calls `drawMarker` and `imwrite` (227-228). -/
def MarkerDetection.GenerateMarkerImagesEvents (md : MarkerDetection) (imageSize : Int)
    (raisesAt : Option Nat) : List Event :=
  [Event.lock Mutex.detectorParametersMutex] ++
  ((md.GenerateMarkerImages imageSize raisesAt).1.map (fun _ =>
    [Event.call LibraryCall.drawMarker, Event.call LibraryCall.imwrite])).flatten ++
  [Event.unlock Mutex.detectorParametersMutex]

/-- The events of `NetworkCommunication::Run`: on a new frame number the send block
reaches the inner block of lines 77-81, which constructs the guard of
`udpParametersMutex` and calls `socket.writeDatagram` inside it; a send block that
raises is taken to raise before that block. -/
def NetworkCommunication.RunEvents {F : Type} (nc : NetworkCommunication F) (frameNumber : Nat)
    (poll : NetworkPoll) : List Event :=
  if nc.lastFrameNumber = frameNumber then []
  else
    match poll.outcome with
    | SendOutcome.raised => []
    | _ => [Event.lock Mutex.udpParametersMutex, Event.call LibraryCall.writeDatagram,
            Event.unlock Mutex.udpParametersMutex]

/-- The events of `Calibration::Run`: when capture is armed, the guard of
`calibrationParametersMutex` is constructed at the top of the `if (isCaptureImage)`
block (line 75) and lives to its end (line 114), around the chessboard search (78-88);
the copy to `outputImage` is under `outputImageMutex` (117-120). -/
def Calibration.RunEvents (cal : Calibration) (camera : Camera) : List Event :=
  if cal.lastFrameNumber = camera.GetFrameNumber then []
  else
    (if cal.isCaptureImage then
      [Event.lock Mutex.calibrationParametersMutex,
       Event.call (if cal.isChessboardDetectedPrevious then LibraryCall.findChessboardCornersSB
                   else LibraryCall.findChessboardCorners),
       Event.unlock Mutex.calibrationParametersMutex]
     else []) ++
    [Event.lock Mutex.calibrationOutputImageMutex, Event.unlock Mutex.calibrationOutputImageMutex]

/-- The library calls of a sequence of events, each with the mutexes held while it
runs (the most recently locked first), starting with `held`. -/
def callsWithHeld : List Mutex → List Event → List (LibraryCall × List Mutex)
  | _, [] => []
  | held, Event.lock mutex :: rest => callsWithHeld (mutex :: held) rest
  | held, Event.unlock mutex :: rest => callsWithHeld (held.erase mutex) rest
  | held, Event.call libraryCall :: rest => (libraryCall, held) :: callsWithHeld held rest

/-! ## Copying the output frame of the camera across threads -/

/-- Whose statement runs next in a schedule of the pipeline thread and a consumer thread. -/
inductive Turn where
  | pipeline
  | consumer
  deriving DecidableEq

/-- The memory both threads touch while `Camera::GetFrame` stores a new frame in
`outputImage` (`cv::rotate(calibratedImage, outputImage, ...)` or
`calibratedImage.copyTo(outputImage)`, lines 289-296) and `Camera::CopyImageTo` copies
`outputImage` to `destinationImage` (line 76). Neither function locks a mutex. An image
is a list of cells stored and copied one after the other, in order: `stored` are the
cells of the new frame already in `outputImage`, `stale` the cells of `outputImage` that
still hold the previous frame, `pending` the cells of the new frame not yet stored, and
`copied` the cells already in `destinationImage`. -/
structure FrameCopy where
  stored : List Nat
  stale : List Nat
  pending : List Nat
  copied : List Nat

/-- The content of `outputImage`. -/
def FrameCopy.outputImage (s : FrameCopy) : List Nat := s.stored ++ s.stale

/-- The memory when `outputImage` holds `previous`, `Camera::GetFrame` is about to store
`next` and `Camera::CopyImageTo` is about to copy. -/
def FrameCopy.start (previous next : List Nat) : FrameCopy := ⟨[], previous, next, []⟩

/-- One turn: the pipeline thread stores the next cell of the new frame, or the consumer
thread copies the next cell of `outputImage`; a thread that has finished does nothing. -/
def FrameCopy.step (s : FrameCopy) : Turn → FrameCopy
  | Turn.pipeline =>
    match s.pending with
    | [] => s
    | cell :: rest => { s with stored := s.stored ++ [cell], stale := s.stale.tail, pending := rest }
  | Turn.consumer =>
    match s.outputImage[s.copied.length]? with
    | none => s
    | some cell => { s with copied := s.copied ++ [cell] }

/-- The memory after the turns of a schedule. -/
def FrameCopy.run (s : FrameCopy) : List Turn → FrameCopy
  | [] => s
  | turn :: rest => FrameCopy.run (s.step turn) rest

/-! ## The angle in binary floating-point arithmetic -/

/-- The integer nearest to `q`, the even one of two equally near (round half to even). -/
def roundHalfEven (q : ℝ) : ℤ :=
  if q - ⌊q⌋ < 1 / 2 then ⌊q⌋
  else if 1 / 2 < q - ⌊q⌋ then ⌊q⌋ + 1
  else if Even ⌊q⌋ then ⌊q⌋ else ⌊q⌋ + 1

/-- The unit in the last place of the binary floating-point numbers of the given
precision around `x`: `2 ^ (e - (precision - 1))` for `2 ^ e <= |x| < 2 ^ (e + 1)`. -/
def ulpBinary (precision : Nat) (x : ℝ) : ℝ :=
  (2 : ℝ) ^ (Int.log 2 |x| - ((precision : ℤ) - 1))

/-- The binary floating-point number of the given precision (number of significand
bits) nearest to `x`, ties to the even significand, as IEEE 754 arithmetic rounds every
result. The exponent range is not bounded (overflow, underflow and subnormal numbers are
not modelled), and the two zeros are one number. -/
def roundBinary (precision : Nat) (x : ℝ) : ℝ :=
  if x = 0 then 0
  else (if x < 0 then -1 else 1)
    * ((roundHalfEven (|x| / ulpBinary precision x) : ℤ) : ℝ) * ulpBinary precision x

/-- Rounding to `double` (binary64, 53 significand bits). -/
def binary64 (x : ℝ) : ℝ := roundBinary 53 x

/-- A 32-bit word as the layout of the network-publish interface transmits it: four
bytes, the digits of the word in base 256, least significant first. -/
def littleEndian32 (w : Nat) : List Nat := (List.range 4).map (fun i => w / 256 ^ i % 256)

/-- One record of the payload layout as bytes: `int32 id`, then `float32 centerX`,
`centerY`, `angleDegrees`, `normalizedSize`, 20 bytes in all. -/
def layoutRecord {F : Type} (floatBits : F → Nat) (markerData : MarkerData F) : List Nat :=
  littleEndian32 (int32Bits markerData.id) ++ littleEndian32 (floatBits markerData.center.1) ++
  littleEndian32 (floatBits markerData.center.2) ++ littleEndian32 (floatBits markerData.angle) ++
  littleEndian32 (floatBits markerData.size)

/-- The entries of a `std::map<int, MarkerData>` as `MarkerDetection::Run` fills it:
keys strictly ascending in iteration order, each entry stored under its own `id`. -/
def StdMap.Keyed {F : Type} (m : StdMap (MarkerData F)) : Prop :=
  List.Pairwise (fun a b => a < b) m.keys ∧ ∀ entry ∈ m, entry.2.id = entry.1


/-- The normalisation of a sub-image pixel as the specification words it: the pixel
origin of the tracking area in a `W` x `H` frame is added back, then the sum is divided
by the frame size. -/
def normalizedAgainstFrame (p : Point2) (trackingArea : Rect2d) (W H : ℝ) : ℝ × ℝ :=
  ((p.x + trackingArea.x * W) / W, (p.y + trackingArea.y * H) / H)

/-- All four corners of a detection lie in the rectangle `[0, width] x [0, height]`. -/
def Detection.Inside (d : Detection) (width height : ℝ) : Prop :=
  ∀ p ∈ [d.corner0, d.corner1, d.corner2, d.corner3],
    0 ≤ p.x ∧ p.x ≤ width ∧ 0 ≤ p.y ∧ p.y ≤ height

/-- Both coordinates lie in `[0, 1]`. -/
def InUnitSquare (p : ℝ × ℝ) : Prop := 0 ≤ p.1 ∧ p.1 ≤ 1 ∧ 0 ≤ p.2 ∧ p.2 ≤ 1

/-- The `markerIds` a detection pass works with: empty when the tracking sub-image is
empty (the detector is not called), else the ids the detector returned. -/
def MarkerDetection.passDetections (md : MarkerDetection) (camera : Camera)
    (poll : DetectionPoll) : List Detection :=
  if (camera.CopyImageTo.roi (trackingAreaInPixels md.trackingArea camera.CopyImageTo).toRect).empty
  then [] else poll.detected

/-- The remap tables applied, outermost first, in the expression of an image content. -/
def Pixels.remaps : Pixels → List (MapTable × MapTable)
  | Pixels.remap src map1 map2 => (map1, map2) :: src.remaps
  | Pixels.rotate180 src => src.remaps
  | Pixels.region src _ _ => src.remaps
  | Pixels.grayAsBgr src => src.remaps
  | Pixels.chessboardCorners src _ _ _ _ => src.remaps
  | Pixels.unset => []
  | Pixels.zeros => []
  | Pixels.raster _ => []

/-- The dictionary has the size and the bit length of the detector configuration. -/
def MarkerDetection.InSync (md : MarkerDetection) : Prop :=
  md.markerDictionary.bytesListRows = md.detectorParameters.markerDictionarySize ∧
  md.markerDictionary.markerSize = md.detectorParameters.markerNumBits

/-- Whether a `Calibration::Run` commits a capture: the capture set grows by one image. -/
def Calibration.commits (cal : Calibration) (camera : Camera) (poll : CalibrationPoll) : Prop :=
  (cal.Run camera poll).1.capturedImages.length = cal.capturedImages.length + 1

/-- The result of the chessboard search a `Calibration::Run` makes: the exhaustive search
when the previous poll detected the board, else the fast check. -/
def Calibration.detectedNow (cal : Calibration) (poll : CalibrationPoll) : Bool :=
  if cal.isChessboardDetectedPrevious then poll.findChessboardCornersSB.1
  else poll.findChessboardCorners.1

/-- The `duration` the detection timer reads in this `Calibration::Run`: the
milliseconds from its last `Start` to the clock reading `poll.detectionNow`. -/
def Calibration.heldMilliseconds (cal : Calibration) (poll : CalibrationPoll) : Nat :=
  (cal.chessboardDetectionTimer.MeasureElapsedTime poll.detectionNow).duration

/-! ## Example inputs -/

/-- An observation over `float` bit patterns: id, centre, angle and size words. -/
def exampleMarker (id : Int) (x y angle size : Nat) : MarkerData Nat :=
  { id := id, topLeft := (0, 0), topRight := (0, 0), bottomRight := (0, 0), bottomLeft := (0, 0),
    center := (x, y), angle := angle, size := size }

/-- A map of two observations, ids `-3` and `5`; the words are the binary32 patterns
of `0.25`, `0.5`, `90.0`, `0.0625` and of `0.75`, `0.5`, `-45.0`, `0.125`. -/
def exampleSnapshot : StdMap (MarkerData Nat) :=
  [(-3, exampleMarker (-3) 1048576000 1056964608 1119092736 1031798784),
   (5, exampleMarker 5 1061158912 1056964608 3258187776 1040187392)]

/-- Detector parameters for the examples (the values of `DetectorParameterData.h`). -/
def exampleDetectorParameters : DetectorParameters :=
  { adaptiveThreshWinSizeMin := 3, adaptiveThreshWinSizeMax := 23, adaptiveThreshWinSizeStep := 10,
    adaptiveThreshConstant := 10, minMarkerPerimeterRate := 0.02, maxMarkerPerimeterRate := 2.0,
    polygonalApproxAccuracyRate := 0.1, minCornerDistanceRate := 0.05,
    minMarkerDistanceRate := 0.05, minDistanceToBorder := 3, markerBorderBits := 1,
    minOtsuStdDev := 5.0, perspectiveRemovePixelPerCell := 8,
    perspectiveRemoveIgnoredMarginPerCell := 0.25, maxErroneousBitsInBorderRate := 0.35,
    errorCorrectionRate := 0.6 }

/-- A freshly constructed camera. -/
def exampleCamera : Camera := Camera.new false false 0

/-- A freshly constructed tracker on `exampleCamera`. -/
def exampleMarkerDetection : MarkerDetection :=
  MarkerDetection.new exampleCamera exampleDetectorParameters 0

/-- A device answer: one camera enumerated, initialisation succeeds, the device
streams and delivers a complete 3072 x 2048 raster. -/
def exampleDevicePoll : DevicePoll :=
  { now := 0, numCameras := 1, initRaises := false, statusRaises := false,
    isInitialized := true, isStreaming := true,
    grab := Grab.complete ⟨2048, 3072, Pixels.raster 0⟩ }

/-- A device answer with no camera enumerated. -/
def exampleNoDevicePoll : DevicePoll := { exampleDevicePoll with numCameras := 0 }

/-- A freshly constructed application in the given mode. -/
def exampleApp (mode : AppMode) : AppManager :=
  { camera := exampleCamera, calibration := Calibration.new exampleCamera 0,
    markerDetection := exampleMarkerDetection,
    networkCommunication := NetworkCommunication.new ℝ 1 2 0, mode := mode, isRunning := true }

/-- Answers for one loop iteration around a given device answer: nothing detected,
the send succeeds, no chessboard found. -/
def exampleIterationPoll (device : DevicePoll) : IterationPoll :=
  { device := device, detection := ⟨0, []⟩, network := ⟨0, SendOutcome.sent⟩,
    calibration := ⟨0, 0, (false, []), (false, [])⟩ }

/-- A detection whose corners are those of the axis-aligned rectangle with top-left
corner `(x, y)`, width `w` and height `h` (image y grows downwards). -/
def Detection.axisAligned (id : Int) (x y w h : ℝ) : Detection :=
  ⟨id, ⟨x, y⟩, ⟨x + w, y⟩, ⟨x + w, y + h⟩, ⟨x, y + h⟩⟩

/-- Midpoint of the top edge, `corners[0]` (top left) to `corners[1]` (top right). -/
def Detection.topEdgeMidpoint (d : Detection) : Point2 :=
  ⟨(d.corner0.x + d.corner1.x) / 2, (d.corner0.y + d.corner1.y) / 2⟩

/-- Midpoint of the right edge, `corners[1]` (top right) to `corners[2]` (bottom right). -/
def Detection.rightEdgeMidpoint (d : Detection) : Point2 :=
  ⟨(d.corner1.x + d.corner2.x) / 2, (d.corner1.y + d.corner2.y) / 2⟩

/-- Mean of the four corners. -/
def Detection.centroid (d : Detection) : Point2 :=
  ⟨(d.corner0.x + d.corner1.x + d.corner2.x + d.corner3.x) / 4,
   (d.corner0.y + d.corner1.y + d.corner2.y + d.corner3.y) / 4⟩

/-- Euclidean distance of two points. -/
def Point2.dist (p q : Point2) : ℝ := Real.sqrt ((p.x - q.x) ^ 2 + (p.y - q.y) ^ 2)

/-- The size as the specification words it: `4 r^2 / (W H)` with `r` the distance from
the centre to the midpoint of the top edge. -/
def Detection.sizeFromTopEdge (d : Detection) (W H : ℝ) : ℝ :=
  4 * (Point2.dist d.topEdgeMidpoint d.centroid) ^ 2 / (W * H)

/-- The angle as the specification words it: the angle in degrees between the vector
from the centre to the midpoint of the top edge and image-up, from the dot product
of the unit vectors, negated when the vector points to the image-left. -/
def Detection.angleFromTopEdge (d : Detection) : ℝ :=
  let v := (d.topEdgeMidpoint.sub d.centroid).normalize
  (if v.dot ⟨1, 0⟩ < 0 then -1 else 1) * kRadiansToDegrees * Real.arccos (v.dot ⟨0, -1⟩)

/-- A 3072 x 2048 image, the size `Camera::Camera` allocates. -/
def exampleImage : Mat := ⟨2048, 3072, Pixels.raster 0⟩

/-- An axis-aligned marker a quarter of the width and of the height of `exampleImage`. -/
def exampleQuarterMarker : Detection := Detection.axisAligned 0 0 0 768 512

/-- A marker with corners (0,0), (1,0), (1,1), (0,1). -/
def exampleUnitSquare : Detection := ⟨0, ⟨0, 0⟩, ⟨1, 0⟩, ⟨1, 1⟩, ⟨0, 1⟩⟩

/-- A marker seen as a trapezoid: corners (0,0), (2,0), (2,5), (0,2). The vector from
its centre (1, 7/4) to the midpoint (1, 0) of its top edge points straight up. -/
def exampleTrapezoid : Detection := ⟨7, ⟨0, 0⟩, ⟨2, 0⟩, ⟨2, 5⟩, ⟨0, 2⟩⟩

/-- A device answer delivering a complete 1920 x 1080 raster. -/
def exampleSmallFramePoll : DevicePoll :=
  { exampleDevicePoll with grab := Grab.complete ⟨1080, 1920, Pixels.raster 1⟩ }

/-- The fresh camera after it connected and acquired one 3072 x 2048 frame. -/
def exampleCameraAfterFrame : Camera := exampleCamera.runs [exampleDevicePoll, exampleDevicePoll]

/-- The fresh camera after it connected and acquired one 1920 x 1080 frame. -/
def exampleCameraSmallFrame : Camera :=
  exampleCamera.runs [exampleDevicePoll, exampleSmallFramePoll]

/-- The fresh tracker with the whole frame as tracking area. -/
def exampleFullAreaTracker : MarkerDetection :=
  exampleMarkerDetection.UpdateTrackingArea ⟨0, 0, 1, 1⟩

/-- The fresh tracker with the central half of the frame as tracking area. -/
def exampleCentralAreaTracker : MarkerDetection :=
  exampleMarkerDetection.UpdateTrackingArea ⟨1 / 4, 1 / 4, 1 / 2, 1 / 2⟩

/-- A 40 x 40 marker with id 3 whose top-left corner is at pixel (960, 540). -/
def exampleCentreMarker : Detection := Detection.axisAligned 3 960 540 40 40

/-- A 40 x 40 marker with id 5 whose top-left corner is at pixel (100, 200). -/
def exampleOtherMarker : Detection := Detection.axisAligned 5 100 200 40 40

/-- A device answer: one camera enumerated, and its initialisation raises a
`Spinnaker::Exception`. -/
def exampleInitRaisesPoll : DevicePoll := { exampleDevicePoll with initRaises := true }

/-- The configuration of `DetectorParameterData.h` with `markerNumBits` set to 5. -/
def exampleFiveBitParameters : DetectorParameterData := { markerNumBits := 5 }

/-- The configuration of `DetectorParameterData.h` with `markerDictionarySize` set to 30. -/
def exampleThirtyMarkerParameters : DetectorParameterData := { markerDictionarySize := 30 }

/-- The fresh tracker after `UpdateDetectorParameters` set `markerNumBits` to 5, with no
`Run` since. -/
def exampleReconfiguredTracker : MarkerDetection :=
  exampleMarkerDetection.UpdateDetectorParameters exampleFiveBitParameters

/-- A freshly constructed calibration engine on `exampleCamera`. -/
def exampleCalibration : Calibration := Calibration.new exampleCamera 0

/-- The fresh engine holding two captured images. -/
def exampleCalibrationTwoImages : Calibration :=
  { exampleCalibration with capturedImages := [exampleImage, ⟨1080, 1920, Pixels.raster 1⟩],
                            capturedCorners := [[], []] }

/-- The fresh engine and camera after a `SaveCalibration` in which both writes complete. -/
def exampleSaved : SaveOutcome := exampleCalibration.SaveCalibration exampleCamera ⟨true, false, none⟩

/-- File system answers: `calibration.yml` is absent. -/
def exampleAbsentPoll : LoadPoll := ⟨false, ProfileRead.notOpened, 0, 0⟩

/-- File system answers: `calibration.yml` is present and reading it raises at once. -/
def exampleUnparsablePoll : LoadPoll := ⟨true, ProfileRead.raised none none, 0, 0⟩

/-- File system answers: `calibration.yml` is present and holds a 1920 x 1080 profile. -/
def exampleProfilePoll : LoadPoll := ⟨true, ProfileRead.parsed ⟨1920, 1080⟩ 7 8, 30, 31⟩

/-- The fresh camera after it connected and acquired two 3072 x 2048 frames. -/
def exampleCameraTwoFrames : Camera :=
  exampleCamera.runs [exampleDevicePoll, exampleDevicePoll, exampleDevicePoll]

/-- Answers for one `Calibration::Run` whose searches find the chessboard, the
detection timer reading the clock at `detectionNow` nanoseconds. -/
def exampleBoardPoll (detectionNow : Nat) : CalibrationPoll :=
  ⟨detectionNow, detectionNow, (true, [⟨1, 1⟩]), (true, [⟨1, 1⟩])⟩

/-- The fresh engine, armed by `CaptureImage`, after a `Run` on the first frame that
detects the chessboard at clock reading 1 s: the transition into detected. -/
def exampleDetecting : Calibration :=
  (exampleCalibration.CaptureImage.Run exampleCameraAfterFrame (exampleBoardPoll 1000000000)).1

/-- Library answers for one solve: error 0.5, matrices 7 and 8, tables 40 and 41. -/
def exampleSolvePoll : SolvePoll := ⟨0.5, 7, 8, 40, 41⟩

/-- A device answer: the device streams and the grab is incomplete. -/
def exampleIncompletePoll : DevicePoll := { exampleDevicePoll with grab := Grab.incomplete }

/-- A freshly constructed application in Calibration mode after two loop iterations
(the camera connects, then acquires frame number 1), switched to Tracking mode. -/
def exampleAppSwitched : AppManager :=
  ((((exampleApp AppMode.Calibration).iteration (fun _ => 0)
      (exampleIterationPoll exampleDevicePoll)).app.iteration (fun _ => 0)
      (exampleIterationPoll exampleDevicePoll)).app).SetMode AppMode.Tracking

/-- Answers for one loop iteration around a given device answer in which the send block
raises. -/
def exampleRaisingPoll (device : DevicePoll) : IterationPoll :=
  { exampleIterationPoll device with network := ⟨0, SendOutcome.raised⟩ }

/-- A timer constructed at clock reading 0 and updated 20 ms later. -/
def exampleTimer : FrameRateTimer := (FrameRateTimer.new 0).Update 20000000

/-- A camera with a Preview and a Saved profile stored and both apply flags on. -/
def exampleCalibratedCamera : Camera :=
  (((exampleCameraAfterFrame.Calibrate ⟨1, 2, ⟨2048, 3072, 10⟩, ⟨2048, 3072, 11⟩,
        CalibrationType.Preview⟩).Calibrate ⟨3, 4, ⟨2048, 3072, 20⟩, ⟨2048, 3072, 21⟩,
        CalibrationType.Saved⟩).ToggleCalibration true).ToggleCalibrationPreview true

end FAST

end

namespace FAST

theorem readWord32_rawBytes32 (w : Nat) (hw : w < 4294967296) (rest : List Nat) :
    readWord32 (rawBytes32 w ++ rest) = some (w, rest) := by
  simp only [rawBytes32, List.cons_append, List.nil_append, readWord32]
  congr 2
  omega

theorem int32OfBits_int32Bits (i : Int) (h1 : -2147483648 ≤ i) (h2 : i < 2147483648) :
    int32OfBits (int32Bits i) = i := by
  unfold int32OfBits int32Bits
  split <;> omega

theorem int32Bits_lt (i : Int) : int32Bits i < 4294967296 := by
  unfold int32Bits
  omega

theorem rawBytes32_length (w : Nat) : (rawBytes32 w).length = 4 := rfl

theorem recordBytes_length {F : Type} (floatBits : F → Nat) (markerData : MarkerData F) :
    (recordBytes floatBits markerData).length = 20 := by
  simp [recordBytes, rawBytes32_length]

theorem records_length {F : Type} (floatBits : F → Nat) (trackingData : StdMap (MarkerData F)) :
    ((trackingData.map (fun entry => recordBytes floatBits entry.2)).flatten).length
      = 20 * trackingData.length := by
  induction trackingData with
  | nil => rfl
  | cons entry rest ih =>
    simp only [List.map_cons, List.flatten_cons, List.length_append, List.length_cons, ih,
      recordBytes_length]
    omega

theorem byteArray_length {F : Type} (floatBits : F → Nat) (frameNumber : Nat)
    (trackingData : StdMap (MarkerData F)) :
    (byteArray floatBits frameNumber trackingData).length = 8 + 20 * trackingData.length := by
  simp only [byteArray, List.length_append, rawBytes32_length, records_length]

theorem readRecords_records {F : Type} (floatBits : F → Nat) (floatOfBits : Nat → F)
    (trackingData : StdMap (MarkerData F))
    (hfits : ∀ entry ∈ trackingData, entry.2.Fits floatBits floatOfBits) :
    readRecords floatOfBits trackingData.length
        ((trackingData.map (fun entry => recordBytes floatBits entry.2)).flatten)
      = some (trackingData.map (fun entry => entry.2.toRecord)) := by
  induction trackingData with
  | nil => rfl
  | cons entry rest ih =>
    obtain ⟨hlo, hhi, hfloat⟩ := hfits entry (List.mem_cons_self _ _)
    have hx := hfloat entry.2.center.1 (by simp)
    have hy := hfloat entry.2.center.2 (by simp)
    have ha := hfloat entry.2.angle (by simp)
    have hs := hfloat entry.2.size (by simp)
    have hrest := ih (fun e he => hfits e (List.mem_cons_of_mem _ he))
    simp only [recordBytes, List.append_assoc] at hrest
    simp only [List.map_cons, List.flatten_cons, List.length_cons, recordBytes, List.append_assoc,
      readRecords, readWord32_rawBytes32 _ (int32Bits_lt _), readWord32_rawBytes32 _ hx.1,
      readWord32_rawBytes32 _ hy.1, readWord32_rawBytes32 _ ha.1, readWord32_rawBytes32 _ hs.1,
      hrest, int32OfBits_int32Bits _ hlo hhi, hx.2, hy.2, ha.2, hs.2, MarkerData.toRecord]

theorem decodeDatagram_byteArray {F : Type} (floatBits : F → Nat) (floatOfBits : Nat → F)
    (frameNumber : Nat) (trackingData : StdMap (MarkerData F))
    (hframe : frameNumber < 4294967296) (hcount : trackingData.length < 4294967296)
    (hfits : ∀ entry ∈ trackingData, entry.2.Fits floatBits floatOfBits) :
    decodeDatagram floatOfBits (byteArray floatBits frameNumber trackingData)
      = some ⟨frameNumber, trackingData.length,
          trackingData.map (fun entry => entry.2.toRecord)⟩ := by
  simp only [decodeDatagram, byteArray, List.append_assoc, readWord32_rawBytes32 _ hframe,
    Nat.mod_eq_of_lt hcount, readWord32_rawBytes32 _ hcount,
    readRecords_records floatBits floatOfBits trackingData hfits]

theorem rawBytes32_eq (w : Nat) : rawBytes32 w = littleEndian32 w := by
  simp [rawBytes32, littleEndian32, List.range_succ]

theorem rawBytes32_lt (w : Nat) : ∀ b ∈ rawBytes32 w, b < 256 := by
  intro b hb
  simp only [rawBytes32, List.mem_cons, List.mem_singleton, List.not_mem_nil, or_false] at hb
  rcases hb with h | h | h | h <;> rw [h] <;> exact Nat.mod_lt _ (by norm_num)

theorem recordBytes_eq {F : Type} (floatBits : F → Nat) (markerData : MarkerData F) :
    recordBytes floatBits markerData = layoutRecord floatBits markerData := by
  simp only [recordBytes, layoutRecord, rawBytes32_eq]

theorem byteArray_lt {F : Type} (floatBits : F → Nat) (frameNumber : Nat)
    (trackingData : StdMap (MarkerData F)) :
    ∀ b ∈ byteArray floatBits frameNumber trackingData, b < 256 := by
  intro b hb
  simp only [byteArray, List.mem_append, List.mem_flatten, List.mem_map] at hb
  rcases hb with (h | h) | ⟨record, ⟨entry, _, hrecord⟩, h⟩
  · exact rawBytes32_lt _ b h
  · exact rawBytes32_lt _ b h
  · rw [← hrecord] at h
    simp only [recordBytes, List.mem_append] at h
    rcases h with (((h | h) | h) | h) | h <;> exact rawBytes32_lt _ b h

theorem byteArray_eq {F : Type} (floatBits : F → Nat) (frameNumber : Nat)
    (trackingData : StdMap (MarkerData F)) :
    byteArray floatBits frameNumber trackingData
      = littleEndian32 frameNumber ++ littleEndian32 (trackingData.length % 4294967296) ++
        (trackingData.map (fun entry => layoutRecord floatBits entry.2)).flatten := by
  simp only [byteArray, rawBytes32_eq, recordBytes_eq]

/-- C1: for a new frame number `f` and an observation map with `n` entries whose
members fit their machine types, a `NetworkCommunication::Run` whose send block does
not raise hands exactly one datagram to the socket. Every cell of it is a byte (below
256), it is `8 + 20 * n` bytes long, and it is the four little-endian bytes of `f`, the
four of `n`, then for every observation in map order the 20 bytes of its record: the
four little-endian bytes of `int32 id`, `float32 centerX`, `centerY`, `angle` and
`size`. Reading it by the layout `uint32 frameNumber | uint32 markerCount | n x (int32
id, float32 centerX, centerY, angle, size)` gives back `f`, `n` and the five fields of
every observation, in map order. -/
theorem NetworkCommunication.Run_datagram_layout {F : Type} (floatBits : F → Nat)
    (floatOfBits : Nat → F) (nc : NetworkCommunication F) (f : Nat)
    (snapshot : StdMap (MarkerData F)) (poll : NetworkPoll)
    (hnew : nc.lastFrameNumber ≠ f) (hsend : poll.outcome ≠ SendOutcome.raised)
    (hframe : f < 4294967296) (hcount : snapshot.length < 4294967296)
    (hfits : ∀ entry ∈ snapshot, entry.2.Fits floatBits floatOfBits) :
    ∃ datagram, (nc.Run floatBits f snapshot poll).2 = [datagram] ∧
      datagram.bytes = byteArray floatBits f snapshot ∧
      (∀ b ∈ datagram.bytes, b < 256) ∧
      datagram.bytes.length = 8 + 20 * snapshot.length ∧
      datagram.bytes
        = littleEndian32 f ++ littleEndian32 snapshot.length ++
          (snapshot.map (fun entry => layoutRecord floatBits entry.2)).flatten ∧
      decodeDatagram floatOfBits datagram.bytes
        = some ⟨f, snapshot.length, snapshot.map (fun entry => entry.2.toRecord)⟩ := by
  have hlen := byteArray_length floatBits f snapshot
  have hdec := decodeDatagram_byteArray floatBits floatOfBits f snapshot hframe hcount hfits
  have hcells := byteArray_lt floatBits f snapshot
  have hlayout : byteArray floatBits f snapshot
      = littleEndian32 f ++ littleEndian32 snapshot.length ++
        (snapshot.map (fun entry => layoutRecord floatBits entry.2)).flatten := by
    rw [byteArray_eq, Nat.mod_eq_of_lt hcount]
  cases hout : poll.outcome with
  | raised => exact absurd hout hsend
  | sent =>
    refine ⟨⟨byteArray floatBits f snapshot, nc.address, nc.port, true⟩, ?_, rfl, hcells, hlen,
      hlayout, hdec⟩
    simp [NetworkCommunication.Run, hnew, hout]
  | failed =>
    refine ⟨⟨byteArray floatBits f snapshot, nc.address, nc.port, false⟩, ?_, rfl, hcells, hlen,
      hlayout, hdec⟩
    simp [NetworkCommunication.Run, hnew, hout]

/-- Witness of C1: two observations published for frame 7. -/
theorem NetworkCommunication.Run_datagram_layout_witness :
    ∃ datagram,
      ((NetworkCommunication.new Nat 1 2 0).Run (fun v => v) 7 exampleSnapshot
        ⟨0, SendOutcome.sent⟩).2 = [datagram] ∧
      datagram.bytes = byteArray (fun v => v) 7 exampleSnapshot ∧
      (∀ b ∈ datagram.bytes, b < 256) ∧
      datagram.bytes.length = 8 + 20 * exampleSnapshot.length ∧
      datagram.bytes
        = littleEndian32 7 ++ littleEndian32 exampleSnapshot.length ++
          (exampleSnapshot.map (fun entry => layoutRecord (fun v => v) entry.2)).flatten ∧
      decodeDatagram (fun w => w) datagram.bytes
        = some ⟨7, exampleSnapshot.length, exampleSnapshot.map (fun entry => entry.2.toRecord)⟩ :=
  NetworkCommunication.Run_datagram_layout (fun v => v) (fun w => w)
    (NetworkCommunication.new Nat 1 2 0) 7 exampleSnapshot ⟨0, SendOutcome.sent⟩
    (by simp [NetworkCommunication.new]) (by simp) (by norm_num)
    (by simp [exampleSnapshot])
    (by simp [exampleSnapshot, exampleMarker, MarkerData.Fits])

/-! ## Idempotent skip (C2) -/

theorem MarkerDetection.Run_skips_same_frame (md : MarkerDetection) (camera : Camera) (poll : DetectionPoll)
    (hsame : camera.GetFrameNumber = md.lastFrameNumber) :
    md.Run camera poll = { md with currentFrameNumber := md.lastFrameNumber } := by
  simp [MarkerDetection.Run, hsame]

theorem MarkerDetection.Run_frameNumbers (md : MarkerDetection) (camera : Camera)
    (poll : DetectionPoll) :
    (md.Run camera poll).lastFrameNumber = camera.GetFrameNumber ∧
    (md.Run camera poll).currentFrameNumber = camera.GetFrameNumber := by
  by_cases h : md.lastFrameNumber = camera.GetFrameNumber
  · simp [MarkerDetection.Run, h]
  · simp [MarkerDetection.Run, h, MarkerDetection.applyDetectorParameters]

theorem MarkerDetection.Run_Run (md : MarkerDetection) (camera : Camera)
    (p1 p2 : DetectionPoll) : (md.Run camera p1).Run camera p2 = md.Run camera p1 := by
  obtain ⟨hlast, hcur⟩ := MarkerDetection.Run_frameNumbers md camera p1
  rw [MarkerDetection.Run_skips_same_frame (md.Run camera p1) camera p2 hlast.symm]
  generalize md.Run camera p1 = s at hlast hcur
  cases s
  simp only [MarkerDetection.mk.injEq, true_and, and_true] at hlast hcur ⊢
  rw [hlast, hcur]

theorem NetworkCommunication.Run_skips_published_frame {F : Type} (floatBits : F → Nat)
    (nc : NetworkCommunication F) (f : Nat) (snapshot : StdMap (MarkerData F))
    (poll : NetworkPoll) (hsame : f = nc.lastFrameNumber) :
    nc.Run floatBits f snapshot poll = ({ nc with currentFrameNumber := nc.lastFrameNumber }, []) := by
  simp [NetworkCommunication.Run, hsame]

theorem NetworkCommunication.Run_marks_frame {F : Type} (floatBits : F → Nat)
    (nc : NetworkCommunication F) (f : Nat) (snapshot : StdMap (MarkerData F))
    (poll : NetworkPoll) (hsend : poll.outcome ≠ SendOutcome.raised) :
    (nc.Run floatBits f snapshot poll).1.lastFrameNumber = f ∧
    (nc.Run floatBits f snapshot poll).1.currentFrameNumber = f := by
  by_cases h : nc.lastFrameNumber = f
  · simp [NetworkCommunication.Run, h]
  · cases hout : poll.outcome with
    | raised => exact absurd hout hsend
    | sent => simp [NetworkCommunication.Run, h, hout]
    | failed => simp [NetworkCommunication.Run, h, hout]

/-- C2 (as amended): when the upstream frame number equals the stage's
`lastFrameNumber`, `MarkerDetection::Run` and `NetworkCommunication::Run` return at
once: only `currentFrameNumber` is assigned (the value it is compared with), so the
observation map, the output image, `lastFrameNumber` and the rate timer are unchanged
and no datagram is written. The second of two polls on the same upstream frame number
is a no-op for `MarkerDetection::Run` always, and for `NetworkCommunication::Run` when
the send block of the first poll did not raise. -/
theorem idempotent_skip {F : Type} (floatBits : F → Nat)
    (md : MarkerDetection) (camera : Camera) (poll : DetectionPoll)
    (nc : NetworkCommunication F) (f : Nat) (snapshot : StdMap (MarkerData F)) (npoll : NetworkPoll)
    (md0 : MarkerDetection) (camera0 : Camera) (p1 p2 : DetectionPoll)
    (nc0 : NetworkCommunication F) (f0 : Nat) (s1 s2 : StdMap (MarkerData F)) (q1 q2 : NetworkPoll)
    (hmd : camera.GetFrameNumber = md.lastFrameNumber) (hnc : f = nc.lastFrameNumber)
    (hsend : q1.outcome ≠ SendOutcome.raised) :
    (md.Run camera poll = { md with currentFrameNumber := md.lastFrameNumber } ∧
      (md.Run camera poll).trackingData = md.trackingData ∧
      (md.Run camera poll).outputImage = md.outputImage ∧
      (md.Run camera poll).lastFrameNumber = md.lastFrameNumber ∧
      (md.Run camera poll).frameRateTimer = md.frameRateTimer) ∧
    (nc.Run floatBits f snapshot npoll
        = ({ nc with currentFrameNumber := nc.lastFrameNumber }, []) ∧
      (nc.Run floatBits f snapshot npoll).1.trackingData = nc.trackingData ∧
      (nc.Run floatBits f snapshot npoll).1.lastFrameNumber = nc.lastFrameNumber ∧
      (nc.Run floatBits f snapshot npoll).1.frameRateTimer = nc.frameRateTimer ∧
      (nc.Run floatBits f snapshot npoll).2 = []) ∧
    (md0.Run camera0 p1).Run camera0 p2 = md0.Run camera0 p1 ∧
    (nc0.Run floatBits f0 s1 q1).1.Run floatBits f0 s2 q2
      = ((nc0.Run floatBits f0 s1 q1).1, []) := by
  have h1 := MarkerDetection.Run_skips_same_frame md camera poll hmd
  have h2 := NetworkCommunication.Run_skips_published_frame floatBits nc f snapshot npoll hnc
  refine ⟨⟨h1, ?_, ?_, ?_, ?_⟩, ⟨h2, ?_, ?_, ?_, ?_⟩, MarkerDetection.Run_Run md0 camera0 p1 p2, ?_⟩
  · rw [h1]
  · rw [h1]
  · rw [h1]
  · rw [h1]
  · rw [h2]
  · rw [h2]
  · rw [h2]
  · rw [h2]
  · obtain ⟨hlast, hcur⟩ := NetworkCommunication.Run_marks_frame floatBits nc0 f0 s1 q1 hsend
    rw [NetworkCommunication.Run_skips_published_frame floatBits _ f0 s2 q2 hlast.symm]
    generalize (nc0.Run floatBits f0 s1 q1).1 = s at hlast hcur
    cases s
    simp only [Prod.mk.injEq, NetworkCommunication.mk.injEq, true_and, and_true] at hlast hcur ⊢
    rw [hlast, hcur]

/-- Witness of C2: a fresh tracker and a fresh publisher polled on frame number 0,
and two polls of each on frame number 1. -/
theorem idempotent_skip_witness :
    (exampleMarkerDetection.Run exampleCamera ⟨0, []⟩).trackingData
        = exampleMarkerDetection.trackingData ∧
    ((NetworkCommunication.new Nat 1 2 0).Run (fun v => v) 0 exampleSnapshot
        ⟨0, SendOutcome.sent⟩).2 = [] ∧
    (((NetworkCommunication.new Nat 1 2 0).Run (fun v => v) 1 exampleSnapshot
        ⟨0, SendOutcome.sent⟩).1.Run (fun v => v) 1 exampleSnapshot ⟨5, SendOutcome.sent⟩).2
      = [] :=
  have h := idempotent_skip (fun v => v) exampleMarkerDetection exampleCamera ⟨0, []⟩
    (NetworkCommunication.new Nat 1 2 0) 0 exampleSnapshot ⟨0, SendOutcome.sent⟩
    exampleMarkerDetection exampleCamera ⟨0, []⟩ ⟨5, []⟩
    (NetworkCommunication.new Nat 1 2 0) 1 exampleSnapshot exampleSnapshot
    ⟨0, SendOutcome.sent⟩ ⟨5, SendOutcome.sent⟩ rfl rfl (by simp)
  ⟨h.1.2.1, h.2.1.2.2.2.2, by rw [h.2.2.2]⟩

/-- Counterexample to C2 as stated: a publisher whose first poll on frame number 1
raises in the send block keeps `lastFrameNumber = 0`, and the second poll on the same
frame number 1 writes a datagram. -/
theorem NetworkCommunication.second_poll_after_raise :
    ((NetworkCommunication.new Nat 1 2 0).Run (fun v => v) 1 exampleSnapshot
        ⟨0, SendOutcome.raised⟩).2 = [] ∧
    ((NetworkCommunication.new Nat 1 2 0).Run (fun v => v) 1 exampleSnapshot
        ⟨0, SendOutcome.raised⟩).1.lastFrameNumber = 0 ∧
    (((NetworkCommunication.new Nat 1 2 0).Run (fun v => v) 1 exampleSnapshot
        ⟨0, SendOutcome.raised⟩).1.Run (fun v => v) 1 exampleSnapshot ⟨5, SendOutcome.sent⟩).2
      = [⟨byteArray (fun v => v) 1 exampleSnapshot, 1, 2, true⟩] := by
  simp [NetworkCommunication.Run, NetworkCommunication.new]

/-! ## Frame numbers of the camera (C3) -/

theorem Camera.Run_currentFrameNumber (c : Camera) (device : DevicePoll) :
    (c.Run device).1.currentFrameNumber
      = if c.acquires device = true then (c.currentFrameNumber + 1) % 4294967296
        else c.currentFrameNumber := by
  unfold Camera.Run Camera.GetFrame Camera.Connect Camera.Disconnect Camera.acquires
  cases hconn : c.isConnected <;> cases hp : c.pCamera <;> cases hs : device.statusRaises <;>
    cases hi : device.isInitialized <;> cases hst : device.isStreaming <;>
    cases hr : device.initRaises <;> cases hg : device.grab <;> simp <;> split <;> simp

theorem Camera.runs_append (c : Camera) (before after : List DevicePoll) :
    c.runs (before ++ after) = (c.runs before).runs after := by
  induction before generalizing c with
  | nil => rfl
  | cons device rest ih => exact ih (c.Run device).1

theorem Camera.runs_bounds (c : Camera) (polls : List DevicePoll)
    (hbound : c.currentFrameNumber + polls.length ≤ 4294967295) :
    c.currentFrameNumber ≤ (c.runs polls).currentFrameNumber ∧
    (c.runs polls).currentFrameNumber ≤ c.currentFrameNumber + polls.length := by
  induction polls generalizing c with
  | nil => simp [Camera.runs]
  | cons device rest ih =>
    simp only [List.length_cons] at hbound
    have hstep := Camera.Run_currentFrameNumber c device
    have hnext : (c.Run device).1.currentFrameNumber ≤ c.currentFrameNumber + 1 ∧
        c.currentFrameNumber ≤ (c.Run device).1.currentFrameNumber := by
      rw [hstep]
      split <;> omega
    have hrec := ih (c.Run device).1 (by omega)
    simp only [Camera.runs, List.length_cons]
    omega

theorem Camera.runs_replicate (c : Camera) (n : Nat) (hconn : c.isConnected = true)
    (hp : c.pCamera = true) (hc : c.currentFrameNumber < 4294967296) :
    (c.runs (List.replicate n exampleDevicePoll)).isConnected = true ∧
    (c.runs (List.replicate n exampleDevicePoll)).pCamera = true ∧
    (c.runs (List.replicate n exampleDevicePoll)).currentFrameNumber
      = (c.currentFrameNumber + n) % 4294967296 := by
  induction n generalizing c with
  | zero => exact ⟨hconn, hp, (Nat.mod_eq_of_lt hc).symm⟩
  | succ n ih =>
    have hrun : (c.Run exampleDevicePoll).1.isConnected = true ∧
        (c.Run exampleDevicePoll).1.pCamera = true ∧
        (c.Run exampleDevicePoll).1.currentFrameNumber = (c.currentFrameNumber + 1) % 4294967296 := by
      simp [Camera.Run, Camera.GetFrame, hconn, hp, exampleDevicePoll]
    obtain ⟨h1, h2, h3⟩ := ih (c.Run exampleDevicePoll).1 hrun.1 hrun.2.1
      (by rw [hrun.2.2]; exact Nat.mod_lt _ (by norm_num))
    refine ⟨h1, h2, ?_⟩
    show ((c.Run exampleDevicePoll).1.runs (List.replicate n exampleDevicePoll)).currentFrameNumber = _
    rw [h3, hrun.2.2]
    omega

theorem Camera.Run_step_below_wrap (c : Camera) (device : DevicePoll)
    (hc : c.currentFrameNumber < 4294967295) :
    (c.acquires device = true →
      (c.Run device).1.currentFrameNumber = c.currentFrameNumber + 1) ∧
    (c.acquires device = false →
      (c.Run device).1.currentFrameNumber = c.currentFrameNumber) ∧
    c.currentFrameNumber ≤ (c.Run device).1.currentFrameNumber := by
  rw [Camera.Run_currentFrameNumber]
  refine ⟨?_, ?_, ?_⟩
  · intro hacq
    rw [if_pos hacq]
    omega
  · intro hacq
    rw [if_neg (by simp [hacq])]
  · split <;> omega

theorem Camera.runs_monotone (c : Camera) (polls : List DevicePoll)
    (hbelow : ∀ before device after, polls = before ++ device :: after →
      (c.runs before).currentFrameNumber < 4294967295) :
    c.currentFrameNumber ≤ (c.runs polls).currentFrameNumber := by
  induction polls generalizing c with
  | nil => exact le_refl _
  | cons device rest ih =>
    have hc : c.currentFrameNumber < 4294967295 := hbelow [] device rest rfl
    have hstep := (Camera.Run_step_below_wrap c device hc).2.2
    have hrest := ih (c.Run device).1 (by
      intro before device2 after hsplit
      exact hbelow (device :: before) device2 after (by rw [hsplit]; rfl))
    exact le_trans hstep hrest

/-- C3 (as amended): over every sequence of `Camera::Run` calls in which the 32-bit
`currentFrameNumber` is below its maximum `2^32 - 1` before each call, the frame
number never decreases from one prefix of the sequence to a longer one, every call
that acquires a complete image raises it by exactly 1, and every other call (connect
attempt, disconnect, device exception, incomplete image) leaves it unchanged. For every
camera, a call that acquires no complete image leaves the frame number unchanged, and
an acquisition at `2^32 - 1` wraps it to 0. -/
theorem Camera.frameNumber_until_wrap (c : Camera) (polls : List DevicePoll)
    (c2 : Camera) (device2 : DevicePoll)
    (hbelow : ∀ before device after, polls = before ++ device :: after →
      (c.runs before).currentFrameNumber < 4294967295) :
    (∀ before after, polls = before ++ after →
      (c.runs before).currentFrameNumber ≤ (c.runs polls).currentFrameNumber) ∧
    (∀ before device after, polls = before ++ device :: after →
      ((c.runs before).acquires device = true →
        ((c.runs before).Run device).1.currentFrameNumber
          = (c.runs before).currentFrameNumber + 1) ∧
      ((c.runs before).acquires device = false →
        ((c.runs before).Run device).1.currentFrameNumber
          = (c.runs before).currentFrameNumber)) ∧
    (c2.acquires device2 = false →
      (c2.Run device2).1.currentFrameNumber = c2.currentFrameNumber) ∧
    (c2.acquires device2 = true → c2.currentFrameNumber = 4294967295 →
      (c2.Run device2).1.currentFrameNumber = 0) := by
  refine ⟨?_, ?_, ?_, ?_⟩
  · intro before after hsplit
    subst hsplit
    rw [Camera.runs_append]
    apply Camera.runs_monotone
    intro b device a hsplit
    rw [← Camera.runs_append]
    exact hbelow (before ++ b) device a (by rw [hsplit, List.append_assoc])
  · intro before device after hsplit
    have hstep := Camera.Run_step_below_wrap (c.runs before) device
      (hbelow before device after hsplit)
    exact ⟨hstep.1, hstep.2.1⟩
  · intro hacq
    rw [Camera.Run_currentFrameNumber, if_neg (by simp [hacq])]
  · intro hacq hmax
    rw [Camera.Run_currentFrameNumber, if_pos hacq, hmax]

/-- Witness of C3: a fresh camera that connects and then acquires two frames. -/
theorem Camera.frameNumber_until_wrap_witness :
    (exampleCamera.runs [exampleDevicePoll]).currentFrameNumber
      ≤ (exampleCamera.runs [exampleDevicePoll, exampleDevicePoll, exampleDevicePoll]).currentFrameNumber :=
  (Camera.frameNumber_until_wrap exampleCamera
    [exampleDevicePoll, exampleDevicePoll, exampleDevicePoll] exampleCamera exampleDevicePoll
    (by
      intro before device after hsplit
      have hlen := congrArg List.length hsplit
      simp only [List.length_cons, List.length_nil, List.length_append] at hlen
      have hstart : exampleCamera.currentFrameNumber = 0 := rfl
      have hb := Camera.runs_bounds exampleCamera before (by rw [hstart]; omega)
      rw [hstart] at hb
      omega)).1 [exampleDevicePoll]
    [exampleDevicePoll, exampleDevicePoll] rfl

theorem Camera.wrap_after (c : Camera) (polls : List DevicePoll)
    (h1 : ((c.Run exampleDevicePoll).1.runs polls).isConnected = true)
    (h2 : ((c.Run exampleDevicePoll).1.runs polls).pCamera = true)
    (h3 : ((c.Run exampleDevicePoll).1.runs polls).currentFrameNumber = 4294967295) :
    (c.runs (exampleDevicePoll :: polls)).currentFrameNumber = 4294967295 ∧
    (c.runs (exampleDevicePoll :: polls)).acquires exampleDevicePoll = true ∧
    ((c.runs (exampleDevicePoll :: polls)).Run exampleDevicePoll).1.currentFrameNumber = 0 := by
  simp only [Camera.runs]
  have hacq : ((c.Run exampleDevicePoll).1.runs polls).acquires exampleDevicePoll = true := by
    simp only [Camera.acquires, h1, h2]
    rfl
  refine ⟨h3, hacq, ?_⟩
  rw [Camera.Run_currentFrameNumber, if_pos hacq, h3]

theorem exampleCamera_connects :
    (exampleCamera.Run exampleDevicePoll).1.isConnected = true ∧
    (exampleCamera.Run exampleDevicePoll).1.pCamera = true ∧
    (exampleCamera.Run exampleDevicePoll).1.currentFrameNumber = 0 := by
  simp [Camera.Run, Camera.Connect, exampleCamera, Camera.new, exampleDevicePoll]

/-- Counterexample to C3 as stated: a fresh camera that connects and acquires
`2^32 - 1` complete images has frame number `2^32 - 1`; the next successful
acquisition of a complete image takes the frame number down to 0. -/
theorem Camera.frameNumber_wraps :
    (exampleCamera.runs (exampleDevicePoll :: List.replicate 4294967295 exampleDevicePoll)).currentFrameNumber
      = 4294967295 ∧
    (exampleCamera.runs (exampleDevicePoll :: List.replicate 4294967295 exampleDevicePoll)).acquires
      exampleDevicePoll = true ∧
    ((exampleCamera.runs (exampleDevicePoll :: List.replicate 4294967295 exampleDevicePoll)).Run
      exampleDevicePoll).1.currentFrameNumber = 0 :=
  have h := Camera.runs_replicate (exampleCamera.Run exampleDevicePoll).1 4294967295
    exampleCamera_connects.1 exampleCamera_connects.2.1
    (by rw [exampleCamera_connects.2.2]; norm_num)
  Camera.wrap_after exampleCamera _ h.1 h.2.1 (by rw [h.2.2, exampleCamera_connects.2.2])

/-! ## One scheduler iteration (C4) -/

/-- C4: one iteration of `AppManager::RunProcessingThread` calls `camera.Run` first;
with the camera then connected and the mode Tracking it calls `markerDetection.Run`,
`networkCommunication.Run`, `calibration.Pause`; connected and Calibration gives
`markerDetection.Pause`, `networkCommunication.Pause`, `calibration.Run`; disconnected
gives `Pause` on all three stages in every mode. The members after the iteration are
the results of exactly these calls. -/
theorem AppManager.iteration_calls (floatBits : ℝ → Nat) (app : AppManager) (poll : IterationPoll) :
    (app.iteration floatBits poll).app.camera = (app.camera.Run poll.device).1 ∧
    ((app.camera.Run poll.device).1.GetIsConnected = true → app.mode = AppMode.Tracking →
      (app.iteration floatBits poll).calls
        = [StageCall.cameraRun, StageCall.markerDetectionRun,
           StageCall.networkCommunicationRun, StageCall.calibrationPause] ∧
      (app.iteration floatBits poll).app.markerDetection
        = app.markerDetection.Run (app.camera.Run poll.device).1 poll.detection ∧
      (app.iteration floatBits poll).app.networkCommunication
        = (app.networkCommunication.Run floatBits
            (app.markerDetection.Run (app.camera.Run poll.device).1 poll.detection).GetFrameNumber
            (app.markerDetection.Run (app.camera.Run poll.device).1 poll.detection).GetTrackingData
            poll.network).1 ∧
      (app.iteration floatBits poll).app.calibration
        = app.calibration.Pause poll.calibration.now) ∧
    ((app.camera.Run poll.device).1.GetIsConnected = true → app.mode = AppMode.Calibration →
      (app.iteration floatBits poll).calls
        = [StageCall.cameraRun, StageCall.markerDetectionPause,
           StageCall.networkCommunicationPause, StageCall.calibrationRun] ∧
      (app.iteration floatBits poll).app.markerDetection
        = app.markerDetection.Pause poll.detection.now ∧
      (app.iteration floatBits poll).app.networkCommunication
        = app.networkCommunication.Pause poll.network.now ∧
      (app.iteration floatBits poll).app.calibration
        = (app.calibration.Run (app.camera.Run poll.device).1 poll.calibration).1) ∧
    ((app.camera.Run poll.device).1.GetIsConnected = false →
      (app.iteration floatBits poll).calls
        = [StageCall.cameraRun, StageCall.markerDetectionPause,
           StageCall.networkCommunicationPause, StageCall.calibrationPause] ∧
      (app.iteration floatBits poll).app.markerDetection
        = app.markerDetection.Pause poll.detection.now ∧
      (app.iteration floatBits poll).app.networkCommunication
        = app.networkCommunication.Pause poll.network.now ∧
      (app.iteration floatBits poll).app.calibration
        = app.calibration.Pause poll.calibration.now) := by
  refine ⟨?_, ?_, ?_, ?_⟩
  · by_cases hconn : (app.camera.Run poll.device).1.GetIsConnected = true <;>
      cases hmode : app.mode <;> simp [AppManager.iteration, hconn, hmode]
  · intro hconn hmode
    simp [AppManager.iteration, hconn, hmode]
  · intro hconn hmode
    simp [AppManager.iteration, hconn, hmode]
  · intro hconn
    simp [AppManager.iteration, hconn]

/-- Witness of C4: a fresh application whose camera connects in this iteration, in
Tracking and in Calibration mode, and one whose camera finds no device. -/
theorem AppManager.iteration_calls_witness :
    ((exampleApp AppMode.Tracking).iteration (fun _ => 0) (exampleIterationPoll exampleDevicePoll)).calls
      = [StageCall.cameraRun, StageCall.markerDetectionRun,
         StageCall.networkCommunicationRun, StageCall.calibrationPause] ∧
    ((exampleApp AppMode.Calibration).iteration (fun _ => 0)
        (exampleIterationPoll exampleDevicePoll)).calls
      = [StageCall.cameraRun, StageCall.markerDetectionPause,
         StageCall.networkCommunicationPause, StageCall.calibrationRun] ∧
    ((exampleApp AppMode.Tracking).iteration (fun _ => 0)
        (exampleIterationPoll exampleNoDevicePoll)).calls
      = [StageCall.cameraRun, StageCall.markerDetectionPause,
         StageCall.networkCommunicationPause, StageCall.calibrationPause] :=
  ⟨((AppManager.iteration_calls (fun _ => 0) (exampleApp AppMode.Tracking)
      (exampleIterationPoll exampleDevicePoll)).2.1
      (by simp [exampleApp, exampleIterationPoll, exampleCamera, Camera.new, Camera.Run,
        Camera.Connect, exampleDevicePoll, Camera.GetIsConnected]) rfl).1,
   ((AppManager.iteration_calls (fun _ => 0) (exampleApp AppMode.Calibration)
      (exampleIterationPoll exampleDevicePoll)).2.2.1
      (by simp [exampleApp, exampleIterationPoll, exampleCamera, Camera.new, Camera.Run,
        Camera.Connect, exampleDevicePoll, Camera.GetIsConnected]) rfl).1,
   ((AppManager.iteration_calls (fun _ => 0) (exampleApp AppMode.Tracking)
      (exampleIterationPoll exampleNoDevicePoll)).2.2.2
      (by simp [exampleApp, exampleIterationPoll, exampleCamera, Camera.new, Camera.Run,
        Camera.Connect, exampleNoDevicePoll, exampleDevicePoll, Camera.GetIsConnected])).1⟩


theorem Point2.norm_mk_zero_right (a : ℝ) : (⟨a, 0⟩ : Point2).norm = |a| := by
  simp [Point2.norm, Real.sqrt_mul_self_eq_abs]

theorem Point2.norm_mk_zero_left (a : ℝ) : (⟨0, a⟩ : Point2).norm = |a| := by
  simp [Point2.norm, Real.sqrt_mul_self_eq_abs]

theorem Detection.center_eq (d : Detection) : d.center = d.centroid := by
  simp only [Detection.center, Detection.centroid, Point2.add, Point2.scale, Point2.mk.injEq]
  constructor <;> ring

theorem Detection.pointA_eq (d : Detection) : d.pointA = d.rightEdgeMidpoint := by
  simp only [Detection.pointA, Detection.rightEdgeMidpoint, Point2.add, Point2.scale,
    Point2.mk.injEq]
  constructor <;> ring

theorem Detection.radius_eq (d : Detection) :
    d.radius = Point2.dist d.rightEdgeMidpoint d.centroid := by
  simp only [Detection.radius, Detection.center_eq, Detection.pointA_eq, Point2.dist, Point2.norm,
    Point2.sub]
  congr 1
  ring

theorem Detection.radius_nonneg (d : Detection) : 0 ≤ d.radius := Real.sqrt_nonneg _

theorem Detection.radius_mul_self (d : Detection) :
    d.radius * d.radius
      = (d.rightEdgeMidpoint.x - d.centroid.x) ^ 2 + (d.rightEdgeMidpoint.y - d.centroid.y) ^ 2 := by
  rw [Detection.radius_eq, Point2.dist]
  exact Real.mul_self_sqrt (by positivity)

theorem Detection.axisAligned_radius (id : Int) (x y w h : ℝ) (hw : 0 ≤ w) :
    (Detection.axisAligned id x y w h).radius = w / 2 := by
  rw [Detection.radius_eq]
  simp only [Point2.dist, Detection.rightEdgeMidpoint, Detection.centroid, Detection.axisAligned]
  have : (x + w + (x + w)) / 2 - (x + (x + w) + (x + w) + x) / 4 = w / 2 := by ring
  rw [this]
  have : (y + (y + h)) / 2 - (y + y + (y + h) + (y + h)) / 4 = 0 := by ring
  rw [this]
  simp only [ne_eq, OfNat.ofNat_ne_zero, not_false_eq_true, zero_pow, add_zero]
  rw [Real.sqrt_sq (by positivity)]

theorem Detection.axisAligned_rightEdge (id : Int) (x y w h : ℝ) :
    (Detection.axisAligned id x y w h).rightEdgeMidpoint.x
      - (Detection.axisAligned id x y w h).centroid.x = w / 2 ∧
    (Detection.axisAligned id x y w h).rightEdgeMidpoint.y
      - (Detection.axisAligned id x y w h).centroid.y = 0 := by
  simp only [Detection.rightEdgeMidpoint, Detection.centroid, Detection.axisAligned]
  constructor <;> ring

theorem Detection.axisAligned_topEdge (id : Int) (x y w h : ℝ) :
    (Detection.axisAligned id x y w h).topEdgeMidpoint.x
      - (Detection.axisAligned id x y w h).centroid.x = 0 ∧
    (Detection.axisAligned id x y w h).topEdgeMidpoint.y
      - (Detection.axisAligned id x y w h).centroid.y = -(h / 2) := by
  simp only [Detection.topEdgeMidpoint, Detection.centroid, Detection.axisAligned]
  constructor <;> ring

/-! ## The observation map after a detection pass (C9) -/

theorem StdMap.mem_assign {V : Type} (m : StdMap V) (k : Int) (v : V) (entry : Int × V)
    (h : entry ∈ m.assign k v) : entry = (k, v) ∨ entry ∈ m := by
  induction m with
  | nil =>
    simp only [StdMap.assign, List.mem_singleton] at h
    exact Or.inl h
  | cons head rest ih =>
    obtain ⟨k0, v0⟩ := head
    simp only [StdMap.assign] at h
    split_ifs at h with h1 h2
    · rcases List.mem_cons.mp h with h | h
      · exact Or.inl h
      · exact Or.inr h
    · rcases List.mem_cons.mp h with h | h
      · exact Or.inl h
      · exact Or.inr (List.mem_cons_of_mem _ h)
    · rcases List.mem_cons.mp h with h | h
      · exact Or.inr (h ▸ List.mem_cons_self _ _)
      · rcases ih h with h | h
        · exact Or.inl h
        · exact Or.inr (List.mem_cons_of_mem _ h)

theorem StdMap.keys_assign {V : Type} (m : StdMap V) (k : Int) (v : V) (key : Int) :
    key ∈ (m.assign k v).keys ↔ key = k ∨ key ∈ m.keys := by
  induction m with
  | nil => simp [StdMap.assign, StdMap.keys]
  | cons head rest ih =>
    obtain ⟨k0, v0⟩ := head
    simp only [StdMap.keys] at ih
    simp only [StdMap.assign, StdMap.keys]
    split_ifs with h1 h2
    · simp
    · subst h2
      simp
    · simp only [List.map_cons, List.mem_cons, ih]
      tauto

theorem StdMap.find_cons {V : Type} (k0 : Int) (v0 : V) (rest : StdMap V) (key : Int) :
    StdMap.find ((k0, v0) :: rest) key = if k0 = key then some v0 else StdMap.find rest key := by
  by_cases h : k0 = key <;> simp [StdMap.find, List.find?_cons, h]

theorem StdMap.find_assign {V : Type} (m : StdMap V) (k : Int) (v : V) (key : Int) :
    (m.assign k v).find key = if key = k then some v else m.find key := by
  induction m with
  | nil =>
    by_cases h : key = k
    · subst h
      simp [StdMap.assign, StdMap.find]
    · have h2 : ¬ k = key := fun e => h e.symm
      simp [StdMap.assign, StdMap.find, h, h2]
  | cons head rest ih =>
    obtain ⟨k0, v0⟩ := head
    by_cases hkey : key = k
    · subst hkey
      rw [if_pos rfl]
      by_cases h1 : key < k0
      · simp [StdMap.assign, h1, StdMap.find_cons]
      · by_cases h2 : key = k0
        · simp [StdMap.assign, h1, h2, StdMap.find_cons]
        · have h3 : ¬ k0 = key := fun e => h2 e.symm
          simp [StdMap.assign, h1, h2, h3, StdMap.find_cons, ih]
    · have hkey2 : ¬ k = key := fun e => hkey e.symm
      rw [if_neg hkey] at ih ⊢
      by_cases h1 : k < k0
      · simp [StdMap.assign, h1, StdMap.find_cons, hkey2]
      · by_cases h2 : k = k0
        · subst h2
          simp [StdMap.assign, StdMap.find_cons, hkey2]
        · simp [StdMap.assign, h1, h2, StdMap.find_cons, ih]

theorem storeDetections_keys (trackingAreaOffset : Point2) (outputImage : Mat)
    (m : StdMap (MarkerData ℝ)) (detected : List Detection) (key : Int) :
    key ∈ (storeDetections trackingAreaOffset outputImage m detected).keys
      ↔ key ∈ m.keys ∨ key ∈ detected.map Detection.id := by
  induction detected generalizing m with
  | nil => simp [storeDetections]
  | cons d rest ih =>
    simp only [storeDetections, ih, StdMap.keys_assign, List.map_cons, List.mem_cons]
    tauto

theorem storeDetections_find (trackingAreaOffset : Point2) (outputImage : Mat)
    (m : StdMap (MarkerData ℝ)) (detected : List Detection) (key : Int) :
    (storeDetections trackingAreaOffset outputImage m detected).find key
      = match List.find? (fun d => decide (d.id = key)) detected.reverse with
        | some d => some (d.markerData trackingAreaOffset outputImage)
        | none => m.find key := by
  induction detected generalizing m with
  | nil => simp [storeDetections]
  | cons d rest ih =>
    simp only [storeDetections, ih, List.reverse_cons, List.find?_append]
    cases hrest : List.find? (fun d => decide (d.id = key)) rest.reverse with
    | some e => simp
    | none =>
      by_cases hd : d.id = key
      · simp [StdMap.find_assign, hd]
      · have : ¬ key = d.id := fun e => hd e.symm
        simp [StdMap.find_assign, hd, this]

theorem storeDetections_mem (trackingAreaOffset : Point2) (outputImage : Mat)
    (m : StdMap (MarkerData ℝ)) (detected : List Detection) (entry : Int × MarkerData ℝ)
    (h : entry ∈ storeDetections trackingAreaOffset outputImage m detected) :
    entry ∈ m ∨ ∃ d ∈ detected, entry = (d.id, d.markerData trackingAreaOffset outputImage) := by
  induction detected generalizing m with
  | nil => exact Or.inl h
  | cons d rest ih =>
    simp only [storeDetections] at h
    rcases ih _ h with h | ⟨e, he, heq⟩
    · rcases StdMap.mem_assign _ _ _ _ h with h | h
      · exact Or.inr ⟨d, List.mem_cons_self _ _, h⟩
      · exact Or.inl h
    · exact Or.inr ⟨e, List.mem_cons_of_mem _ he, heq⟩

theorem MarkerDetection.Run_trackingData (md : MarkerDetection) (camera : Camera)
    (poll : DetectionPoll) (hnew : md.lastFrameNumber ≠ camera.GetFrameNumber) :
    (md.Run camera poll).trackingData
      = storeDetections
          ⟨md.trackingArea.x * camera.CopyImageTo.cols, md.trackingArea.y * camera.CopyImageTo.rows⟩
          md.outputImage [] (md.passDetections camera poll) := by
  have hx : (trackingAreaInPixels md.trackingArea camera.CopyImageTo).x
      = md.trackingArea.x * camera.CopyImageTo.cols := rfl
  have hy : (trackingAreaInPixels md.trackingArea camera.CopyImageTo).y
      = md.trackingArea.y * camera.CopyImageTo.rows := rfl
  rw [← hx, ← hy]
  unfold MarkerDetection.passDetections
  cases hempty : (camera.CopyImageTo.roi
      (trackingAreaInPixels md.trackingArea camera.CopyImageTo).toRect).empty <;>
    cases hdet : poll.detected <;>
    simp [MarkerDetection.Run, hnew, MarkerDetection.applyDetectorParameters, hempty, hdet,
      storeDetections]

/-- C9: after every `MarkerDetection::Run` on a new frame number, whatever the
observation map held before, its keys are exactly the marker ids of this pass
(those the detector returned, none when the tracking sub-image is empty); the map is
empty when there are none; and the entry of an id is the `MarkerData` computed from the
last detection with that id. -/
theorem MarkerDetection.Run_replaces_trackingData (md : MarkerDetection) (camera : Camera)
    (poll : DetectionPoll) (hnew : md.lastFrameNumber ≠ camera.GetFrameNumber) :
    (∀ key, key ∈ (md.Run camera poll).trackingData.keys
      ↔ key ∈ (md.passDetections camera poll).map Detection.id) ∧
    (md.passDetections camera poll = [] → (md.Run camera poll).trackingData = []) ∧
    ((camera.CopyImageTo.roi (trackingAreaInPixels md.trackingArea camera.CopyImageTo).toRect).empty
        = true → (md.Run camera poll).trackingData = []) ∧
    (poll.detected = [] → (md.Run camera poll).trackingData = []) ∧
    (∀ key, (md.Run camera poll).trackingData.find key
      = (List.find? (fun d => decide (d.id = key)) (md.passDetections camera poll).reverse).map
          (fun d => d.markerData
            ⟨md.trackingArea.x * camera.CopyImageTo.cols,
             md.trackingArea.y * camera.CopyImageTo.rows⟩ md.outputImage)) := by
  have hdata := MarkerDetection.Run_trackingData md camera poll hnew
  have hnone : md.passDetections camera poll = [] → (md.Run camera poll).trackingData = [] := by
    intro h
    rw [hdata, h]
    rfl
  refine ⟨?_, hnone, ?_, ?_, ?_⟩
  · intro key
    rw [hdata, storeDetections_keys]
    simp [StdMap.keys]
  · intro hempty
    exact hnone (by simp [MarkerDetection.passDetections, hempty])
  · intro hdet
    exact hnone (by simp [MarkerDetection.passDetections, hdet])
  · intro key
    rw [hdata, storeDetections_find]
    cases List.find? (fun d => decide (d.id = key)) (md.passDetections camera poll).reverse <;>
      simp [StdMap.find]

theorem exampleCameraAfterFrame_eq :
    exampleCameraAfterFrame.CopyImageTo = ⟨2048, 3072, Pixels.raster 0⟩ ∧
    exampleCameraAfterFrame.GetFrameNumber = 1 ∧
    exampleCameraAfterFrame.pCamera = true ∧
    exampleCameraAfterFrame.isConnected = true := by
  simp [exampleCameraAfterFrame, Camera.runs, Camera.Run, Camera.Connect, Camera.GetFrame,
    exampleCamera, Camera.new, exampleDevicePoll, Camera.CopyImageTo, Camera.GetFrameNumber,
    Camera.rotatedImage, Camera.calibratedImage]

theorem exampleCameraSmallFrame_eq :
    exampleCameraSmallFrame.CopyImageTo = ⟨1080, 1920, Pixels.raster 1⟩ ∧
    exampleCameraSmallFrame.GetFrameNumber = 1 := by
  simp [exampleCameraSmallFrame, Camera.runs, Camera.Run, Camera.Connect, Camera.GetFrame,
    exampleCamera, Camera.new, exampleDevicePoll, exampleSmallFramePoll, Camera.CopyImageTo,
    Camera.GetFrameNumber, Camera.rotatedImage, Camera.calibratedImage]

/-- Witness of C9: the fresh tracker polled on the first frame, with id 5 detected
twice and id 3 once. -/
theorem MarkerDetection.Run_replaces_trackingData_witness :
    ((5 : Int) ∈ (exampleFullAreaTracker.Run exampleCameraAfterFrame
        ⟨0, [exampleOtherMarker, exampleCentreMarker, exampleOtherMarker]⟩).trackingData.keys
      ↔ (5 : Int) ∈ (exampleFullAreaTracker.passDetections exampleCameraAfterFrame
        ⟨0, [exampleOtherMarker, exampleCentreMarker, exampleOtherMarker]⟩).map Detection.id) :=
  (MarkerDetection.Run_replaces_trackingData exampleFullAreaTracker exampleCameraAfterFrame
    ⟨0, [exampleOtherMarker, exampleCentreMarker, exampleOtherMarker]⟩
    (by rw [exampleCameraAfterFrame_eq.2.1]
        simp [exampleFullAreaTracker, MarkerDetection.UpdateTrackingArea, exampleMarkerDetection,
          MarkerDetection.new])).1 5

/-! ## Normalised coordinates (C8) -/

theorem cvRound_natCast (n : Nat) : cvRound (n : ℝ) = (n : Int) := by
  simp [cvRound]

theorem roi_full (rows cols : Nat) (pixels : Pixels) :
    ((⟨rows, cols, pixels⟩ : Mat).roi
      (trackingAreaInPixels ⟨0, 0, 1, 1⟩ ⟨rows, cols, pixels⟩).toRect)
      = ⟨rows, cols, Pixels.region pixels 0 0⟩ := by
  simp only [trackingAreaInPixels, Rect2d.toRect, Mat.roi, zero_mul, one_mul, cvRound_natCast]
  have h0 : cvRound 0 = 0 := by simpa using cvRound_natCast 0
  simp [h0]

theorem passDetections_subset (md : MarkerDetection) (camera : Camera) (poll : DetectionPoll)
    (d : Detection) (h : d ∈ md.passDetections camera poll) : d ∈ poll.detected := by
  unfold MarkerDetection.passDetections at h
  split_ifs at h
  · exact absurd h (List.not_mem_nil _)
  · exact h

theorem normalized_bounds (p a W s : ℝ) (hW : 0 < W) (ha : 0 ≤ a) (has : a + s ≤ 1)
    (hp0 : 0 ≤ p) (hp1 : p ≤ s * W) : 0 ≤ (p + a * W) / W ∧ (p + a * W) / W ≤ 1 := by
  constructor
  · exact div_nonneg (by positivity) (le_of_lt hW)
  · rw [div_le_one hW]
    nlinarith

/-- C8 (as amended): in a `MarkerDetection::Run` on a new `W` x `H` frame, when the
tracker's output image (the previous frame) has the same size `W` x `H`, for every
tracking area `(x, y, w, h)` with `x, y, w, h >= 0`, `x + w <= 1`, `y + h <= 1` and
detections whose corners `(px, py)` satisfy `0 <= px <= w*W`, `0 <= py <= h*H`, every
entry of the observation map comes from a detection and stores each corner as
`((px + x*W)/W, (py + y*H)/H)` and the centre likewise from the mean of the corners;
all these coordinates lie in `[0, 1]`. -/
theorem MarkerDetection.Run_normalized (md : MarkerDetection) (camera : Camera)
    (poll : DetectionPoll) (hnew : md.lastFrameNumber ≠ camera.GetFrameNumber)
    (hcols : md.outputImage.cols = camera.CopyImageTo.cols)
    (hrows : md.outputImage.rows = camera.CopyImageTo.rows)
    (hW : 0 < camera.CopyImageTo.cols) (hH : 0 < camera.CopyImageTo.rows)
    (hx : 0 ≤ md.trackingArea.x) (hy : 0 ≤ md.trackingArea.y)
    (hxw : md.trackingArea.x + md.trackingArea.width ≤ 1)
    (hyh : md.trackingArea.y + md.trackingArea.height ≤ 1)
    (hinside : ∀ d ∈ poll.detected,
      d.Inside (md.trackingArea.width * camera.CopyImageTo.cols)
        (md.trackingArea.height * camera.CopyImageTo.rows)) :
    ∀ entry ∈ (md.Run camera poll).trackingData, ∃ d ∈ poll.detected,
      entry.1 = d.id ∧ entry.2.id = d.id ∧
      entry.2.topLeft = normalizedAgainstFrame d.corner0 md.trackingArea
        camera.CopyImageTo.cols camera.CopyImageTo.rows ∧
      entry.2.topRight = normalizedAgainstFrame d.corner1 md.trackingArea
        camera.CopyImageTo.cols camera.CopyImageTo.rows ∧
      entry.2.bottomRight = normalizedAgainstFrame d.corner2 md.trackingArea
        camera.CopyImageTo.cols camera.CopyImageTo.rows ∧
      entry.2.bottomLeft = normalizedAgainstFrame d.corner3 md.trackingArea
        camera.CopyImageTo.cols camera.CopyImageTo.rows ∧
      entry.2.center = normalizedAgainstFrame d.centroid md.trackingArea
        camera.CopyImageTo.cols camera.CopyImageTo.rows ∧
      InUnitSquare entry.2.topLeft ∧ InUnitSquare entry.2.topRight ∧
      InUnitSquare entry.2.bottomRight ∧ InUnitSquare entry.2.bottomLeft ∧
      InUnitSquare entry.2.center := by
  intro entry hentry
  rw [MarkerDetection.Run_trackingData md camera poll hnew] at hentry
  rcases storeDetections_mem _ _ _ _ _ hentry with h | ⟨d, hd, heq⟩
  · exact absurd h (List.not_mem_nil _)
  have hdet := passDetections_subset md camera poll d hd
  have hin := hinside d hdet
  have hWr : (0 : ℝ) < (camera.CopyImageTo.cols : ℝ) := by exact_mod_cast hW
  have hHr : (0 : ℝ) < (camera.CopyImageTo.rows : ℝ) := by exact_mod_cast hH
  have h0 := hin d.corner0 (by simp)
  have h1 := hin d.corner1 (by simp)
  have h2 := hin d.corner2 (by simp)
  have h3 := hin d.corner3 (by simp)
  have hcx : 0 ≤ d.centroid.x ∧
      d.centroid.x ≤ md.trackingArea.width * camera.CopyImageTo.cols := by
    simp only [Detection.centroid]
    constructor <;> linarith [h0.1, h1.1, h2.1, h3.1, h0.2.1, h1.2.1, h2.2.1, h3.2.1]
  have hcy : 0 ≤ d.centroid.y ∧
      d.centroid.y ≤ md.trackingArea.height * camera.CopyImageTo.rows := by
    simp only [Detection.centroid]
    constructor <;> linarith [h0.2.2.1, h1.2.2.1, h2.2.2.1, h3.2.2.1, h0.2.2.2, h1.2.2.2,
      h2.2.2.2, h3.2.2.2]
  have bx := fun (p : ℝ) (hp0 : 0 ≤ p) (hp1 : p ≤ md.trackingArea.width * camera.CopyImageTo.cols) =>
    normalized_bounds p md.trackingArea.x camera.CopyImageTo.cols md.trackingArea.width hWr hx hxw
      hp0 hp1
  have byy := fun (p : ℝ) (hp0 : 0 ≤ p) (hp1 : p ≤ md.trackingArea.height * camera.CopyImageTo.rows) =>
    normalized_bounds p md.trackingArea.y camera.CopyImageTo.rows md.trackingArea.height hHr hy hyh
      hp0 hp1
  refine ⟨d, hdet, ?_, ?_, ?_, ?_, ?_, ?_, ?_, ?_, ?_, ?_, ?_, ?_⟩
  · rw [heq]
  · rw [heq]; rfl
  · rw [heq]; simp only [Detection.markerData, normalizedAgainstFrame, hcols, hrows]
  · rw [heq]; simp only [Detection.markerData, normalizedAgainstFrame, hcols, hrows]
  · rw [heq]; simp only [Detection.markerData, normalizedAgainstFrame, hcols, hrows]
  · rw [heq]; simp only [Detection.markerData, normalizedAgainstFrame, hcols, hrows]
  · rw [heq]
    simp only [Detection.markerData, normalizedAgainstFrame, hcols, hrows, Detection.center_eq]
  · rw [heq]
    simp only [Detection.markerData, InUnitSquare, hcols, hrows]
    exact ⟨(bx _ h0.1 h0.2.1).1, (bx _ h0.1 h0.2.1).2, (byy _ h0.2.2.1 h0.2.2.2).1,
      (byy _ h0.2.2.1 h0.2.2.2).2⟩
  · rw [heq]
    simp only [Detection.markerData, InUnitSquare, hcols, hrows]
    exact ⟨(bx _ h1.1 h1.2.1).1, (bx _ h1.1 h1.2.1).2, (byy _ h1.2.2.1 h1.2.2.2).1,
      (byy _ h1.2.2.1 h1.2.2.2).2⟩
  · rw [heq]
    simp only [Detection.markerData, InUnitSquare, hcols, hrows]
    exact ⟨(bx _ h2.1 h2.2.1).1, (bx _ h2.1 h2.2.1).2, (byy _ h2.2.2.1 h2.2.2.2).1,
      (byy _ h2.2.2.1 h2.2.2.2).2⟩
  · rw [heq]
    simp only [Detection.markerData, InUnitSquare, hcols, hrows]
    exact ⟨(bx _ h3.1 h3.2.1).1, (bx _ h3.1 h3.2.1).2, (byy _ h3.2.2.1 h3.2.2.2).1,
      (byy _ h3.2.2.1 h3.2.2.2).2⟩
  · rw [heq]
    simp only [Detection.markerData, InUnitSquare, hcols, hrows, Detection.center_eq]
    exact ⟨(bx _ hcx.1 hcx.2).1, (bx _ hcx.1 hcx.2).2, (byy _ hcy.1 hcy.2).1,
      (byy _ hcy.1 hcy.2).2⟩

theorem exampleFullAreaTracker_eq :
    exampleFullAreaTracker.trackingArea = ⟨0, 0, 1, 1⟩ ∧
    exampleFullAreaTracker.outputImage = ⟨2048, 3072, Pixels.unset⟩ ∧
    exampleFullAreaTracker.lastFrameNumber = 0 := by
  simp [exampleFullAreaTracker, MarkerDetection.UpdateTrackingArea, exampleMarkerDetection,
    MarkerDetection.new, exampleCamera, Camera.new, Camera.CopyImageTo, kImageHeight, kImageWidth]

theorem exampleFullAreaTracker_pass (camera : Camera) (rows cols : Nat) (pixels : Pixels)
    (detected : List Detection) (himage : camera.CopyImageTo = ⟨rows, cols, pixels⟩)
    (hframe : camera.GetFrameNumber = 1) (hrows : 0 < rows) (hcols : 0 < cols) :
    (exampleFullAreaTracker.Run camera ⟨0, detected⟩).trackingData
      = storeDetections ⟨0 * (cols : ℝ), 0 * (rows : ℝ)⟩ ⟨2048, 3072, Pixels.unset⟩ [] detected := by
  have hnew : exampleFullAreaTracker.lastFrameNumber ≠ camera.GetFrameNumber := by
    rw [hframe, exampleFullAreaTracker_eq.2.2]
    decide
  have hpass : exampleFullAreaTracker.passDetections camera ⟨0, detected⟩ = detected := by
    unfold MarkerDetection.passDetections
    rw [himage, exampleFullAreaTracker_eq.1, roi_full]
    have h1 : ¬ rows = 0 := by omega
    have h2 : ¬ cols = 0 := by omega
    simp [Mat.empty, h1, h2]
  rw [MarkerDetection.Run_trackingData _ _ _ hnew, hpass, himage, exampleFullAreaTracker_eq.1,
    exampleFullAreaTracker_eq.2.1]

/-- Witness of C8: the fresh tracker with the whole frame as tracking area, polled on
the first 3072 x 2048 frame with one marker detected. -/
theorem MarkerDetection.Run_normalized_witness :
    ∃ d ∈ [exampleOtherMarker],
      ((5 : Int), exampleOtherMarker.markerData ⟨0 * ((3072 : Nat) : ℝ), 0 * ((2048 : Nat) : ℝ)⟩
          ⟨2048, 3072, Pixels.unset⟩).1 = d.id ∧
      (exampleOtherMarker.markerData ⟨0 * ((3072 : Nat) : ℝ), 0 * ((2048 : Nat) : ℝ)⟩
          ⟨2048, 3072, Pixels.unset⟩).id = d.id ∧
      (exampleOtherMarker.markerData ⟨0 * ((3072 : Nat) : ℝ), 0 * ((2048 : Nat) : ℝ)⟩
          ⟨2048, 3072, Pixels.unset⟩).topLeft
        = normalizedAgainstFrame d.corner0 exampleFullAreaTracker.trackingArea
            exampleCameraAfterFrame.CopyImageTo.cols exampleCameraAfterFrame.CopyImageTo.rows :=
  have h := MarkerDetection.Run_normalized exampleFullAreaTracker exampleCameraAfterFrame
    ⟨0, [exampleOtherMarker]⟩
    (by rw [exampleCameraAfterFrame_eq.2.1, exampleFullAreaTracker_eq.2.2]; decide)
    (by rw [exampleCameraAfterFrame_eq.1, exampleFullAreaTracker_eq.2.1])
    (by rw [exampleCameraAfterFrame_eq.1, exampleFullAreaTracker_eq.2.1])
    (by rw [exampleCameraAfterFrame_eq.1]; decide)
    (by rw [exampleCameraAfterFrame_eq.1]; decide)
    (by rw [exampleFullAreaTracker_eq.1])
    (by rw [exampleFullAreaTracker_eq.1])
    (by rw [exampleFullAreaTracker_eq.1]; norm_num)
    (by rw [exampleFullAreaTracker_eq.1]; norm_num)
    (by
      rw [exampleCameraAfterFrame_eq.1, exampleFullAreaTracker_eq.1]
      intro d hd
      rw [List.mem_singleton] at hd
      subst hd
      intro p hp
      simp only [exampleOtherMarker, Detection.axisAligned, List.mem_cons, List.mem_singleton,
        List.not_mem_nil, or_false] at hp
      rcases hp with hp | hp | hp | hp <;> subst hp <;> norm_num)
    ((5 : Int), exampleOtherMarker.markerData ⟨0 * ((3072 : Nat) : ℝ), 0 * ((2048 : Nat) : ℝ)⟩
        ⟨2048, 3072, Pixels.unset⟩)
    (by
      rw [exampleFullAreaTracker_pass exampleCameraAfterFrame 2048 3072 (Pixels.raster 0)
        [exampleOtherMarker] exampleCameraAfterFrame_eq.1 exampleCameraAfterFrame_eq.2.1
        (by decide) (by decide)]
      simp [storeDetections, StdMap.assign, exampleOtherMarker, Detection.axisAligned])
  match h with
  | ⟨d, hd, h1, h2, h3, _⟩ => ⟨d, hd, h1, h2, h3⟩

/-- Counterexample to C8 as stated: the fresh tracker (output image 3072 x 2048 from
its constructor, whole frame as tracking area) polled on a first frame of size
1920 x 1080 in which a marker corner is detected at pixel (960, 540) stores that corner
as (960/3072, 540/2048) = (5/16, 135/512), not ((960 + 0)/1920, (540 + 0)/1080)
= (1/2, 1/2). -/
theorem MarkerDetection.first_frame_normalization :
    exampleCameraSmallFrame.CopyImageTo.cols = 1920 ∧
    exampleCameraSmallFrame.CopyImageTo.rows = 1080 ∧
    exampleCentreMarker.corner0 = ⟨960, 540⟩ ∧
    ((exampleFullAreaTracker.Run exampleCameraSmallFrame ⟨0, [exampleCentreMarker]⟩).trackingData.find
        3).map (fun markerData => markerData.topLeft) = some (5 / 16, 135 / 512) ∧
    normalizedAgainstFrame exampleCentreMarker.corner0 exampleFullAreaTracker.trackingArea
      1920 1080 = (1 / 2, 1 / 2) := by
  refine ⟨?_, ?_, rfl, ?_, ?_⟩
  · rw [exampleCameraSmallFrame_eq.1]
  · rw [exampleCameraSmallFrame_eq.1]
  · rw [exampleFullAreaTracker_pass exampleCameraSmallFrame 1080 1920 (Pixels.raster 1)
      [exampleCentreMarker] exampleCameraSmallFrame_eq.1 exampleCameraSmallFrame_eq.2
      (by decide) (by decide)]
    simp only [storeDetections, StdMap.assign, StdMap.find, exampleCentreMarker,
      Detection.axisAligned, Detection.markerData, List.find?_cons, decide_True, Option.map_some']
    norm_num
  · rw [exampleFullAreaTracker_eq.1]
    simp only [normalizedAgainstFrame, exampleCentreMarker, Detection.axisAligned]
    norm_num

/-! ## Entries of the observation map -/

theorem MarkerDetection.Run_entries (md : MarkerDetection) (camera : Camera)
    (poll : DetectionPoll) (hnew : md.lastFrameNumber ≠ camera.GetFrameNumber)
    (entry : Int × MarkerData ℝ) (hentry : entry ∈ (md.Run camera poll).trackingData) :
    ∃ d ∈ poll.detected, entry = (d.id, d.markerData
      ⟨md.trackingArea.x * camera.CopyImageTo.cols, md.trackingArea.y * camera.CopyImageTo.rows⟩
      md.outputImage) := by
  rw [MarkerDetection.Run_trackingData md camera poll hnew] at hentry
  rcases storeDetections_mem _ _ _ _ _ hentry with h | ⟨d, hd, heq⟩
  · exact absurd h (List.not_mem_nil _)
  · exact ⟨d, passDetections_subset md camera poll d hd, heq⟩

theorem exampleFullAreaTracker_entry (d : Detection) :
    (d.id, d.markerData ⟨0 * ((3072 : Nat) : ℝ), 0 * ((2048 : Nat) : ℝ)⟩
        ⟨2048, 3072, Pixels.unset⟩)
      ∈ (exampleFullAreaTracker.Run exampleCameraAfterFrame ⟨0, [d]⟩).trackingData := by
  rw [exampleFullAreaTracker_pass exampleCameraAfterFrame 2048 3072 (Pixels.raster 0) [d]
    exampleCameraAfterFrame_eq.1 exampleCameraAfterFrame_eq.2.1 (by decide) (by decide)]
  simp [storeDetections, StdMap.assign]

theorem exampleFullAreaTracker_find (d : Detection) :
    (exampleFullAreaTracker.Run exampleCameraAfterFrame ⟨0, [d]⟩).trackingData.find d.id
      = some (d.markerData ⟨0 * ((3072 : Nat) : ℝ), 0 * ((2048 : Nat) : ℝ)⟩
          ⟨2048, 3072, Pixels.unset⟩) := by
  rw [exampleFullAreaTracker_pass exampleCameraAfterFrame 2048 3072 (Pixels.raster 0) [d]
    exampleCameraAfterFrame_eq.1 exampleCameraAfterFrame_eq.2.1 (by decide) (by decide)]
  simp [storeDetections, StdMap.assign, StdMap.find]

theorem exampleFullAreaTracker_new :
    exampleFullAreaTracker.lastFrameNumber ≠ exampleCameraAfterFrame.GetFrameNumber := by
  rw [exampleCameraAfterFrame_eq.2.1, exampleFullAreaTracker_eq.2.2]
  decide

/-! ## Size of a marker (C5) -/

theorem Detection.markerData_size (d : Detection) (trackingAreaOffset : Point2)
    (outputImage : Mat) :
    (d.markerData trackingAreaOffset outputImage).size
      = 4 * (Point2.dist d.rightEdgeMidpoint d.centroid) ^ 2
          / ((outputImage.cols : ℝ) * (outputImage.rows : ℝ)) := by
  simp only [Detection.markerData, Nat.cast_mul]
  rw [← Detection.radius_eq]
  ring

/-- C5 (as amended): for every marker detected in a `MarkerDetection::Run` on a new
frame, the size stored is `4 r^2 / (W H)` with `r` the distance from the marker's centre
to the midpoint of its right edge (topRight-bottomRight) and `W`, `H` the width and height
of the tracker's output image (those of the frame, when the frame has that size); an
axis-aligned marker of width `W/4` and height `H/4` gets the size computed from
`r = W/8`. -/
theorem MarkerDetection.Run_size (md : MarkerDetection) (camera : Camera)
    (poll : DetectionPoll) (id : Int) (x y : ℝ) (trackingAreaOffset : Point2)
    (hnew : md.lastFrameNumber ≠ camera.GetFrameNumber) :
    (∀ entry ∈ (md.Run camera poll).trackingData, ∃ d ∈ poll.detected,
      entry.1 = d.id ∧
      entry.2.size = 4 * (Point2.dist d.rightEdgeMidpoint d.centroid) ^ 2
          / ((md.outputImage.cols : ℝ) * (md.outputImage.rows : ℝ))) ∧
    ((Detection.axisAligned id x y ((md.outputImage.cols : ℝ) / 4)
        ((md.outputImage.rows : ℝ) / 4)).markerData trackingAreaOffset md.outputImage).size
      = 4 * ((md.outputImage.cols : ℝ) / 8) ^ 2
          / ((md.outputImage.cols : ℝ) * (md.outputImage.rows : ℝ)) := by
  constructor
  · intro entry hentry
    obtain ⟨d, hd, heq⟩ := MarkerDetection.Run_entries md camera poll hnew entry hentry
    refine ⟨d, hd, by rw [heq], ?_⟩
    rw [heq]
    exact Detection.markerData_size d _ _
  · rw [Detection.markerData_size, ← Detection.radius_eq,
      Detection.axisAligned_radius _ _ _ _ _ (by positivity)]
    ring

/-- Witness of C5: the fresh tracker polled on the first 3072 x 2048 frame with the
quarter-size marker detected. -/
theorem MarkerDetection.Run_size_witness :
    ∃ d ∈ [exampleQuarterMarker],
      (exampleQuarterMarker.id, exampleQuarterMarker.markerData
          ⟨0 * ((3072 : Nat) : ℝ), 0 * ((2048 : Nat) : ℝ)⟩ ⟨2048, 3072, Pixels.unset⟩).1 = d.id ∧
      (exampleQuarterMarker.markerData
          ⟨0 * ((3072 : Nat) : ℝ), 0 * ((2048 : Nat) : ℝ)⟩ ⟨2048, 3072, Pixels.unset⟩).size
        = 4 * (Point2.dist d.rightEdgeMidpoint d.centroid) ^ 2
          / ((exampleFullAreaTracker.outputImage.cols : ℝ)
              * (exampleFullAreaTracker.outputImage.rows : ℝ)) :=
  (MarkerDetection.Run_size exampleFullAreaTracker exampleCameraAfterFrame
    ⟨0, [exampleQuarterMarker]⟩ 0 0 0 ⟨0, 0⟩ exampleFullAreaTracker_new).1 _
    (exampleFullAreaTracker_entry exampleQuarterMarker)

/-- Counterexample to C5 as stated: the fresh tracker polled on a first 3072 x 2048
frame in which the axis-aligned marker of width 768 = W/4 and height 512 = H/4 is
detected stores size 3/32 (from `r = 384 = W/8`), while the distance from the marker's
centre to the midpoint of its top edge is `256 = H/8`, which gives 1/24. -/
theorem MarkerDetection.quarterMarker_size :
    ((exampleFullAreaTracker.Run exampleCameraAfterFrame
        ⟨0, [exampleQuarterMarker]⟩).trackingData.find exampleQuarterMarker.id).map
        (fun markerData => markerData.size) = some (3 / 32) ∧
    Point2.dist exampleQuarterMarker.topEdgeMidpoint exampleQuarterMarker.centroid = 2048 / 8 ∧
    exampleQuarterMarker.sizeFromTopEdge 3072 2048 = 1 / 24 := by
  have htop := Detection.axisAligned_topEdge 0 0 0 768 512
  have hdist : Point2.dist exampleQuarterMarker.topEdgeMidpoint exampleQuarterMarker.centroid
      = 256 := by
    simp only [Point2.dist, exampleQuarterMarker, htop.1, htop.2]
    rw [show ((0 : ℝ) ^ 2 + (-(512 / 2)) ^ 2) = 256 ^ 2 by norm_num]
    exact Real.sqrt_sq (by norm_num)
  refine ⟨?_, ?_, ?_⟩
  · rw [exampleFullAreaTracker_find, Option.map_some']
    simp only [Detection.markerData, exampleQuarterMarker,
      Detection.axisAligned_radius 0 0 0 768 512 (by norm_num)]
    norm_num
  · rw [hdist]
    norm_num
  · rw [Detection.sizeFromTopEdge, hdist]
    norm_num

/-! ## Angle of a marker (C6, C7) -/

theorem Detection.angle_eq (d : Detection) (hr : 0 < d.radius) :
    d.angle = (if 0 < d.pointA.y - d.center.y then -1 else 1) * kRadiansToDegrees
      * Real.arccos ((d.pointA.x - d.center.x) / d.radius) := by
  have hne : d.radius ≠ 0 := ne_of_gt hr
  have hnormA : (d.pointA.sub d.center).norm = d.radius := rfl
  have hB : ((d.center.add ⟨d.radius, 0⟩).sub d.center) = ⟨d.radius, 0⟩ := by
    simp [Point2.add, Point2.sub]
  have hN : ((d.center.add ⟨0, -d.radius⟩).sub d.center) = ⟨0, -d.radius⟩ := by
    simp [Point2.add, Point2.sub]
  have hnormB : (⟨d.radius, 0⟩ : Point2).norm = d.radius := by
    rw [Point2.norm_mk_zero_right, abs_of_pos hr]
  have hnormN : (⟨0, -d.radius⟩ : Point2).norm = d.radius := by
    rw [Point2.norm_mk_zero_left, abs_neg, abs_of_pos hr]
  have hvA : (d.pointA.sub d.center).normalize
      = ⟨(d.pointA.x - d.center.x) / d.radius, (d.pointA.y - d.center.y) / d.radius⟩ := by
    rw [Point2.normalize, hnormA, if_neg hne]
    simp only [Point2.scale, Point2.sub, mul_one_div]
  have hvB : (⟨d.radius, 0⟩ : Point2).normalize = ⟨1, 0⟩ := by
    rw [Point2.normalize, hnormB, if_neg hne]
    simp [Point2.scale, hne]
  have hvN : (⟨0, -d.radius⟩ : Point2).normalize = ⟨0, -1⟩ := by
    rw [Point2.normalize, hnormN, if_neg hne]
    simp [Point2.scale, hne]
  have hiff : ((d.pointA.y - d.center.y) / d.radius * -1 < 0) ↔ 0 < d.pointA.y - d.center.y := by
    rw [mul_neg_one, neg_lt_zero]
    exact div_pos_iff_of_pos_right hr
  unfold Detection.angle
  simp only [hB, hN, hvA, hvB, hvN, Point2.dot, mul_zero, zero_add, add_zero, mul_one, hiff]

theorem Detection.axisAligned_angle (id : Int) (x y w h : ℝ) (hw : 0 < w) :
    (Detection.axisAligned id x y w h).angle = 0 := by
  have hrad := Detection.axisAligned_radius id x y w h (le_of_lt hw)
  have hedge := Detection.axisAligned_rightEdge id x y w h
  rw [Detection.angle_eq _ (by rw [hrad]; positivity), Detection.pointA_eq,
    Detection.center_eq, hedge.1, hedge.2, hrad, div_self (by positivity), Real.arccos_one,
    mul_zero]

/-- C6: for the marker with corners (0,0), (1,0), (1,1), (0,1) and for every
axis-aligned rectangle marker with its top edge horizontal and on the image-up side
(corners `(x, y)`, `(x + w, y)`, `(x + w, y + h)`, `(x, y + h)` with `w > 0`), the
angle `MarkerDetection::Run` computes is 0 degrees: so is the angle of every entry
of the observation map after a pass in which all detected markers are such
rectangles. -/
theorem MarkerDetection.Run_axisAligned_angle (md : MarkerDetection) (camera : Camera)
    (poll : DetectionPoll) (id : Int) (x y w h : ℝ) (trackingAreaOffset : Point2)
    (outputImage : Mat) (hnew : md.lastFrameNumber ≠ camera.GetFrameNumber)
    (hrect : ∀ d ∈ poll.detected,
      ∃ dx dy dw dh : ℝ, 0 < dw ∧ d = Detection.axisAligned d.id dx dy dw dh)
    (hw : 0 < w) :
    (∀ entry ∈ (md.Run camera poll).trackingData, entry.2.angle = 0) ∧
    ((Detection.axisAligned id x y w h).markerData trackingAreaOffset outputImage).angle = 0 ∧
    (exampleUnitSquare.markerData trackingAreaOffset outputImage).angle = 0 := by
  refine ⟨?_, Detection.axisAligned_angle id x y w h hw, ?_⟩
  · intro entry hentry
    obtain ⟨d, hd, heq⟩ := MarkerDetection.Run_entries md camera poll hnew entry hentry
    obtain ⟨dx, dy, dw, dh, hdw, hshape⟩ := hrect d hd
    rw [heq]
    show d.angle = 0
    rw [hshape]
    exact Detection.axisAligned_angle _ dx dy dw dh hdw
  · have hunit : exampleUnitSquare = Detection.axisAligned 0 0 0 1 1 := by
      simp [exampleUnitSquare, Detection.axisAligned]
    show exampleUnitSquare.angle = 0
    rw [hunit]
    exact Detection.axisAligned_angle 0 0 0 1 1 one_pos

/-- Witness of C6: the fresh tracker polled on the first frame with the unit square
detected. -/
theorem MarkerDetection.Run_axisAligned_angle_witness :
    ((Detection.axisAligned 0 0 0 1 1).id, (Detection.axisAligned 0 0 0 1 1).markerData
        ⟨0 * ((3072 : Nat) : ℝ), 0 * ((2048 : Nat) : ℝ)⟩ ⟨2048, 3072, Pixels.unset⟩).2.angle
      = 0 :=
  (MarkerDetection.Run_axisAligned_angle exampleFullAreaTracker exampleCameraAfterFrame
    ⟨0, [Detection.axisAligned 0 0 0 1 1]⟩ 0 0 0 1 1 ⟨0, 0⟩ exampleImage
    exampleFullAreaTracker_new
    (by
      intro d hd
      rw [List.mem_singleton] at hd
      subst hd
      exact ⟨0, 0, 1, 1, one_pos, rfl⟩)
    one_pos).1 _ (exampleFullAreaTracker_entry (Detection.axisAligned 0 0 0 1 1))

theorem Detection.markerData_angle (d : Detection) (trackingAreaOffset : Point2)
    (outputImage : Mat) (hr : 0 < Point2.dist d.rightEdgeMidpoint d.centroid) :
    (d.markerData trackingAreaOffset outputImage).angle
      = (if 0 < d.rightEdgeMidpoint.y - d.centroid.y then -1 else 1) * kRadiansToDegrees
        * Real.arccos ((d.rightEdgeMidpoint.sub d.centroid).dot ⟨1, 0⟩
            / Point2.dist d.rightEdgeMidpoint d.centroid) := by
  rw [← Detection.radius_eq] at hr ⊢
  show d.angle = _
  rw [Detection.angle_eq d hr, Detection.pointA_eq, Detection.center_eq]
  simp [Point2.dot, Point2.sub]

/-- C7 (as amended): for every marker quadrilateral detected in a `MarkerDetection::Run`
on a new frame whose right-edge midpoint differs from its centre, the angle stored is
the angle in degrees (by `kRadiansToDegrees`) between the vector from the marker's centre
to the midpoint of its right edge (topRight-bottomRight) and the image-right direction,
negated when that vector points downwards in the image. -/
theorem MarkerDetection.Run_angle (md : MarkerDetection) (camera : Camera)
    (poll : DetectionPoll) (hnew : md.lastFrameNumber ≠ camera.GetFrameNumber)
    (hr : ∀ d ∈ poll.detected, 0 < Point2.dist d.rightEdgeMidpoint d.centroid) :
    ∀ entry ∈ (md.Run camera poll).trackingData, ∃ d ∈ poll.detected,
      entry.1 = d.id ∧
      entry.2.angle
        = (if 0 < d.rightEdgeMidpoint.y - d.centroid.y then -1 else 1) * kRadiansToDegrees
          * Real.arccos ((d.rightEdgeMidpoint.sub d.centroid).dot ⟨1, 0⟩
              / Point2.dist d.rightEdgeMidpoint d.centroid) := by
  intro entry hentry
  obtain ⟨d, hd, heq⟩ := MarkerDetection.Run_entries md camera poll hnew entry hentry
  refine ⟨d, hd, by rw [heq], ?_⟩
  rw [heq]
  exact Detection.markerData_angle d _ _ (hr d hd)

theorem exampleTrapezoid_geometry :
    exampleTrapezoid.rightEdgeMidpoint.x - exampleTrapezoid.centroid.x = 1 ∧
    exampleTrapezoid.rightEdgeMidpoint.y - exampleTrapezoid.centroid.y = 3 / 4 ∧
    exampleTrapezoid.topEdgeMidpoint.x - exampleTrapezoid.centroid.x = 0 ∧
    exampleTrapezoid.topEdgeMidpoint.y - exampleTrapezoid.centroid.y = -(7 / 4) ∧
    Point2.dist exampleTrapezoid.rightEdgeMidpoint exampleTrapezoid.centroid = 5 / 4 := by
  have h1 : exampleTrapezoid.rightEdgeMidpoint.x - exampleTrapezoid.centroid.x = 1 := by
    simp only [Detection.rightEdgeMidpoint, Detection.centroid, exampleTrapezoid]; norm_num
  have h2 : exampleTrapezoid.rightEdgeMidpoint.y - exampleTrapezoid.centroid.y = 3 / 4 := by
    simp only [Detection.rightEdgeMidpoint, Detection.centroid, exampleTrapezoid]; norm_num
  refine ⟨h1, h2, ?_, ?_, ?_⟩
  · simp only [Detection.topEdgeMidpoint, Detection.centroid, exampleTrapezoid]; norm_num
  · simp only [Detection.topEdgeMidpoint, Detection.centroid, exampleTrapezoid]; norm_num
  · rw [Point2.dist, h1, h2, show ((1 : ℝ) ^ 2 + (3 / 4) ^ 2) = (5 / 4) ^ 2 by norm_num]
    exact Real.sqrt_sq (by norm_num)

/-- Witness of C7: the fresh tracker polled on the first frame with the trapezoid
(0,0), (2,0), (2,5), (0,2) detected. -/
theorem MarkerDetection.Run_angle_witness :
    ∃ d ∈ [exampleTrapezoid],
      (exampleTrapezoid.id, exampleTrapezoid.markerData
          ⟨0 * ((3072 : Nat) : ℝ), 0 * ((2048 : Nat) : ℝ)⟩ ⟨2048, 3072, Pixels.unset⟩).1 = d.id ∧
      (exampleTrapezoid.id, exampleTrapezoid.markerData
          ⟨0 * ((3072 : Nat) : ℝ), 0 * ((2048 : Nat) : ℝ)⟩ ⟨2048, 3072, Pixels.unset⟩).2.angle
        = (if 0 < d.rightEdgeMidpoint.y - d.centroid.y then -1 else 1) * kRadiansToDegrees
          * Real.arccos ((d.rightEdgeMidpoint.sub d.centroid).dot ⟨1, 0⟩
              / Point2.dist d.rightEdgeMidpoint d.centroid) :=
  MarkerDetection.Run_angle exampleFullAreaTracker exampleCameraAfterFrame
    ⟨0, [exampleTrapezoid]⟩ exampleFullAreaTracker_new
    (by
      intro d hd
      rw [List.mem_singleton] at hd
      subst hd
      rw [exampleTrapezoid_geometry.2.2.2.2]
      norm_num)
    _ (exampleFullAreaTracker_entry exampleTrapezoid)

/-- Counterexample to C7 as stated: the fresh tracker polled on a first frame in which
the trapezoid with corners (0,0), (2,0), (2,5), (0,2) is detected. The vector from its
centre to the midpoint of its top edge points straight up, so its angle to image-up
is 0, while the stored angle is `-kRadiansToDegrees * arccos (4/5)`, a negative number
(about -36.87). -/
theorem MarkerDetection.trapezoid_angle :
    exampleTrapezoid.angleFromTopEdge = 0 ∧
    ((exampleFullAreaTracker.Run exampleCameraAfterFrame
        ⟨0, [exampleTrapezoid]⟩).trackingData.find exampleTrapezoid.id).map
        (fun markerData => markerData.angle)
      = some (-(kRadiansToDegrees * Real.arccos (4 / 5))) ∧
    -(kRadiansToDegrees * Real.arccos (4 / 5)) < 0 := by
  obtain ⟨h1, h2, h3, h4, h5⟩ := exampleTrapezoid_geometry
  have hcode : exampleTrapezoid.angle = -(kRadiansToDegrees * Real.arccos (4 / 5)) := by
    have hr : 0 < exampleTrapezoid.radius := by
      rw [Detection.radius_eq, h5]; norm_num
    rw [Detection.angle_eq _ hr, Detection.pointA_eq, Detection.center_eq, h1, h2,
      Detection.radius_eq, h5, if_pos (by norm_num)]
    norm_num
  have hk : 0 < kRadiansToDegrees := by
    unfold kRadiansToDegrees; norm_num
  refine ⟨?_, ?_, ?_⟩
  · have hsub : exampleTrapezoid.topEdgeMidpoint.sub exampleTrapezoid.centroid
        = ⟨0, -(7 / 4)⟩ := by
      simp only [Point2.sub, h3, h4]
    have hnorm : (⟨0, -(7 / 4)⟩ : Point2).norm = 7 / 4 := by
      rw [Point2.norm_mk_zero_left, abs_neg, abs_of_pos (by norm_num)]
    have hunit : (⟨0, -(7 / 4)⟩ : Point2).normalize = ⟨0, -1⟩ := by
      rw [Point2.normalize, hnorm, if_neg (by norm_num)]
      simp only [Point2.scale, Point2.mk.injEq]
      constructor <;> norm_num
    unfold Detection.angleFromTopEdge
    simp only [hsub, hunit, Point2.dot]
    norm_num
  · rw [exampleFullAreaTracker_find, Option.map_some']
    exact congrArg some hcode
  · rw [neg_lt_zero]
    exact mul_pos hk (Real.arccos_pos.mpr (by norm_num))

/-! ## Choice of the calibration profile (C10) -/

theorem Camera.rotatedImage_remaps (c : Camera) (image : Mat) :
    (c.rotatedImage image).pixels.remaps = image.pixels.remaps := by
  unfold Camera.rotatedImage
  split <;> simp [Pixels.remaps]

theorem Camera.GetFrame_outputImage (c : Camera) (device : DevicePoll) (rawImage : Mat)
    (hp : c.pCamera = true) (hstatus : device.statusRaises = false)
    (hinit : device.isInitialized = true) (hstream : device.isStreaming = true)
    (hgrab : device.grab = Grab.complete rawImage) :
    (c.GetFrame device).1.outputImage = c.rotatedImage (c.calibratedImage rawImage) := by
  simp [Camera.GetFrame, hp, hstatus, hinit, hstream, hgrab]

/-- C10: when `Camera::GetFrame` receives a valid raster (not remapped before), the
stored output image is the raster remapped with the Preview profile exactly when
apply-preview is on and the Preview slot holds a profile of kind Preview; otherwise
remapped with the Saved profile exactly when apply-saved is on and the Saved slot holds
a profile of kind Saved; otherwise the raster unremapped (each followed by the rotation
step). At most one remap is applied. `Camera::Calibrate` stores a profile in the slot of
its kind and leaves the other slot and the flags unchanged. -/
theorem Camera.GetFrame_calibration (c : Camera) (device : DevicePoll) (rawImage : Mat)
    (profile : CalibrationData)
    (hp : c.pCamera = true) (hstatus : device.statusRaises = false)
    (hinit : device.isInitialized = true) (hstream : device.isStreaming = true)
    (hgrab : device.grab = Grab.complete rawImage) (hraw : rawImage.pixels.remaps = []) :
    ((c.isApplyCalibrationPreview = true ∧ c.calibrationPreviewData.type = CalibrationType.Preview) →
      (c.GetFrame device).1.outputImage
        = c.rotatedImage ⟨c.calibrationPreviewData.distortMap.rows,
            c.calibrationPreviewData.distortMap.cols,
            Pixels.remap rawImage.pixels c.calibrationPreviewData.distortMap
              c.calibrationPreviewData.undistortMap⟩) ∧
    (¬ (c.isApplyCalibrationPreview = true ∧
          c.calibrationPreviewData.type = CalibrationType.Preview) →
      (c.isApplyCalibration = true ∧ c.calibrationData.type = CalibrationType.Saved) →
      (c.GetFrame device).1.outputImage
        = c.rotatedImage ⟨c.calibrationData.distortMap.rows, c.calibrationData.distortMap.cols,
            Pixels.remap rawImage.pixels c.calibrationData.distortMap
              c.calibrationData.undistortMap⟩) ∧
    (¬ (c.isApplyCalibrationPreview = true ∧
          c.calibrationPreviewData.type = CalibrationType.Preview) →
      ¬ (c.isApplyCalibration = true ∧ c.calibrationData.type = CalibrationType.Saved) →
      (c.GetFrame device).1.outputImage = c.rotatedImage rawImage) ∧
    (c.GetFrame device).1.outputImage.pixels.remaps
      = (if c.isApplyCalibrationPreview = true ∧
            c.calibrationPreviewData.type = CalibrationType.Preview then
          [(c.calibrationPreviewData.distortMap, c.calibrationPreviewData.undistortMap)]
        else if c.isApplyCalibration = true ∧ c.calibrationData.type = CalibrationType.Saved then
          [(c.calibrationData.distortMap, c.calibrationData.undistortMap)]
        else []) ∧
    (c.GetFrame device).1.outputImage.pixels.remaps.length ≤ 1 ∧
    (profile.type = CalibrationType.Preview →
      (c.Calibrate profile).calibrationPreviewData = profile ∧
      (c.Calibrate profile).calibrationData = c.calibrationData) ∧
    (profile.type = CalibrationType.Saved →
      (c.Calibrate profile).calibrationData = profile ∧
      (c.Calibrate profile).calibrationPreviewData = c.calibrationPreviewData) ∧
    (profile.type = CalibrationType.None → c.Calibrate profile = c) ∧
    (c.Calibrate profile).isApplyCalibration = c.isApplyCalibration ∧
    (c.Calibrate profile).isApplyCalibrationPreview = c.isApplyCalibrationPreview := by
  have hout := Camera.GetFrame_outputImage c device rawImage hp hstatus hinit hstream hgrab
  have hremaps : (c.GetFrame device).1.outputImage.pixels.remaps
      = (if c.isApplyCalibrationPreview = true ∧
            c.calibrationPreviewData.type = CalibrationType.Preview then
          [(c.calibrationPreviewData.distortMap, c.calibrationPreviewData.undistortMap)]
        else if c.isApplyCalibration = true ∧ c.calibrationData.type = CalibrationType.Saved then
          [(c.calibrationData.distortMap, c.calibrationData.undistortMap)]
        else []) := by
    rw [hout, Camera.rotatedImage_remaps]
    unfold Camera.calibratedImage
    by_cases h1 : c.isApplyCalibrationPreview = true ∧
        c.calibrationPreviewData.type = CalibrationType.Preview
    · simp [h1, Pixels.remaps, hraw]
    · by_cases h2 : c.isApplyCalibration = true ∧ c.calibrationData.type = CalibrationType.Saved
      · rw [if_neg h1, if_pos h2]
        rw [if_neg (by simpa using h1), if_pos (by simpa using h2)]
        simp [Pixels.remaps, hraw]
      · rw [if_neg h1, if_neg h2]
        rw [if_neg (by simpa using h1), if_neg (by simpa using h2)]
        exact hraw
  refine ⟨?_, ?_, ?_, hremaps, ?_, ?_, ?_, ?_, ?_, ?_⟩
  · intro h1
    rw [hout]
    simp [Camera.calibratedImage, h1]
  · intro h1 h2
    rw [hout]
    unfold Camera.calibratedImage
    rw [if_neg (by simpa using h1), if_pos (by simpa using h2)]
  · intro h1 h2
    rw [hout]
    unfold Camera.calibratedImage
    rw [if_neg (by simpa using h1), if_neg (by simpa using h2)]
  · rw [hremaps]
    split_ifs <;> simp
  · intro h
    simp [Camera.Calibrate, h]
  · intro h
    simp [Camera.Calibrate, h]
  · intro h
    simp [Camera.Calibrate, h]
  · unfold Camera.Calibrate
    split_ifs <;> rfl
  · unfold Camera.Calibrate
    split_ifs <;> rfl

theorem exampleCalibratedCamera_eq :
    exampleCalibratedCamera.pCamera = true ∧
    exampleCalibratedCamera.isApplyCalibrationPreview = true ∧
    exampleCalibratedCamera.isApplyCalibration = true ∧
    exampleCalibratedCamera.calibrationPreviewData
      = ⟨1, 2, ⟨2048, 3072, 10⟩, ⟨2048, 3072, 11⟩, CalibrationType.Preview⟩ ∧
    exampleCalibratedCamera.calibrationData
      = ⟨3, 4, ⟨2048, 3072, 20⟩, ⟨2048, 3072, 21⟩, CalibrationType.Saved⟩ := by
  simp [exampleCalibratedCamera, Camera.Calibrate, Camera.ToggleCalibration,
    Camera.ToggleCalibrationPreview, exampleCameraAfterFrame_eq.2.2.1]

/-- Witness of C10: with both profiles stored and both flags on, a frame is remapped
once, with the tables of the Preview profile. -/
theorem Camera.GetFrame_calibration_witness :
    (exampleCalibratedCamera.GetFrame exampleDevicePoll).1.outputImage.pixels.remaps
      = [(⟨2048, 3072, 10⟩, ⟨2048, 3072, 11⟩)] :=
  (Camera.GetFrame_calibration exampleCalibratedCamera exampleDevicePoll
    ⟨2048, 3072, Pixels.raster 0⟩ CalibrationData.default exampleCalibratedCamera_eq.1 rfl rfl rfl
    rfl rfl).2.2.2.1.trans
    (by rw [exampleCalibratedCamera_eq.2.1, exampleCalibratedCamera_eq.2.2.2.1]; simp)

/-! ## Failing connection attempts (C11) -/

theorem Camera.Connect_no_camera (c : Camera) (device : DevicePoll)
    (hnone : device.numCameras < 1) :
    (c.Connect device).1.GetIsConnected = c.GetIsConnected ∧ (c.Connect device).2 = [] := by
  simp [Camera.Connect, hnone, Camera.GetIsConnected]

theorem Camera.Connect_enumerated (c : Camera) (device : DevicePoll)
    (hsome : ¬ device.numCameras < 1) :
    (c.Connect device).1.GetIsConnected = true ∧
    (c.Connect device).2
      = (if device.initRaises then [Signal.CameraDisconnected] else []) ++ [Signal.CameraConnected] := by
  cases hr : device.initRaises <;>
    simp [Camera.Connect, hsome, hr, Camera.GetIsConnected, Camera.Disconnect]

/-- C11 (the code diverges): a fresh camera whose `Connect` finds one camera enumerated
and whose device initialisation raises is connected afterwards: `GetIsConnected` is true
and the notifications are `CameraDisconnected` (from the `Disconnect` in the handler)
followed by `CameraConnected`, while the device handle is released. With no camera
enumerated the same call emits nothing and stays disconnected. -/
theorem Camera.Connect_init_raises :
    (exampleCamera.Connect exampleInitRaisesPoll).1.GetIsConnected = true ∧
    (exampleCamera.Connect exampleInitRaisesPoll).2
      = [Signal.CameraDisconnected, Signal.CameraConnected] ∧
    (exampleCamera.Connect exampleInitRaisesPoll).1.pCamera = false ∧
    (exampleCamera.Connect exampleNoDevicePoll).1.GetIsConnected = false ∧
    (exampleCamera.Connect exampleNoDevicePoll).2 = [] := by
  simp [Camera.Connect, Camera.Disconnect, Camera.GetIsConnected, exampleCamera, Camera.new,
    exampleInitRaisesPoll, exampleNoDevicePoll, exampleDevicePoll]

/-! ## Pause (C12) -/

theorem Calibration.Run_sets_frameNumbers (cal : Calibration) (camera : Camera)
    (poll : CalibrationPoll) :
    (cal.Run camera poll).1.lastFrameNumber = camera.GetFrameNumber ∧
    (cal.Run camera poll).1.currentFrameNumber = camera.GetFrameNumber := by
  by_cases h : cal.lastFrameNumber = camera.GetFrameNumber
  · simp [Calibration.Run, h]
  · simp only [Calibration.Run, h, if_false]
    split_ifs <;> simp [Calibration.capture] <;> split_ifs <;> simp

theorem FrameRateTimer.Reset_frameRate (t : FrameRateTimer) (now : Nat) :
    (t.Reset now).frameRate = 0 := by
  simp [FrameRateTimer.Reset]

/-- C12 (as amended): `Pause` of `MarkerDetection`, `NetworkCommunication` and
`Calibration` returns the stage with only its rate timer replaced, and the rate read
afterwards is 0: frame numbers, observation map, images, capture set, arming and
detection flags and every other member are the ones before. A `Run` of
`MarkerDetection` or of `Calibration` leaves `lastFrameNumber` equal to the frame number
of the camera, and a `Run` of `NetworkCommunication` whose send block does not raise
leaves it equal to the upstream frame number. -/
theorem Pause_resets_rate_only {F : Type} (floatBits : F → Nat)
    (md : MarkerDetection) (nc : NetworkCommunication F) (cal : Calibration) (now : Nat)
    (camera : Camera) (dpoll : DetectionPoll) (frameNumber : Nat)
    (snapshot : StdMap (MarkerData F)) (npoll : NetworkPoll) (cpoll : CalibrationPoll)
    (hsend : npoll.outcome ≠ SendOutcome.raised) :
    (md.Pause now = { md with frameRateTimer := (md.Pause now).frameRateTimer } ∧
      (md.Pause now).GetFrameRate = 0 ∧
      (md.Pause now).currentFrameNumber = md.currentFrameNumber ∧
      (md.Pause now).lastFrameNumber = md.lastFrameNumber ∧
      (md.Pause now).trackingData = md.trackingData ∧
      (md.Pause now).inputImage = md.inputImage ∧
      (md.Pause now).outputImage = md.outputImage) ∧
    (nc.Pause now = { nc with frameRateTimer := (nc.Pause now).frameRateTimer } ∧
      (nc.Pause now).GetFrameRate = 0 ∧
      (nc.Pause now).currentFrameNumber = nc.currentFrameNumber ∧
      (nc.Pause now).lastFrameNumber = nc.lastFrameNumber ∧
      (nc.Pause now).trackingData = nc.trackingData) ∧
    (cal.Pause now = { cal with frameRateTimer := (cal.Pause now).frameRateTimer } ∧
      (cal.Pause now).GetFrameRate = 0 ∧
      (cal.Pause now).currentFrameNumber = cal.currentFrameNumber ∧
      (cal.Pause now).lastFrameNumber = cal.lastFrameNumber ∧
      (cal.Pause now).inputImage = cal.inputImage ∧
      (cal.Pause now).outputImage = cal.outputImage ∧
      (cal.Pause now).capturedImages = cal.capturedImages ∧
      (cal.Pause now).capturedCorners = cal.capturedCorners ∧
      (cal.Pause now).isCaptureImage = cal.isCaptureImage ∧
      (cal.Pause now).isChessboardDetectedCurrent = cal.isChessboardDetectedCurrent ∧
      (cal.Pause now).isChessboardDetectedPrevious = cal.isChessboardDetectedPrevious ∧
      (cal.Pause now).isChessboardAcquired = cal.isChessboardAcquired ∧
      (cal.Pause now).isCalibrated = cal.isCalibrated) ∧
    (md.Run camera dpoll).lastFrameNumber = camera.GetFrameNumber ∧
    (nc.Run floatBits frameNumber snapshot npoll).1.lastFrameNumber = frameNumber ∧
    (cal.Run camera cpoll).1.lastFrameNumber = camera.GetFrameNumber := by
  refine ⟨⟨rfl, ?_, rfl, rfl, rfl, rfl, rfl⟩, ⟨rfl, ?_, rfl, rfl, rfl⟩,
    ⟨rfl, ?_, rfl, rfl, rfl, rfl, rfl, rfl, rfl, rfl, rfl, rfl, rfl⟩,
    (MarkerDetection.Run_frameNumbers md camera dpoll).1,
    (NetworkCommunication.Run_marks_frame floatBits nc frameNumber snapshot npoll hsend).1,
    (Calibration.Run_sets_frameNumbers cal camera cpoll).1⟩
  · exact FrameRateTimer.Reset_frameRate _ _
  · exact FrameRateTimer.Reset_frameRate _ _
  · exact FrameRateTimer.Reset_frameRate _ _

/-- Witness of C12: the fresh tracker, publisher and calibration engine paused at clock
reading 7 read rate 0, and each advances to frame number 1 when run on the camera that
acquired its first frame (the send succeeding). -/
theorem Pause_resets_rate_only_witness :
    (exampleMarkerDetection.Pause 7).GetFrameRate = 0 ∧
    ((NetworkCommunication.new Nat 1 2 0).Pause 7).GetFrameRate = 0 ∧
    ((Calibration.new exampleCamera 0).Pause 7).GetFrameRate = 0 ∧
    (exampleMarkerDetection.Run exampleCameraAfterFrame ⟨9, []⟩).lastFrameNumber = 1 ∧
    ((NetworkCommunication.new Nat 1 2 0).Run (fun v => v) 1 exampleSnapshot
        ⟨9, SendOutcome.sent⟩).1.lastFrameNumber = 1 ∧
    ((Calibration.new exampleCamera 0).Run exampleCameraAfterFrame
        ⟨9, 9, (false, []), (false, [])⟩).1.lastFrameNumber = 1 :=
  have h := Pause_resets_rate_only (fun v => v) exampleMarkerDetection
    (NetworkCommunication.new Nat 1 2 0) (Calibration.new exampleCamera 0) 7
    exampleCameraAfterFrame ⟨9, []⟩ 1 exampleSnapshot ⟨9, SendOutcome.sent⟩
    ⟨9, 9, (false, []), (false, [])⟩ (by simp)
  have hframe : exampleCameraAfterFrame.GetFrameNumber = 1 := exampleCameraAfterFrame_eq.2.1
  ⟨h.1.2.1, h.2.1.2.1, h.2.2.1.2.1, h.2.2.2.1.trans hframe, h.2.2.2.2.1,
    h.2.2.2.2.2.trans hframe⟩

/-- Counterexample to C12 as stated: the fresh publisher, paused and then run on the
new frame number 1 with a send block that raises, keeps `lastFrameNumber = 0`. -/
theorem NetworkCommunication.Run_after_Pause_raise :
    (((NetworkCommunication.new Nat 1 2 0).Pause 7).Run (fun v => v) 1 exampleSnapshot
        ⟨9, SendOutcome.raised⟩).1.lastFrameNumber = 0 ∧
    ((NetworkCommunication.new Nat 1 2 0).Pause 7).lastFrameNumber ≠ 1 := by
  simp [NetworkCommunication.Run, NetworkCommunication.new, NetworkCommunication.Pause]

/-! ## Regeneration of the marker dictionary (C13) -/

theorem MarkerDetection.updates_fields (md : MarkerDetection) (ps : List DetectorParameterData) :
    (md.updates ps).markerDictionary = md.markerDictionary ∧
    (md.updates ps).lastFrameNumber = md.lastFrameNumber ∧
    (md.updates ps).detectorParameters = ps.getLast?.getD md.detectorParameters := by
  induction ps generalizing md with
  | nil => simp [MarkerDetection.updates]
  | cons p rest ih =>
    obtain ⟨h1, h2, h3⟩ := ih (md.UpdateDetectorParameters p)
    refine ⟨h1, h2, ?_⟩
    rw [MarkerDetection.updates, h3]
    cases rest with
    | nil => simp [MarkerDetection.UpdateDetectorParameters]
    | cons q tail =>
      simp [MarkerDetection.UpdateDetectorParameters, List.getLast?_eq_getLast]

theorem MarkerDetection.Run_detectorParameters (md : MarkerDetection) (camera : Camera)
    (poll : DetectionPoll) :
    (md.Run camera poll).detectorParameters = md.detectorParameters := by
  by_cases h : md.lastFrameNumber = camera.GetFrameNumber
  · simp [MarkerDetection.Run, h]
  · simp [MarkerDetection.Run, h, MarkerDetection.applyDetectorParameters]

theorem MarkerDetection.Run_markerDictionary (md : MarkerDetection) (camera : Camera)
    (poll : DetectionPoll) (hnew : camera.GetFrameNumber ≠ md.lastFrameNumber) :
    (md.Run camera poll).markerDictionary = md.applyDetectorParameters.markerDictionary := by
  have h : ¬ md.lastFrameNumber = camera.GetFrameNumber := fun h => hnew h.symm
  simp [MarkerDetection.Run, h, MarkerDetection.applyDetectorParameters]

theorem MarkerDetection.Run_InSync (md : MarkerDetection) (camera : Camera)
    (poll : DetectionPoll) (hsync : md.InSync) :
    (md.Run camera poll).markerDictionary = md.markerDictionary ∧ (md.Run camera poll).InSync := by
  have hdict : (md.Run camera poll).markerDictionary = md.markerDictionary := by
    by_cases h : md.lastFrameNumber = camera.GetFrameNumber
    · simp [MarkerDetection.Run, h]
    · simp [MarkerDetection.Run, h, MarkerDetection.applyDetectorParameters, hsync.1, hsync.2]
  refine ⟨hdict, ?_⟩
  unfold MarkerDetection.InSync
  rw [hdict, MarkerDetection.Run_detectorParameters]
  exact hsync

theorem MarkerDetection.runs_InSync (md : MarkerDetection) (later : List (Camera × DetectionPoll))
    (hsync : md.InSync) :
    (md.runs later).markerDictionary = md.markerDictionary ∧
    (md.runs later).detectorParameters = md.detectorParameters := by
  induction later generalizing md with
  | nil => simp [MarkerDetection.runs]
  | cons step rest ih =>
    obtain ⟨hdict, hnext⟩ := MarkerDetection.Run_InSync md step.1 step.2 hsync
    obtain ⟨h1, h2⟩ := ih (md.Run step.1 step.2) hnext
    rw [MarkerDetection.runs, h1, h2, hdict, MarkerDetection.Run_detectorParameters]
    exact ⟨rfl, rfl⟩

/-- C13: take a tracker whose dictionary has the size and bit length of its
configuration (as after construction and after every pass), any sequence of
`UpdateDetectorParameters` calls, and then a `Run` on a new frame. The configuration
that pass sees is the last one given. If it differs from the earlier one in
`markerDictionarySize` or `markerNumBits`, the pass replaces the dictionary by the one
`generateCustomDictionary` builds for the configured size and bit length, the next call
in number (one regeneration); if it differs in neither, the pass keeps the dictionary
object. In both cases the dictionary then has the configured size and bit length, and
every later sequence of `Run` calls, the configuration unchanged, keeps that object. -/
theorem MarkerDetection.dictionary_regeneration (md : MarkerDetection)
    (ps : List DetectorParameterData) (camera : Camera) (poll : DetectionPoll)
    (later : List (Camera × DetectionPoll))
    (hsync : md.InSync) (hnew : camera.GetFrameNumber ≠ md.lastFrameNumber) :
    (md.updates ps).detectorParameters = ps.getLast?.getD md.detectorParameters ∧
    (((md.updates ps).detectorParameters.markerDictionarySize
          ≠ md.detectorParameters.markerDictionarySize ∨
        (md.updates ps).detectorParameters.markerNumBits ≠ md.detectorParameters.markerNumBits) →
      ((md.updates ps).Run camera poll).markerDictionary
        = generateCustomDictionary (md.updates ps).detectorParameters.markerDictionarySize
            (md.updates ps).detectorParameters.markerNumBits (md.markerDictionary.serial + 1)) ∧
    (((md.updates ps).detectorParameters.markerDictionarySize
          = md.detectorParameters.markerDictionarySize ∧
        (md.updates ps).detectorParameters.markerNumBits = md.detectorParameters.markerNumBits) →
      ((md.updates ps).Run camera poll).markerDictionary = md.markerDictionary) ∧
    ((md.updates ps).Run camera poll).markerDictionary.bytesListRows
      = (md.updates ps).detectorParameters.markerDictionarySize ∧
    ((md.updates ps).Run camera poll).markerDictionary.markerSize
      = (md.updates ps).detectorParameters.markerNumBits ∧
    (((md.updates ps).Run camera poll).runs later).markerDictionary
      = ((md.updates ps).Run camera poll).markerDictionary ∧
    (((md.updates ps).Run camera poll).runs later).detectorParameters
      = (md.updates ps).detectorParameters := by
  obtain ⟨hdict, hlast, hparams⟩ := MarkerDetection.updates_fields md ps
  have hrun := MarkerDetection.Run_markerDictionary (md.updates ps) camera poll
    (by rw [hlast]; exact hnew)
  have hchanged :
      ((md.updates ps).detectorParameters.markerDictionarySize
          ≠ md.detectorParameters.markerDictionarySize ∨
        (md.updates ps).detectorParameters.markerNumBits ≠ md.detectorParameters.markerNumBits) →
      ((md.updates ps).Run camera poll).markerDictionary
        = generateCustomDictionary (md.updates ps).detectorParameters.markerDictionarySize
            (md.updates ps).detectorParameters.markerNumBits (md.markerDictionary.serial + 1) := by
    intro h
    rw [hrun, MarkerDetection.applyDetectorParameters]
    simp only [hdict, hsync.1, hsync.2]
    rw [if_pos]
    rcases h with h | h
    · exact Or.inl (fun e => h e.symm)
    · exact Or.inr (fun e => h e.symm)
  have hsame :
      ((md.updates ps).detectorParameters.markerDictionarySize
          = md.detectorParameters.markerDictionarySize ∧
        (md.updates ps).detectorParameters.markerNumBits = md.detectorParameters.markerNumBits) →
      ((md.updates ps).Run camera poll).markerDictionary = md.markerDictionary := by
    intro h
    rw [hrun, MarkerDetection.applyDetectorParameters]
    simp only [hdict, hsync.1, hsync.2, h.1, h.2]
    simp
  have hafter : ((md.updates ps).Run camera poll).InSync := by
    unfold MarkerDetection.InSync
    rw [MarkerDetection.Run_detectorParameters]
    by_cases h : (md.updates ps).detectorParameters.markerDictionarySize
          = md.detectorParameters.markerDictionarySize ∧
        (md.updates ps).detectorParameters.markerNumBits = md.detectorParameters.markerNumBits
    · rw [hsame h, hsync.1, hsync.2]
      exact ⟨h.1.symm, h.2.symm⟩
    · rw [hchanged (by
        by_contra hne
        exact h ⟨not_not.mp (fun e => hne (Or.inl e)), not_not.mp (fun e => hne (Or.inr e))⟩)]
      exact ⟨rfl, rfl⟩
  obtain ⟨hkeep, hconfig⟩ := MarkerDetection.runs_InSync _ later hafter
  have hkept := MarkerDetection.Run_detectorParameters (md.updates ps) camera poll
  exact ⟨hparams, hchanged, hsame, hafter.1.trans (by rw [hkept]),
    hafter.2.trans (by rw [hkept]), hkeep, hconfig.trans hkept⟩

/-- Witness of C13: the fresh tracker (24 markers of 4 bits, dictionary number 0) is
given `markerNumBits = 5`, then runs on the first frame: the dictionary becomes the one
of 24 markers of 5 bits, number 1, and two more passes keep it. -/
theorem MarkerDetection.dictionary_regeneration_witness :
    exampleMarkerDetection.InSync ∧
    exampleCameraAfterFrame.GetFrameNumber ≠ exampleMarkerDetection.lastFrameNumber ∧
    ((exampleMarkerDetection.updates [exampleFiveBitParameters]).Run exampleCameraAfterFrame
        ⟨9, []⟩).markerDictionary = ⟨24, 5, 1⟩ ∧
    (((exampleMarkerDetection.updates [exampleFiveBitParameters]).Run exampleCameraAfterFrame
        ⟨9, []⟩).runs [(exampleCameraAfterFrame, ⟨10, []⟩), (exampleCamera, ⟨11, []⟩)]).markerDictionary
      = ⟨24, 5, 1⟩ :=
  have hsync : exampleMarkerDetection.InSync := by
    simp [MarkerDetection.InSync, exampleMarkerDetection, MarkerDetection.new,
      generateCustomDictionary]
  have hnew : exampleCameraAfterFrame.GetFrameNumber ≠ exampleMarkerDetection.lastFrameNumber := by
    rw [exampleCameraAfterFrame_eq.2.1]
    simp [exampleMarkerDetection, MarkerDetection.new]
  have h := MarkerDetection.dictionary_regeneration exampleMarkerDetection
    [exampleFiveBitParameters] exampleCameraAfterFrame ⟨9, []⟩
    [(exampleCameraAfterFrame, ⟨10, []⟩), (exampleCamera, ⟨11, []⟩)] hsync hnew
  have hdict : ((exampleMarkerDetection.updates [exampleFiveBitParameters]).Run
      exampleCameraAfterFrame ⟨9, []⟩).markerDictionary = ⟨24, 5, 1⟩ :=
    (h.2.1 (Or.inr (by
      simp [MarkerDetection.updates, MarkerDetection.UpdateDetectorParameters,
        exampleFiveBitParameters, exampleMarkerDetection, MarkerDetection.new]))).trans
      (by simp [MarkerDetection.updates, MarkerDetection.UpdateDetectorParameters,
        exampleFiveBitParameters, exampleMarkerDetection, MarkerDetection.new,
        generateCustomDictionary])
  ⟨hsync, hnew, hdict, h.2.2.2.2.2.1.trans hdict⟩

/-! ## Marker images (C14) -/

theorem renderMarkers_length (dictionary : Dictionary) (imageSize : Int) (first count : Nat) :
    (renderMarkers dictionary imageSize none first count).length = count := by
  induction count generalizing first with
  | zero => simp [renderMarkers]
  | succ n ih => simp [renderMarkers, ih]

/-- C14 (the code diverges): after `UpdateDetectorParameters` set `markerNumBits` to 5
on the fresh tracker and before any `Run`, `GenerateMarkerImages(200)` with nothing
raising returns true and writes 24 images, the first for id 0, all rendered from the
dictionary of 4-bit markers built at construction, whose bit length is not the
configured 5; a `Run` on a new frame is what brings the dictionary to 5 bits. -/
theorem MarkerDetection.GenerateMarkerImages_stale_dictionary :
    exampleReconfiguredTracker.detectorParameters.markerNumBits = 5 ∧
    (exampleReconfiguredTracker.GenerateMarkerImages 200 none).2 = true ∧
    (exampleReconfiguredTracker.GenerateMarkerImages 200 none).1.length = 24 ∧
    (exampleReconfiguredTracker.GenerateMarkerImages 200 none).1.head?
      = some ⟨⟨24, 4, 0⟩, 0, 200⟩ ∧
    (∀ image ∈ (exampleReconfiguredTracker.GenerateMarkerImages 200 none).1,
      image.dictionary.markerSize = 4) ∧
    (exampleReconfiguredTracker.Run exampleCameraAfterFrame ⟨9, []⟩).markerDictionary
      = ⟨24, 5, 1⟩ := by
  refine ⟨rfl, rfl, ?_, ?_, ?_, ?_⟩
  · simp [MarkerDetection.GenerateMarkerImages, renderMarkers_length,
      exampleReconfiguredTracker, MarkerDetection.UpdateDetectorParameters,
      exampleFiveBitParameters]
  · simp [MarkerDetection.GenerateMarkerImages, renderMarkers,
      exampleReconfiguredTracker, MarkerDetection.UpdateDetectorParameters,
      exampleFiveBitParameters, exampleMarkerDetection, MarkerDetection.new,
      generateCustomDictionary]
  · simp [MarkerDetection.GenerateMarkerImages, renderMarkers,
      exampleReconfiguredTracker, MarkerDetection.UpdateDetectorParameters,
      exampleFiveBitParameters, exampleMarkerDetection, MarkerDetection.new,
      generateCustomDictionary]
  · have hnew : exampleCameraAfterFrame.GetFrameNumber
        ≠ exampleReconfiguredTracker.lastFrameNumber := by
      rw [exampleCameraAfterFrame_eq.2.1]
      simp [exampleReconfiguredTracker, MarkerDetection.UpdateDetectorParameters,
        exampleMarkerDetection, MarkerDetection.new]
    rw [MarkerDetection.Run_markerDictionary _ _ _ hnew]
    simp [MarkerDetection.applyDetectorParameters, exampleReconfiguredTracker,
      MarkerDetection.UpdateDetectorParameters, exampleFiveBitParameters,
      exampleMarkerDetection, MarkerDetection.new, generateCustomDictionary]

/-! ## Saving a calibration (C15, C16) -/

theorem writeImages_none (images : List Mat) (first : Nat) :
    writeImages none first images
      = (List.enumFrom first images).map (fun entry => FileWrite.image (entry.1 + 1) entry.2) := by
  induction images generalizing first with
  | nil => simp [writeImages]
  | cons image rest ih => simp [writeImages, ih, List.enumFrom]

/-- C15: the value `Calibration::SaveCalibration` returns is `Succeeded` exactly when
neither `try` block raises, `CalibrationError` exactly when only the profile block
raises, `ImagesError` exactly when only the image block raises and `Failed` exactly when
both raise. The files written are the profile, if its block completed on an opened
storage, followed by the images the loop reaches before an `imwrite` raises, whatever the
profile block did: when the profile block raises and no `imwrite` does, the files
written are `image_<i+1>` for every captured image `i`. -/
theorem Calibration.SaveCalibration_result (cal : Calibration) (camera : Camera) (poll : SavePoll) :
    ((cal.SaveCalibration camera poll).saveResult = CalibrationSaveResult.Succeeded ↔
      poll.profileRaises = false ∧ poll.imagesRaise cal.capturedImages.length = false) ∧
    ((cal.SaveCalibration camera poll).saveResult = CalibrationSaveResult.CalibrationError ↔
      poll.profileRaises = true ∧ poll.imagesRaise cal.capturedImages.length = false) ∧
    ((cal.SaveCalibration camera poll).saveResult = CalibrationSaveResult.ImagesError ↔
      poll.profileRaises = false ∧ poll.imagesRaise cal.capturedImages.length = true) ∧
    ((cal.SaveCalibration camera poll).saveResult = CalibrationSaveResult.Failed ↔
      poll.profileRaises = true ∧ poll.imagesRaise cal.capturedImages.length = true) ∧
    (∃ profile, (cal.SaveCalibration camera poll).written
        = profile ++ writeImages poll.imageRaisesAt 0 cal.capturedImages ∧
      (poll.profileRaises = true → profile = [])) ∧
    (poll.profileRaises = true → poll.imageRaisesAt = none →
      (cal.SaveCalibration camera poll).written
        = (List.enumFrom 0 cal.capturedImages).map
            (fun entry => FileWrite.image (entry.1 + 1) entry.2)) := by
  refine ⟨?_, ?_, ?_, ?_, ?_, ?_⟩
  · cases hp : poll.profileRaises <;> cases ho : poll.profileOpened <;>
      cases hi : poll.imagesRaise cal.capturedImages.length <;>
      simp [Calibration.SaveCalibration, hp, ho, hi]
  · cases hp : poll.profileRaises <;> cases ho : poll.profileOpened <;>
      cases hi : poll.imagesRaise cal.capturedImages.length <;>
      simp [Calibration.SaveCalibration, hp, ho, hi]
  · cases hp : poll.profileRaises <;> cases ho : poll.profileOpened <;>
      cases hi : poll.imagesRaise cal.capturedImages.length <;>
      simp [Calibration.SaveCalibration, hp, ho, hi]
  · cases hp : poll.profileRaises <;> cases ho : poll.profileOpened <;>
      cases hi : poll.imagesRaise cal.capturedImages.length <;>
      simp [Calibration.SaveCalibration, hp, ho, hi]
  · exact ⟨_, rfl, fun hp => by simp [hp]⟩
  · intro hp hnone
    simp [Calibration.SaveCalibration, hp, hnone, writeImages_none]

/-- C16: after `Calibration::SaveCalibration`, whatever the two writes did and whatever
value is returned, `GetIsCalibrated` is true, the profile the camera stores as its Saved
profile is the profile of the engine (its matrices and tables, with type `Saved`), and
the flag of the camera that applies the saved profile is on. -/
theorem Calibration.SaveCalibration_installs (cal : Calibration) (camera : Camera)
    (poll : SavePoll) :
    (cal.SaveCalibration camera poll).calibration.GetIsCalibrated = true ∧
    (cal.SaveCalibration camera poll).camera.calibrationData
      = (cal.SaveCalibration camera poll).calibration.calibrationData ∧
    (cal.SaveCalibration camera poll).camera.calibrationData
      = { cal.calibrationData with type := CalibrationType.Saved } ∧
    (cal.SaveCalibration camera poll).camera.calibrationData.type = CalibrationType.Saved ∧
    (cal.SaveCalibration camera poll).camera.isApplyCalibration = true := by
  simp [Calibration.SaveCalibration, Calibration.GetIsCalibrated, Camera.Calibrate,
    Camera.ToggleCalibration]

/-! ## Loading a calibration (C17, C18) -/

theorem Calibration.install_camera (cal : Calibration) (camera : Camera) (imageSize : Size)
    (poll : LoadPoll) :
    (cal.install camera imageSize poll).2.calibrationData
      = (cal.install camera imageSize poll).1.calibrationData ∧
    (cal.install camera imageSize poll).2.calibrationData.type = CalibrationType.Saved ∧
    (cal.install camera imageSize poll).2.isApplyCalibration = true ∧
    (cal.install camera imageSize poll).1.isCalibrated = true ∧
    (cal.install camera imageSize poll).2.calibrationData.distortMap
      = ⟨imageSize.height.toNat, imageSize.width.toNat, poll.distortMapTag⟩ ∧
    (cal.install camera imageSize poll).2.calibrationData.undistortMap
      = ⟨imageSize.height.toNat, imageSize.width.toNat, poll.undistortMapTag⟩ := by
  simp [Calibration.install, Camera.Calibrate, Camera.ToggleCalibration]

/-- C17: the value `Calibration::LoadCalibration` returns is `FileDoesNotExist` exactly
when `calibration.yml` is absent, `FileParseError` exactly when the file is present and
reading it raises, and `Succeeded` exactly when the file is present and reading it does
not raise. When it returns `Succeeded`, the camera stores the profile of the engine as
its Saved profile, the flag that applies it is on and the engine is calibrated, and
when the three entries were read the two tables have the persisted image size and the
matrices are the ones read. When it returns another value, the camera is the one
before the call and `isCalibrated` has the value it had. -/
theorem Calibration.LoadCalibration_result (cal : Calibration) (camera : Camera) (poll : LoadPoll) :
    ((cal.LoadCalibration camera poll).2.2 = CalibrationLoadResult.FileDoesNotExist ↔
      poll.fileExists = false) ∧
    ((cal.LoadCalibration camera poll).2.2 = CalibrationLoadResult.FileParseError ↔
      poll.fileExists = true ∧ poll.read.raises = true) ∧
    ((cal.LoadCalibration camera poll).2.2 = CalibrationLoadResult.Succeeded ↔
      poll.fileExists = true ∧ poll.read.raises = false) ∧
    ((cal.LoadCalibration camera poll).2.2 = CalibrationLoadResult.Succeeded →
      (cal.LoadCalibration camera poll).2.1.calibrationData
        = (cal.LoadCalibration camera poll).1.calibrationData ∧
      (cal.LoadCalibration camera poll).2.1.calibrationData.type = CalibrationType.Saved ∧
      (cal.LoadCalibration camera poll).2.1.isApplyCalibration = true ∧
      (cal.LoadCalibration camera poll).1.GetIsCalibrated = true) ∧
    (∀ imageSize cameraMatrix distortionCoefficients, poll.fileExists = true →
      poll.read = ProfileRead.parsed imageSize cameraMatrix distortionCoefficients →
      (cal.LoadCalibration camera poll).2.1.calibrationData
        = ⟨cameraMatrix, distortionCoefficients,
           ⟨imageSize.height.toNat, imageSize.width.toNat, poll.distortMapTag⟩,
           ⟨imageSize.height.toNat, imageSize.width.toNat, poll.undistortMapTag⟩,
           CalibrationType.Saved⟩) ∧
    ((cal.LoadCalibration camera poll).2.2 ≠ CalibrationLoadResult.Succeeded →
      (cal.LoadCalibration camera poll).2.1 = camera ∧
      (cal.LoadCalibration camera poll).1.GetIsCalibrated = cal.GetIsCalibrated) := by
  cases hf : poll.fileExists <;> cases hr : poll.read <;>
    simp [Calibration.LoadCalibration, hf, hr, ProfileRead.raises, Calibration.install,
      Camera.Calibrate, Camera.ToggleCalibration, Calibration.GetIsCalibrated]

/-- C18 (as amended): whenever `Calibration::LoadCalibration` returns `FileDoesNotExist`
or `FileParseError`, `GetIsCalibrated` afterwards has the value it had before the call;
for the engine as constructed that value is false. -/
theorem Calibration.LoadCalibration_keeps_isCalibrated (cal : Calibration) (camera : Camera)
    (poll : LoadPoll)
    (hfailed : (cal.LoadCalibration camera poll).2.2 = CalibrationLoadResult.FileDoesNotExist ∨
      (cal.LoadCalibration camera poll).2.2 = CalibrationLoadResult.FileParseError) :
    (cal.LoadCalibration camera poll).1.GetIsCalibrated = cal.GetIsCalibrated ∧
    (∀ now, ((Calibration.new camera now).LoadCalibration camera poll).1.GetIsCalibrated
      = false) := by
  have hkeep : ∀ engine : Calibration,
      (engine.LoadCalibration camera poll).2.2 = CalibrationLoadResult.FileDoesNotExist ∨
        (engine.LoadCalibration camera poll).2.2 = CalibrationLoadResult.FileParseError →
      (engine.LoadCalibration camera poll).1.GetIsCalibrated = engine.GetIsCalibrated := by
    intro engine h
    revert h
    cases hf : poll.fileExists <;> cases hr : poll.read <;>
      simp [Calibration.LoadCalibration, hf, hr, Calibration.GetIsCalibrated]
  have hsame : ∀ engine : Calibration,
      (engine.LoadCalibration camera poll).2.2 = (cal.LoadCalibration camera poll).2.2 := by
    intro engine
    cases hf : poll.fileExists <;> cases hr : poll.read <;>
      simp [Calibration.LoadCalibration, hf, hr]
  refine ⟨hkeep cal hfailed, fun now => ?_⟩
  rw [hkeep (Calibration.new camera now) (by rw [hsame]; exact hfailed)]
  rfl

/-- Witness of C18: the fresh engine loading with `calibration.yml` absent. -/
theorem Calibration.LoadCalibration_keeps_isCalibrated_witness :
    (exampleCalibration.LoadCalibration exampleCamera exampleAbsentPoll).2.2
      = CalibrationLoadResult.FileDoesNotExist ∧
    (exampleCalibration.LoadCalibration exampleCamera exampleAbsentPoll).1.GetIsCalibrated
      = false :=
  have hresult : (exampleCalibration.LoadCalibration exampleCamera exampleAbsentPoll).2.2
      = CalibrationLoadResult.FileDoesNotExist := rfl
  ⟨hresult,
    (Calibration.LoadCalibration_keeps_isCalibrated exampleCalibration exampleCamera
      exampleAbsentPoll (Or.inl hresult)).1.trans rfl⟩

/-- Counterexample to C18 as stated: after a `SaveCalibration` on the fresh engine, a
`LoadCalibration` that finds `calibration.yml` absent returns `FileDoesNotExist`, one
that fails to read it returns `FileParseError`, and `GetIsCalibrated` is true after
each. -/
theorem Calibration.LoadCalibration_after_save :
    (exampleSaved.calibration.LoadCalibration exampleSaved.camera exampleAbsentPoll).2.2
      = CalibrationLoadResult.FileDoesNotExist ∧
    (exampleSaved.calibration.LoadCalibration exampleSaved.camera
      exampleAbsentPoll).1.GetIsCalibrated = true ∧
    (exampleSaved.calibration.LoadCalibration exampleSaved.camera exampleUnparsablePoll).2.2
      = CalibrationLoadResult.FileParseError ∧
    (exampleSaved.calibration.LoadCalibration exampleSaved.camera
      exampleUnparsablePoll).1.GetIsCalibrated = true :=
  ⟨rfl, rfl, rfl, rfl⟩

/-! ## Sends that fail (C19) -/

/-- C19 (as amended): on a new frame number a `NetworkCommunication::Run` whose
`writeDatagram` reports failure leaves the publisher in exactly the state a successful
one leaves: `lastFrameNumber` is the new frame number, the one datagram of the frame
was handed to the socket once and nothing else is kept, and the next poll on the same
frame number writes nothing. A send block that raises is swallowed as well: `Run`
returns, having written nothing. -/
theorem NetworkCommunication.failed_send_as_sent {F : Type} (floatBits : F → Nat)
    (nc : NetworkCommunication F) (frameNumber : Nat) (snapshot next : StdMap (MarkerData F))
    (now : Nat) (poll : NetworkPoll) (hnew : frameNumber ≠ nc.lastFrameNumber) :
    (nc.Run floatBits frameNumber snapshot ⟨now, SendOutcome.failed⟩).1
      = (nc.Run floatBits frameNumber snapshot ⟨now, SendOutcome.sent⟩).1 ∧
    (nc.Run floatBits frameNumber snapshot ⟨now, SendOutcome.failed⟩).1.lastFrameNumber
      = frameNumber ∧
    (nc.Run floatBits frameNumber snapshot ⟨now, SendOutcome.failed⟩).2
      = [⟨byteArray floatBits frameNumber snapshot, nc.address, nc.port, false⟩] ∧
    ((nc.Run floatBits frameNumber snapshot ⟨now, SendOutcome.failed⟩).1.Run floatBits
        frameNumber next poll).2 = [] ∧
    ((nc.Run floatBits frameNumber snapshot ⟨now, SendOutcome.failed⟩).1.Run floatBits
        frameNumber next poll).1.lastFrameNumber = frameNumber ∧
    (nc.Run floatBits frameNumber snapshot ⟨now, SendOutcome.raised⟩).2 = [] := by
  have h : ¬ nc.lastFrameNumber = frameNumber := fun e => hnew e.symm
  simp [NetworkCommunication.Run, h]

/-- Witness of C19: the fresh publisher on frame number 1 with a failing write. -/
theorem NetworkCommunication.failed_send_as_sent_witness :
    ((NetworkCommunication.new Nat 1 2 0).Run (fun v => v) 1 exampleSnapshot
        ⟨4, SendOutcome.failed⟩).1.lastFrameNumber = 1 ∧
    (((NetworkCommunication.new Nat 1 2 0).Run (fun v => v) 1 exampleSnapshot
        ⟨4, SendOutcome.failed⟩).1.Run (fun v => v) 1 exampleSnapshot
        ⟨5, SendOutcome.sent⟩).2 = [] :=
  have h := NetworkCommunication.failed_send_as_sent (fun v => v)
    (NetworkCommunication.new Nat 1 2 0) 1 exampleSnapshot exampleSnapshot 4
    ⟨5, SendOutcome.sent⟩ (by simp [NetworkCommunication.new])
  ⟨h.2.1, h.2.2.2.1⟩

/-- Counterexample to C19 as stated: on the fresh publisher and frame number 1, a send
block that raises leaves `lastFrameNumber = 0` where a successful one leaves 1, and the
next poll on the same frame number 1 writes the datagram of the frame again. -/
theorem NetworkCommunication.raised_send_retries :
    ((NetworkCommunication.new Nat 1 2 0).Run (fun v => v) 1 exampleSnapshot
        ⟨4, SendOutcome.raised⟩).1.lastFrameNumber = 0 ∧
    ((NetworkCommunication.new Nat 1 2 0).Run (fun v => v) 1 exampleSnapshot
        ⟨4, SendOutcome.sent⟩).1.lastFrameNumber = 1 ∧
    (((NetworkCommunication.new Nat 1 2 0).Run (fun v => v) 1 exampleSnapshot
        ⟨4, SendOutcome.raised⟩).1.Run (fun v => v) 1 exampleSnapshot
        ⟨5, SendOutcome.failed⟩).2
      = [⟨byteArray (fun v => v) 1 exampleSnapshot, 1, 2, false⟩] := by
  simp [NetworkCommunication.Run, NetworkCommunication.new]

/-! ## Committing a capture (C20) -/

theorem exampleCameraTwoFrames_eq :
    exampleCameraTwoFrames.CopyImageTo = ⟨2048, 3072, Pixels.raster 0⟩ ∧
    exampleCameraTwoFrames.GetFrameNumber = 2 := by
  simp [exampleCameraTwoFrames, Camera.runs, Camera.Run, Camera.Connect, Camera.GetFrame,
    exampleCamera, Camera.new, exampleDevicePoll, Camera.CopyImageTo, Camera.GetFrameNumber,
    Camera.rotatedImage, Camera.calibratedImage]

theorem exampleDetecting_eq :
    exampleDetecting.isCaptureImage = true ∧
    exampleDetecting.lastFrameNumber = 1 ∧
    exampleDetecting.isChessboardDetectedPrevious = true ∧
    exampleDetecting.chessboardDetectionTimer = ⟨1000000000, 0⟩ ∧
    exampleDetecting.capturedImages = [] ∧
    exampleDetecting.isChessboardAcquired = false := by
  simp [exampleDetecting, Calibration.Run, Calibration.capture, Calibration.CaptureImage,
    exampleCalibration, Calibration.new, exampleBoardPoll, exampleCameraAfterFrame_eq.2.1,
    ExecutionTimer.Start]

/-- C20 (as amended): while capture is armed, a `Calibration::Run` on a new frame
commits a capture (the capture set grows by one image) exactly when the chessboard is
detected in this poll, was detected in the previous poll, and the duration the
detection timer reads, in milliseconds since its start at the transition into detected,
is greater than 2000. A commit appends the grey frame of this poll, announces the new
number of images and disarms capture; without a commit the capture set is unchanged,
nothing is announced and capture stays armed (`isChessboardAcquired` being false, as it
is after construction and after every `Run`). -/
theorem Calibration.Run_commits_iff (cal : Calibration) (camera : Camera) (poll : CalibrationPoll)
    (harmed : cal.isCaptureImage = true) (hnew : camera.GetFrameNumber ≠ cal.lastFrameNumber) :
    (cal.commits camera poll ↔
      cal.detectedNow poll = true ∧ cal.isChessboardDetectedPrevious = true ∧
        2000 < cal.heldMilliseconds poll) ∧
    (cal.commits camera poll →
      (cal.Run camera poll).1.capturedImages
        = cal.capturedImages ++
          [⟨camera.CopyImageTo.rows, camera.CopyImageTo.cols,
            Pixels.grayAsBgr camera.CopyImageTo.pixels⟩] ∧
      (cal.Run camera poll).2.head?
        = some (Signal.NumImagesChanged (cal.capturedImages.length + 1)) ∧
      (cal.Run camera poll).1.isCaptureImage = false) ∧
    (¬ cal.commits camera poll →
      (cal.Run camera poll).1.capturedImages = cal.capturedImages ∧
      (cal.Run camera poll).2 = [] ∧
      (cal.isChessboardAcquired = false → (cal.Run camera poll).1.isCaptureImage = true)) := by
  have h : ¬ cal.lastFrameNumber = camera.GetFrameNumber := fun e => hnew e.symm
  unfold Calibration.commits Calibration.detectedNow Calibration.heldMilliseconds
  cases hprev : cal.isChessboardDetectedPrevious <;>
    cases hacquired : cal.isChessboardAcquired <;>
    cases hsb : poll.findChessboardCornersSB.1 <;>
    cases hfast : poll.findChessboardCorners.1 <;>
    by_cases hheld : 2000 < (cal.chessboardDetectionTimer.MeasureElapsedTime
      poll.detectionNow).duration <;>
    simp [Calibration.Run, Calibration.capture, h, harmed, hprev, hacquired, hsb, hfast, hheld]

/-- Witness of C20: the armed engine that detected the chessboard at clock reading 1 s
commits on the next frame when the board is found again at 3.001 s. -/
theorem Calibration.Run_commits_iff_witness :
    exampleDetecting.isCaptureImage = true ∧
    exampleCameraTwoFrames.GetFrameNumber ≠ exampleDetecting.lastFrameNumber ∧
    exampleDetecting.heldMilliseconds (exampleBoardPoll 3001000000) = 2001 ∧
    exampleDetecting.commits exampleCameraTwoFrames (exampleBoardPoll 3001000000) :=
  have hnew : exampleCameraTwoFrames.GetFrameNumber ≠ exampleDetecting.lastFrameNumber := by
    rw [exampleCameraTwoFrames_eq.2, exampleDetecting_eq.2.1]
    decide
  have hheld : exampleDetecting.heldMilliseconds (exampleBoardPoll 3001000000) = 2001 := by
    simp [Calibration.heldMilliseconds, ExecutionTimer.MeasureElapsedTime,
      exampleDetecting_eq.2.2.2.1, exampleBoardPoll]
  ⟨exampleDetecting_eq.1, hnew, hheld,
    (Calibration.Run_commits_iff exampleDetecting exampleCameraTwoFrames
      (exampleBoardPoll 3001000000) exampleDetecting_eq.1 hnew).1.mpr
      ⟨by simp [Calibration.detectedNow, exampleBoardPoll, exampleDetecting_eq.2.2.1],
        exampleDetecting_eq.2.2.1, by rw [hheld]; decide⟩⟩

/-- Counterexample to C20 as stated: the armed engine detected the chessboard at clock
reading 1 s (the transition into detected) and finds it again on the next frame at
3 s, exactly 2000 ms later: the timer reads 2000, the test `duration > 2000` fails, and
the `Run` commits nothing, announces nothing and leaves capture armed. -/
theorem Calibration.held_exactly_2000 :
    exampleDetecting.isCaptureImage = true ∧
    exampleDetecting.isChessboardDetectedPrevious = true ∧
    exampleDetecting.chessboardDetectionTimer.startTime = 1000000000 ∧
    exampleDetecting.detectedNow (exampleBoardPoll 3000000000) = true ∧
    exampleDetecting.heldMilliseconds (exampleBoardPoll 3000000000) = 2000 ∧
    (exampleDetecting.Run exampleCameraTwoFrames (exampleBoardPoll 3000000000)).1.capturedImages
      = [] ∧
    (exampleDetecting.Run exampleCameraTwoFrames (exampleBoardPoll 3000000000)).2 = [] ∧
    (exampleDetecting.Run exampleCameraTwoFrames
      (exampleBoardPoll 3000000000)).1.isCaptureImage = true := by
  obtain ⟨harmed, hlast, hprev, htimer, himages, hacquired⟩ := exampleDetecting_eq
  have hframe : ¬ exampleDetecting.lastFrameNumber = exampleCameraTwoFrames.GetFrameNumber := by
    rw [exampleCameraTwoFrames_eq.2, hlast]
    decide
  refine ⟨harmed, hprev, by rw [htimer], ?_, ?_, ?_, ?_, ?_⟩
  · simp [Calibration.detectedNow, exampleBoardPoll, hprev]
  · simp [Calibration.heldMilliseconds, ExecutionTimer.MeasureElapsedTime, htimer,
      exampleBoardPoll]
  · simp [Calibration.Run, Calibration.capture, hframe, harmed, hprev, htimer, himages,
      hacquired, exampleBoardPoll, ExecutionTimer.MeasureElapsedTime]
  · simp [Calibration.Run, Calibration.capture, hframe, harmed, hprev, htimer, himages,
      hacquired, exampleBoardPoll, ExecutionTimer.MeasureElapsedTime]
  · simp [Calibration.Run, Calibration.capture, hframe, harmed, hprev, htimer, himages,
      hacquired, exampleBoardPoll, ExecutionTimer.MeasureElapsedTime]

/-! ## Effects of a commit (C21) -/

/-- C21: a `Calibration::Run` commits (the capture set grows by one image) exactly when
it sees a new frame with capture armed, the chessboard detected in this poll and in the
previous one, and the detection timer reading more than 2000 ms. A commit appends
exactly one corner set (the corners of this poll's search) and one image (the grey frame
of this poll), and the notifications of the call are one `NumImagesChanged` carrying the
new number of images, followed by `MinimumImagesCaptured` exactly when that number is at
least 12. A call that does not commit raises no notification and leaves the captured
corners and images unchanged. -/
theorem Calibration.Run_commit_effects (cal : Calibration) (camera : Camera)
    (poll : CalibrationPoll) :
    (cal.commits camera poll ↔
      camera.GetFrameNumber ≠ cal.lastFrameNumber ∧ cal.isCaptureImage = true ∧
        cal.detectedNow poll = true ∧ cal.isChessboardDetectedPrevious = true ∧
        2000 < cal.heldMilliseconds poll) ∧
    (cal.commits camera poll →
      (cal.Run camera poll).1.capturedCorners
        = cal.capturedCorners ++ [poll.findChessboardCornersSB.2] ∧
      (cal.Run camera poll).1.capturedImages
        = cal.capturedImages ++
          [⟨camera.CopyImageTo.rows, camera.CopyImageTo.cols,
            Pixels.grayAsBgr camera.CopyImageTo.pixels⟩] ∧
      (cal.Run camera poll).2
        = Signal.NumImagesChanged (cal.capturedImages.length + 1) ::
          (if 12 ≤ cal.capturedImages.length + 1 then [Signal.MinimumImagesCaptured] else [])) ∧
    (¬ cal.commits camera poll →
      (cal.Run camera poll).2 = [] ∧
      (cal.Run camera poll).1.capturedCorners = cal.capturedCorners ∧
      (cal.Run camera poll).1.capturedImages = cal.capturedImages) := by
  unfold Calibration.commits Calibration.detectedNow Calibration.heldMilliseconds
  by_cases hframe : cal.lastFrameNumber = camera.GetFrameNumber
  · simp [Calibration.Run, hframe]
  · have hframe2 : ¬ camera.GetFrameNumber = cal.lastFrameNumber := fun e => hframe e.symm
    cases harmed : cal.isCaptureImage <;>
      cases hprev : cal.isChessboardDetectedPrevious <;>
      cases hacquired : cal.isChessboardAcquired <;>
      cases hsb : poll.findChessboardCornersSB.1 <;>
      cases hfast : poll.findChessboardCorners.1 <;>
      by_cases hheld : 2000 < (cal.chessboardDetectionTimer.MeasureElapsedTime
        poll.detectionNow).duration <;>
      simp [Calibration.Run, Calibration.capture, hframe, hframe2, harmed, hprev, hacquired,
        hsb, hfast, hheld]

/-! ## After a commit (C24) -/

theorem Calibration.Run_unarmed (cal : Calibration) (camera : Camera) (poll : CalibrationPoll)
    (hunarmed : cal.isCaptureImage = false) (hidle : cal.isChessboardAcquired = false) :
    (cal.Run camera poll).1.capturedImages = cal.capturedImages ∧
    (cal.Run camera poll).1.capturedCorners = cal.capturedCorners ∧
    (cal.Run camera poll).1.isCaptureImage = false ∧
    (cal.Run camera poll).1.isChessboardAcquired = false ∧
    (cal.Run camera poll).2 = [] := by
  by_cases hframe : cal.lastFrameNumber = camera.GetFrameNumber
  · simp [Calibration.Run, hframe, hunarmed, hidle]
  · simp [Calibration.Run, hframe, hunarmed, hidle]

theorem Calibration.runs_unarmed (cal : Calibration) (later : List (Camera × CalibrationPoll))
    (hunarmed : cal.isCaptureImage = false) (hidle : cal.isChessboardAcquired = false) :
    (cal.runs later).capturedImages = cal.capturedImages ∧
    (cal.runs later).capturedCorners = cal.capturedCorners ∧
    (cal.runs later).isCaptureImage = false ∧
    (cal.runs later).isChessboardAcquired = false := by
  induction later generalizing cal with
  | nil => exact ⟨rfl, rfl, hunarmed, hidle⟩
  | cons step rest ih =>
    obtain ⟨h1, h2, h3, h4, _⟩ := Calibration.Run_unarmed cal step.1 step.2 hunarmed hidle
    obtain ⟨k1, k2, k3, k4⟩ := ih (cal.Run step.1 step.2).1 h3 h4
    exact ⟨k1.trans h1, k2.trans h2, k3, k4⟩

theorem Calibration.Run_commit_flags (cal : Calibration) (camera : Camera)
    (poll : CalibrationPoll) (hcommit : cal.commits camera poll) :
    (cal.Run camera poll).1.isCaptureImage = false ∧
    (cal.Run camera poll).1.isChessboardDetectedCurrent = false ∧
    (cal.Run camera poll).1.isChessboardDetectedPrevious = false ∧
    (cal.Run camera poll).1.isChessboardAcquired = false := by
  revert hcommit
  unfold Calibration.commits
  by_cases hframe : cal.lastFrameNumber = camera.GetFrameNumber
  · simp [Calibration.Run, hframe]
  · cases harmed : cal.isCaptureImage <;>
      cases hprev : cal.isChessboardDetectedPrevious <;>
      cases hacquired : cal.isChessboardAcquired <;>
      cases hsb : poll.findChessboardCornersSB.1 <;>
      cases hfast : poll.findChessboardCorners.1 <;>
      by_cases hheld : 2000 < (cal.chessboardDetectionTimer.MeasureElapsedTime
        poll.detectionNow).duration <;>
      simp [Calibration.Run, Calibration.capture, hframe, harmed, hprev, hacquired,
        hsb, hfast, hheld]

/-- C24: after a `Calibration::Run` that commits, `isCaptureImage`,
`isChessboardDetectedCurrent`, `isChessboardDetectedPrevious` and `isChessboardAcquired`
are all false. Every later sequence of `Run` calls, with no `CaptureImage` in between,
leaves the captured corners and images as the commit left them and capture disarmed, and
no `Run` after such a sequence commits: one arming gives at most one commit.
`CaptureImage` changes only `isCaptureImage`, which it sets; the captured corners and
images stay as they are. -/
theorem Calibration.commit_disarms (cal : Calibration) (camera : Camera) (poll : CalibrationPoll)
    (later : List (Camera × CalibrationPoll)) (hcommit : cal.commits camera poll) :
    ((cal.Run camera poll).1.isCaptureImage = false ∧
      (cal.Run camera poll).1.isChessboardDetectedCurrent = false ∧
      (cal.Run camera poll).1.isChessboardDetectedPrevious = false ∧
      (cal.Run camera poll).1.isChessboardAcquired = false) ∧
    (((cal.Run camera poll).1.runs later).capturedImages = (cal.Run camera poll).1.capturedImages ∧
      ((cal.Run camera poll).1.runs later).capturedCorners
        = (cal.Run camera poll).1.capturedCorners ∧
      ((cal.Run camera poll).1.runs later).isCaptureImage = false) ∧
    (∀ nextCamera nextPoll, ¬ ((cal.Run camera poll).1.runs later).commits nextCamera nextPoll) ∧
    (∀ engine : Calibration, engine.CaptureImage = { engine with isCaptureImage := true } ∧
      engine.CaptureImage.isCaptureImage = true ∧
      engine.CaptureImage.capturedCorners = engine.capturedCorners ∧
      engine.CaptureImage.capturedImages = engine.capturedImages) := by
  have hflags := Calibration.Run_commit_flags cal camera poll hcommit
  obtain ⟨h1, h2, h3, h4⟩ :=
    Calibration.runs_unarmed (cal.Run camera poll).1 later hflags.1 hflags.2.2.2
  refine ⟨hflags, ⟨h1, h2, h3⟩, ?_, fun engine => ⟨rfl, rfl, rfl, rfl⟩⟩
  intro nextCamera nextPoll hnext
  have hkeep := (Calibration.Run_unarmed _ nextCamera nextPoll h3 h4).1
  unfold Calibration.commits at hnext
  rw [hkeep] at hnext
  omega

theorem exampleDetecting_commits :
    exampleDetecting.commits exampleCameraTwoFrames (exampleBoardPoll 3001000000) := by
  obtain ⟨harmed, hlast, hprev, htimer, himages, hacquired⟩ := exampleDetecting_eq
  have hframe : ¬ exampleDetecting.lastFrameNumber = exampleCameraTwoFrames.GetFrameNumber := by
    rw [exampleCameraTwoFrames_eq.2, hlast]
    decide
  simp [Calibration.commits, Calibration.Run, Calibration.capture, hframe, harmed, hprev, htimer,
    himages, hacquired, exampleBoardPoll, ExecutionTimer.MeasureElapsedTime]

/-- Witness of C24: the armed engine that commits at clock reading 3.001 s is disarmed
afterwards, and two later polls that find the chessboard (3.5 s and 6 s) add nothing. -/
theorem Calibration.commit_disarms_witness :
    exampleDetecting.commits exampleCameraTwoFrames (exampleBoardPoll 3001000000) ∧
    (exampleDetecting.Run exampleCameraTwoFrames (exampleBoardPoll 3001000000)).1.isCaptureImage
      = false ∧
    ((exampleDetecting.Run exampleCameraTwoFrames (exampleBoardPoll 3001000000)).1.runs
        [(exampleCameraAfterFrame, exampleBoardPoll 3500000000),
         (exampleCameraTwoFrames, exampleBoardPoll 6000000000)]).capturedImages
      = (exampleDetecting.Run exampleCameraTwoFrames
          (exampleBoardPoll 3001000000)).1.capturedImages :=
  have h := Calibration.commit_disarms exampleDetecting exampleCameraTwoFrames
    (exampleBoardPoll 3001000000)
    [(exampleCameraAfterFrame, exampleBoardPoll 3500000000),
     (exampleCameraTwoFrames, exampleBoardPoll 6000000000)] exampleDetecting_commits
  ⟨exampleDetecting_commits, h.1.1, h.2.1.1⟩

/-! ## Coordinates of the solve (C22) -/

theorem chessboardCoordinates_length (M N : Nat) (squareSize : ℝ) :
    (chessboardCoordinates ⟨(M : Int), (N : Int)⟩ squareSize).length = M * N := by
  simp only [chessboardCoordinates, Int.toNat_ofNat]
  induction N with
  | zero => simp
  | succ n ih =>
    rw [List.range_succ, List.map_append, List.flatten_append, List.length_append, ih]
    simp [Nat.mul_succ]

theorem chessboardCoordinates_getElem (M N : Nat) (squareSize : ℝ) (x y : Nat)
    (hx : x < M) (hy : y < N) :
    (chessboardCoordinates ⟨(M : Int), (N : Int)⟩ squareSize)[y * M + x]?
      = some (squareSize * (x : ℝ), squareSize * (y : ℝ), 0) := by
  have hlen := fun n => chessboardCoordinates_length M n squareSize
  simp only [chessboardCoordinates, Int.toNat_ofNat] at hlen ⊢
  induction N with
  | zero => omega
  | succ n ih =>
    rw [List.range_succ, List.map_append, List.flatten_append]
    by_cases hyn : y < n
    · have hlt : y * M + x < M * n := by
        calc y * M + x < y * M + M := by omega
          _ = (y + 1) * M := by ring
          _ ≤ n * M := Nat.mul_le_mul_right M hyn
          _ = M * n := Nat.mul_comm n M
      rw [List.getElem?_append_left (by rw [hlen n]; exact hlt)]
      exact ih hyn
    · have hyeq : y = n := by omega
      subst hyeq
      rw [List.getElem?_append_right (by rw [hlen y]; rw [Nat.mul_comm]; omega), hlen y]
      have hidx : y * M + x - M * y = x := by rw [Nat.mul_comm]; omega
      rw [hidx]
      simp [List.getElem?_range hx]

/-- C22: for a chessboard of `M` by `N` intersections, square size `s` and `k` captured
images, `Calibration::CalibrateCamera` leaves in `capturedCoordinates` exactly `k`
entries; each is a list of `M * N` points whose element at index `y * M + x`, for
`x < M` and `y < N`, is `(s * x, s * y, 0)`; all entries are equal; and the captured
corners and images are the ones before the call. -/
theorem Calibration.CalibrateCamera_coordinates (cal : Calibration) (camera : Camera)
    (poll : SolvePoll) (M N : Nat)
    (hsize : cal.chessboardIntersections = ⟨(M : Int), (N : Int)⟩) :
    (cal.CalibrateCamera camera poll).1.capturedCoordinates.length = cal.capturedImages.length ∧
    (∀ entry ∈ (cal.CalibrateCamera camera poll).1.capturedCoordinates,
      entry.length = M * N ∧
      ∀ x y, x < M → y < N →
        entry[y * M + x]? = some (cal.squareSize * (x : ℝ), cal.squareSize * (y : ℝ), 0)) ∧
    (∀ first ∈ (cal.CalibrateCamera camera poll).1.capturedCoordinates,
      ∀ second ∈ (cal.CalibrateCamera camera poll).1.capturedCoordinates, first = second) ∧
    (cal.CalibrateCamera camera poll).1.capturedCorners = cal.capturedCorners ∧
    (cal.CalibrateCamera camera poll).1.capturedImages = cal.capturedImages := by
  have hmem : ∀ entry ∈ (cal.CalibrateCamera camera poll).1.capturedCoordinates,
      entry = chessboardCoordinates ⟨(M : Int), (N : Int)⟩ cal.squareSize := by
    intro entry hentry
    simp only [Calibration.CalibrateCamera, List.mem_map, hsize] at hentry
    obtain ⟨_, _, h⟩ := hentry
    exact h.symm
  refine ⟨by simp [Calibration.CalibrateCamera], ?_, ?_, rfl, rfl⟩
  · intro entry hentry
    rw [hmem entry hentry]
    exact ⟨chessboardCoordinates_length M N _,
      fun x y hx hy => chessboardCoordinates_getElem M N _ x y hx hy⟩
  · intro first hfirst second hsecond
    rw [hmem first hfirst, hmem second hsecond]

/-- Witness of C22: the engine with the chessboard of 24 by 17 intersections set at
construction, square size 1 and two captured images. -/
theorem Calibration.CalibrateCamera_coordinates_witness :
    exampleCalibrationTwoImages.chessboardIntersections = ⟨((24 : Nat) : Int), ((17 : Nat) : Int)⟩ ∧
    (exampleCalibrationTwoImages.CalibrateCamera exampleCamera
      exampleSolvePoll).1.capturedCoordinates.length = 2 ∧
    ∀ entry ∈ (exampleCalibrationTwoImages.CalibrateCamera exampleCamera
        exampleSolvePoll).1.capturedCoordinates,
      entry.length = 24 * 17 ∧
      entry[3 * 24 + 5]?
        = some (exampleCalibrationTwoImages.squareSize * ((5 : Nat) : ℝ),
            exampleCalibrationTwoImages.squareSize * ((3 : Nat) : ℝ), 0) :=
  have h := Calibration.CalibrateCamera_coordinates exampleCalibrationTwoImages exampleCamera
    exampleSolvePoll 24 17 rfl
  ⟨rfl, h.1.trans rfl, fun entry hentry =>
    ⟨(h.2.1 entry hentry).1, (h.2.1 entry hentry).2 5 3 (by decide) (by decide)⟩⟩

/-! ## Captured corners and images (C30) -/

theorem Calibration.Run_captured_lengths (cal : Calibration) (camera : Camera)
    (poll : CalibrationPoll)
    (hbalanced : cal.capturedCorners.length = cal.capturedImages.length) :
    (cal.Run camera poll).1.capturedCorners.length
      = (cal.Run camera poll).1.capturedImages.length := by
  by_cases hframe : cal.lastFrameNumber = camera.GetFrameNumber
  · simp [Calibration.Run, hframe, hbalanced]
  · cases harmed : cal.isCaptureImage <;>
      cases hprev : cal.isChessboardDetectedPrevious <;>
      cases hacquired : cal.isChessboardAcquired <;>
      cases hsb : poll.findChessboardCornersSB.1 <;>
      cases hfast : poll.findChessboardCorners.1 <;>
      by_cases hheld : 2000 < (cal.chessboardDetectionTimer.MeasureElapsedTime
        poll.detectionNow).duration <;>
      simp [Calibration.Run, Calibration.capture, hframe, harmed, hprev, hacquired,
        hsb, hfast, hheld, hbalanced]

theorem Calibration.LoadCalibration_captured (cal : Calibration) (camera : Camera)
    (poll : LoadPoll) :
    (cal.LoadCalibration camera poll).1.capturedCorners = cal.capturedCorners ∧
    (cal.LoadCalibration camera poll).1.capturedImages = cal.capturedImages := by
  cases hf : poll.fileExists <;> cases hr : poll.read <;>
    simp [Calibration.LoadCalibration, hf, hr, Calibration.install]

theorem Calibration.Reachable_captured_lengths (cal : Calibration) (hreach : cal.Reachable) :
    cal.capturedCorners.length = cal.capturedImages.length := by
  induction hreach with
  | new camera now => rfl
  | Pause _ now ih => exact ih
  | Run _ camera poll ih => exact Calibration.Run_captured_lengths _ camera poll ih
  | UpdateCalibrationParameters _ chessboardIntersections squareSize ih => exact ih
  | LoadCalibration _ camera poll ih =>
    rw [(Calibration.LoadCalibration_captured _ camera poll).1,
      (Calibration.LoadCalibration_captured _ camera poll).2]
    exact ih
  | SaveCalibration _ camera poll ih => exact ih
  | CaptureImage _ ih => exact ih
  | CalibrateCamera _ camera poll ih => exact ih
  | ClearImages _ => rfl

/-- C30: in every state of `Calibration` reached from the constructor by its public
member functions, `capturedCorners` and `capturedImages` have the same length. The
equality holds for the constructed engine (both empty), and `Run`, `CaptureImage`,
`ClearImages`, `CalibrateCamera`, `SaveCalibration` and `LoadCalibration` each lead from
a state where it holds to one where it holds. `ClearImages` leaves both empty, and right
after `CalibrateCamera` the length of `capturedCoordinates` is that same length. -/
theorem Calibration.captured_lengths (cal : Calibration) (camera : Camera)
    (runPoll : CalibrationPoll) (loadPoll : LoadPoll) (savePoll : SavePoll)
    (solvePoll : SolvePoll) (hreach : cal.Reachable) :
    cal.capturedCorners.length = cal.capturedImages.length ∧
    (∀ now, (Calibration.new camera now).capturedCorners.length = 0 ∧
      (Calibration.new camera now).capturedImages.length = 0) ∧
    (∀ engine : Calibration, engine.capturedCorners.length = engine.capturedImages.length →
      (engine.Run camera runPoll).1.capturedCorners.length
        = (engine.Run camera runPoll).1.capturedImages.length ∧
      engine.CaptureImage.capturedCorners.length = engine.CaptureImage.capturedImages.length ∧
      engine.ClearImages.1.capturedCorners.length = engine.ClearImages.1.capturedImages.length ∧
      (engine.CalibrateCamera camera solvePoll).1.capturedCorners.length
        = (engine.CalibrateCamera camera solvePoll).1.capturedImages.length ∧
      (engine.SaveCalibration camera savePoll).calibration.capturedCorners.length
        = (engine.SaveCalibration camera savePoll).calibration.capturedImages.length ∧
      (engine.LoadCalibration camera loadPoll).1.capturedCorners.length
        = (engine.LoadCalibration camera loadPoll).1.capturedImages.length) ∧
    (cal.ClearImages.1.capturedCorners.length = 0 ∧ cal.ClearImages.1.capturedImages.length = 0) ∧
    ((cal.CalibrateCamera camera solvePoll).1.capturedCoordinates.length
        = (cal.CalibrateCamera camera solvePoll).1.capturedImages.length ∧
      (cal.CalibrateCamera camera solvePoll).1.capturedCoordinates.length
        = (cal.CalibrateCamera camera solvePoll).1.capturedCorners.length) := by
  have hbalanced := Calibration.Reachable_captured_lengths cal hreach
  refine ⟨hbalanced, fun now => ⟨rfl, rfl⟩, ?_, ⟨rfl, rfl⟩, ?_⟩
  · intro engine hengine
    refine ⟨Calibration.Run_captured_lengths engine camera runPoll hengine, hengine, rfl,
      hengine, hengine, ?_⟩
    rw [(Calibration.LoadCalibration_captured engine camera loadPoll).1,
      (Calibration.LoadCalibration_captured engine camera loadPoll).2]
    exact hengine
  · have hlen : (cal.CalibrateCamera camera solvePoll).1.capturedCoordinates.length
        = cal.capturedImages.length := by
      simp [Calibration.CalibrateCamera]
    exact ⟨hlen, hlen.trans hbalanced.symm⟩

/-- Witness of C30: the state after arming, a detection and a commit has one corner set
and one image, and a solve from it builds one coordinate list. -/
theorem Calibration.captured_lengths_witness :
    (exampleDetecting.Run exampleCameraTwoFrames (exampleBoardPoll 3001000000)).1.Reachable ∧
    (exampleDetecting.Run exampleCameraTwoFrames
      (exampleBoardPoll 3001000000)).1.capturedCorners.length
      = (exampleDetecting.Run exampleCameraTwoFrames
          (exampleBoardPoll 3001000000)).1.capturedImages.length ∧
    (exampleDetecting.Run exampleCameraTwoFrames
      (exampleBoardPoll 3001000000)).1.capturedImages.length = 1 :=
  have hreach : (exampleDetecting.Run exampleCameraTwoFrames
      (exampleBoardPoll 3001000000)).1.Reachable :=
    Calibration.Reachable.Run
      (Calibration.Reachable.Run
        (Calibration.Reachable.CaptureImage (Calibration.Reachable.new exampleCamera 0))
        exampleCameraAfterFrame (exampleBoardPoll 1000000000))
      exampleCameraTwoFrames (exampleBoardPoll 3001000000)
  ⟨hreach,
    (Calibration.captured_lengths _ exampleCamera (exampleBoardPoll 0) exampleAbsentPoll
      ⟨true, false, none⟩ exampleSolvePoll hreach).1,
    by
      have h := exampleDetecting_commits
      rw [Calibration.commits, exampleDetecting_eq.2.2.2.2.1] at h
      exact h⟩

/-! ## The smoothed rate (C26) -/

theorem FrameRateTimer.Update_frameRate (t : FrameRateTimer) (now : Nat) (f : ℝ)
    (hfinite : t.frameRate = Rate.finite f) (helapsed : 0 < (now - t.startTime) / 1000000) :
    (t.Update now).frameRate
      = Rate.finite
          (0.9 * f + 0.1 * (1000 / (((now - t.startTime) / 1000000 : Nat) : ℝ))) := by
  have hne : ¬ (now - t.startTime) / 1000000 = 0 := by omega
  simp only [FrameRateTimer.Update, FrameRateTimer.MeasureElapsedTime, hfinite, hne, if_false]
  congr 1
  ring

theorem FrameRateTimer.Update_startTime (t : FrameRateTimer) (now : Nat) :
    (t.Update now).startTime = now := rfl

theorem FrameRateTimer.Update_infinite (t : FrameRateTimer) (now : Nat)
    (hinfinite : t.frameRate = Rate.infinite) : (t.Update now).frameRate = Rate.infinite := by
  simp only [FrameRateTimer.Update, FrameRateTimer.MeasureElapsedTime, hinfinite]

theorem FrameRateTimer.ticks_infinite (t : FrameRateTimer) (period count : Nat)
    (hinfinite : t.frameRate = Rate.infinite) :
    (t.ticks period count).frameRate = Rate.infinite := by
  induction count with
  | zero => exact hinfinite
  | succ n ih => exact FrameRateTimer.Update_infinite _ _ ih

theorem FrameRateTimer.ticks_frameRate (t : FrameRateTimer) (period count : Nat) (f : ℝ)
    (hfinite : t.frameRate = Rate.finite f) (hperiod : 0 < period / 1000000) :
    (t.ticks period count).frameRate
      = Rate.finite (1000 / ((period / 1000000 : Nat) : ℝ)
        + 0.9 ^ count * (f - 1000 / ((period / 1000000 : Nat) : ℝ))) := by
  induction count with
  | zero => simp [FrameRateTimer.ticks, hfinite]
  | succ n ih =>
    rw [FrameRateTimer.ticks,
      FrameRateTimer.Update_frameRate _ _ _ ih (by rw [Nat.add_sub_cancel_left]; exact hperiod),
      Nat.add_sub_cancel_left]
    congr 1
    ring

/-- C26 (as amended): for a previous finite rate `f >= 0` and a measured duration of
`d >= 1` whole milliseconds since the last measurement, `FrameRateTimer::Update` sets
the rate to `0.9 * f + 0.1 * (1000 / d)`, which is non-negative and lies between `f` and
`1000 / d`. After `n` updates, each `d` milliseconds after the one before, the rate is
`1000 / d + 0.9 ^ n * (f - 1000 / d)`: this sequence tends to `1000 / d`, it is
non-decreasing when `f <= 1000 / d` and non-increasing when `f >= 1000 / d`, and its
distance to `1000 / d` never grows. -/
theorem FrameRateTimer.Update_smooths (t : FrameRateTimer) (now : Nat) (f : ℝ)
    (hfinite : t.frameRate = Rate.finite f)
    (hrate : 0 ≤ f) (helapsed : 0 < (now - t.startTime) / 1000000) :
    (t.Update now).frameRate
      = Rate.finite
          (0.9 * f + 0.1 * (1000 / (((now - t.startTime) / 1000000 : Nat) : ℝ))) ∧
    0 ≤ 0.9 * f + 0.1 * (1000 / (((now - t.startTime) / 1000000 : Nat) : ℝ)) ∧
    min f (1000 / (((now - t.startTime) / 1000000 : Nat) : ℝ))
      ≤ 0.9 * f + 0.1 * (1000 / (((now - t.startTime) / 1000000 : Nat) : ℝ)) ∧
    0.9 * f + 0.1 * (1000 / (((now - t.startTime) / 1000000 : Nat) : ℝ))
      ≤ max f (1000 / (((now - t.startTime) / 1000000 : Nat) : ℝ)) ∧
    (∀ count, (t.ticks (now - t.startTime) count).frameRate
      = Rate.finite (1000 / (((now - t.startTime) / 1000000 : Nat) : ℝ)
        + 0.9 ^ count * (f - 1000 / (((now - t.startTime) / 1000000 : Nat) : ℝ)))) ∧
    Filter.Tendsto
      (fun count : Nat => 1000 / (((now - t.startTime) / 1000000 : Nat) : ℝ)
        + 0.9 ^ count * (f - 1000 / (((now - t.startTime) / 1000000 : Nat) : ℝ)))
      Filter.atTop (nhds (1000 / (((now - t.startTime) / 1000000 : Nat) : ℝ))) ∧
    (f ≤ 1000 / (((now - t.startTime) / 1000000 : Nat) : ℝ) →
      Monotone (fun count : Nat => 1000 / (((now - t.startTime) / 1000000 : Nat) : ℝ)
        + 0.9 ^ count * (f - 1000 / (((now - t.startTime) / 1000000 : Nat) : ℝ)))) ∧
    (1000 / (((now - t.startTime) / 1000000 : Nat) : ℝ) ≤ f →
      Antitone (fun count : Nat => 1000 / (((now - t.startTime) / 1000000 : Nat) : ℝ)
        + 0.9 ^ count * (f - 1000 / (((now - t.startTime) / 1000000 : Nat) : ℝ)))) ∧
    (∀ count : Nat,
      |1000 / (((now - t.startTime) / 1000000 : Nat) : ℝ)
          + 0.9 ^ (count + 1) * (f - 1000 / (((now - t.startTime) / 1000000 : Nat) : ℝ))
          - 1000 / (((now - t.startTime) / 1000000 : Nat) : ℝ)|
        ≤ |1000 / (((now - t.startTime) / 1000000 : Nat) : ℝ)
          + 0.9 ^ count * (f - 1000 / (((now - t.startTime) / 1000000 : Nat) : ℝ))
          - 1000 / (((now - t.startTime) / 1000000 : Nat) : ℝ)|) := by
  have hd : (0 : ℝ) < (((now - t.startTime) / 1000000 : Nat) : ℝ) := by exact_mod_cast helapsed
  have hupdate := FrameRateTimer.Update_frameRate t now f hfinite helapsed
  have hticks := fun count =>
    FrameRateTimer.ticks_frameRate t (now - t.startTime) count f hfinite helapsed
  have hrpos : 0 ≤ 1000 / (((now - t.startTime) / 1000000 : Nat) : ℝ) := by positivity
  generalize 1000 / (((now - t.startTime) / 1000000 : Nat) : ℝ) = r at hupdate hticks hrpos ⊢
  have hpow : ∀ count : Nat, (0 : ℝ) ≤ 0.9 ^ count := fun count => by positivity
  refine ⟨hupdate, ?_, ?_, ?_, hticks, ?_, ?_, ?_, ?_⟩
  · nlinarith
  · rcases le_total f r with h | h
    · rw [min_eq_left h]
      linarith
    · rw [min_eq_right h]
      linarith
  · rcases le_total f r with h | h
    · rw [max_eq_right h]
      linarith
    · rw [max_eq_left h]
      linarith
  · have hzero : Filter.Tendsto (fun count : Nat => (0.9 : ℝ) ^ count) Filter.atTop (nhds 0) :=
      tendsto_pow_atTop_nhds_zero_of_lt_one (by norm_num) (by norm_num)
    have hlim := (hzero.mul_const (f - r)).const_add r
    simp only [zero_mul, add_zero] at hlim
    exact hlim
  · intro h
    apply monotone_nat_of_le_succ
    intro count
    show r + 0.9 ^ count * (f - r) ≤ r + 0.9 ^ (count + 1) * (f - r)
    rw [pow_succ]
    nlinarith [hpow count, mul_nonneg (hpow count) (sub_nonneg.mpr h)]
  · intro h
    apply antitone_nat_of_succ_le
    intro count
    show r + 0.9 ^ (count + 1) * (f - r) ≤ r + 0.9 ^ count * (f - r)
    rw [pow_succ]
    nlinarith [hpow count, mul_nonneg (hpow count) (sub_nonneg.mpr h)]
  · intro count
    rw [pow_succ]
    have h1 : r + 0.9 ^ count * 0.9 * (f - r) - r = 0.9 * (0.9 ^ count * (f - r)) := by ring
    have h2 : r + 0.9 ^ count * (f - r) - r = 0.9 ^ count * (f - r) := by ring
    rw [h1, h2, abs_mul]
    have h9 : |(0.9 : ℝ)| = 0.9 := abs_of_pos (by norm_num)
    rw [h9]
    nlinarith [abs_nonneg (0.9 ^ count * (f - r))]

/-- Witness of C26: a timer constructed at clock reading 0 (rate 0) and updated every
20 ms: the first update gives rate 5, the second 9.5, towards 1000 / 20 = 50. -/
theorem FrameRateTimer.Update_smooths_witness :
    ((FrameRateTimer.new 0).Update 20000000).frameRate = Rate.finite 5 ∧
    ((FrameRateTimer.new 0).ticks 20000000 2).frameRate = Rate.finite 9.5 ∧
    Filter.Tendsto (fun count : Nat => (50 : ℝ) + 0.9 ^ count * (0 - 50)) Filter.atTop
      (nhds 50) :=
  have h := FrameRateTimer.Update_smooths (FrameRateTimer.new 0) 20000000 0 rfl (le_refl 0)
    (by simp [FrameRateTimer.new])
  have hd : (((20000000 - (FrameRateTimer.new 0).startTime) / 1000000 : Nat) : ℝ) = 20 := by
    simp [FrameRateTimer.new]
  have hp : 20000000 - (FrameRateTimer.new 0).startTime = 20000000 := by
    simp [FrameRateTimer.new]
  have h50 : (1000 : ℝ) / 20 = 50 := by norm_num
  ⟨by rw [h.1, hd]; norm_num,
   by
    have h2 := h.2.2.2.2.1 2
    rw [hd, hp] at h2
    rw [h2]
    norm_num,
   by
    have h3 := h.2.2.2.2.2.1
    rw [hd, h50] at h3
    exact h3⟩

/-- Counterexample to C26 as stated: a timer with rate 5 is updated 999999 ns after its
last measurement, an elapsed time above 0 and below one millisecond. The measured
duration is 0 whole milliseconds and the rate becomes infinite, not
`0.9 * 5 + 0.1 * (1000 / 0.999999)`; every later update, 20 ms apart, leaves it
infinite, so the rate does not approach `1000 / 20`. -/
theorem FrameRateTimer.Update_within_a_millisecond :
    exampleTimer.frameRate = Rate.finite 5 ∧
    exampleTimer.startTime = 20000000 ∧
    (exampleTimer.Update 20999999).duration = 0 ∧
    (exampleTimer.Update 20999999).frameRate = Rate.infinite ∧
    (∀ count, ((exampleTimer.Update 20999999).ticks 20000000 count).frameRate
      = Rate.infinite) := by
  have hrate : exampleTimer.frameRate = Rate.finite 5 := by
    rw [exampleTimer, FrameRateTimer.Update_frameRate (FrameRateTimer.new 0) 20000000 0 rfl
      (by simp [FrameRateTimer.new])]
    simp [FrameRateTimer.new]
    norm_num
  have hstart : exampleTimer.startTime = 20000000 := rfl
  have hinfinite : (exampleTimer.Update 20999999).frameRate = Rate.infinite := by
    simp [FrameRateTimer.Update, FrameRateTimer.MeasureElapsedTime, hrate, hstart]
  refine ⟨hrate, hstart, ?_, hinfinite, fun count =>
    FrameRateTimer.ticks_infinite _ _ count hinfinite⟩
  simp [FrameRateTimer.Update, FrameRateTimer.MeasureElapsedTime, hstart]

/-! ## Range and sign of the angle (C29) -/

theorem roundHalfEven_intCast (n : ℤ) : roundHalfEven (n : ℝ) = n := by
  unfold roundHalfEven
  simp

theorem roundHalfEven_mono {q r : ℝ} (h : q ≤ r) : roundHalfEven q ≤ roundHalfEven r := by
  have hfloor : ⌊q⌋ ≤ ⌊r⌋ := Int.floor_le_floor h
  have hq1 := Int.floor_le q
  have hq2 := Int.lt_floor_add_one q
  have hr1 := Int.floor_le r
  have hr2 := Int.lt_floor_add_one r
  rcases lt_or_eq_of_le hfloor with hlt | heq
  · have hupper : roundHalfEven q ≤ ⌊q⌋ + 1 := by
      unfold roundHalfEven
      split_ifs <;> omega
    have hlower : ⌊r⌋ ≤ roundHalfEven r := by
      unfold roundHalfEven
      split_ifs <;> omega
    omega
  · have hfrac : q - ⌊q⌋ ≤ r - ⌊r⌋ := by
      rw [heq]
      linarith
    unfold roundHalfEven
    rw [heq] at hfrac ⊢
    split_ifs <;> first | omega | (exfalso; linarith)

theorem roundHalfEven_le {q : ℝ} {n : ℤ} (h : q ≤ n) : roundHalfEven q ≤ n := by
  have := roundHalfEven_mono h
  rwa [roundHalfEven_intCast] at this

theorem roundHalfEven_ge {q : ℝ} {n : ℤ} (h : (n : ℝ) ≤ q) : n ≤ roundHalfEven q := by
  have := roundHalfEven_mono h
  rwa [roundHalfEven_intCast] at this

theorem ulpBinary_pos (p : Nat) (x : ℝ) : 0 < ulpBinary p x := by
  unfold ulpBinary
  positivity

theorem ulpBinary_neg (p : Nat) (x : ℝ) : ulpBinary p (-x) = ulpBinary p x := by
  unfold ulpBinary
  rw [abs_neg]

theorem zpow_log_abs_le {x : ℝ} (hx : x ≠ 0) : (2 : ℝ) ^ Int.log 2 |x| ≤ |x| := by
  have h := Int.zpow_log_le_self (b := 2) (r := |x|) (by norm_num) (abs_pos.mpr hx)
  exact_mod_cast h

theorem abs_lt_zpow_log_succ (x : ℝ) : |x| < (2 : ℝ) ^ (Int.log 2 |x| + 1) := by
  have h := Int.lt_zpow_succ_log_self (b := 2) (by norm_num) |x|
  exact_mod_cast h

/-- The scaled significand lies between `2 ^ (p - 1)` and `2 ^ p`. -/
theorem significand_bounds (p : Nat) (hp : 1 ≤ p) {x : ℝ} (hx : x ≠ 0) :
    (((2 : ℤ) ^ (p - 1) : ℤ) : ℝ) ≤ |x| / ulpBinary p x ∧
      |x| / ulpBinary p x < (((2 : ℤ) ^ p : ℤ) : ℝ) := by
  have hu := ulpBinary_pos p x
  have h1 := zpow_log_abs_le hx
  have h2 := abs_lt_zpow_log_succ x
  have hlow : (2 : ℝ) ^ Int.log 2 |x| = (2 : ℝ) ^ (p - 1) * ulpBinary p x := by
    unfold ulpBinary
    rw [← zpow_natCast, ← zpow_add₀ (by norm_num)]
    congr 1
    have : ((p - 1 : ℕ) : ℤ) = (p : ℤ) - 1 := by omega
    rw [this]
    ring
  have hhigh : (2 : ℝ) ^ (Int.log 2 |x| + 1) = (2 : ℝ) ^ p * ulpBinary p x := by
    unfold ulpBinary
    rw [← zpow_natCast, ← zpow_add₀ (by norm_num)]
    congr 1
    ring
  constructor
  · rw [le_div_iff₀ hu]
    push_cast
    rw [← hlow]
    exact h1
  · rw [div_lt_iff₀ hu]
    push_cast
    rw [← hhigh]
    exact h2

theorem roundBinary_zero (p : Nat) : roundBinary p 0 = 0 := by
  simp [roundBinary]

theorem roundBinary_neg (p : Nat) (x : ℝ) : roundBinary p (-x) = -roundBinary p x := by
  unfold roundBinary
  by_cases hx : x = 0
  · simp [hx]
  · have hneg : -x ≠ 0 := neg_ne_zero.mpr hx
    rw [if_neg hx, if_neg hneg, ulpBinary_neg, abs_neg]
    rcases lt_or_gt_of_ne hx with hlt | hgt
    · have h1 : ¬ (-x < 0) := by linarith
      rw [if_pos hlt, if_neg h1]
      ring
    · have h1 : -x < 0 := by linarith
      have h2 : ¬ (x < 0) := by linarith
      rw [if_pos h1, if_neg h2]
      ring

theorem roundBinary_of_pos (p : Nat) {x : ℝ} (hx : 0 < x) :
    roundBinary p x = ((roundHalfEven (x / ulpBinary p x) : ℤ) : ℝ) * ulpBinary p x := by
  unfold roundBinary
  rw [if_neg hx.ne', if_neg (not_lt.mpr hx.le), abs_of_pos hx]
  ring

/-- The rounded significand lies between `2 ^ (p - 1)` and `2 ^ p` as well. -/
theorem roundHalfEven_significand (p : Nat) (hp : 1 ≤ p) {x : ℝ} (hx : x ≠ 0) :
    (2 : ℤ) ^ (p - 1) ≤ roundHalfEven (|x| / ulpBinary p x) ∧
      roundHalfEven (|x| / ulpBinary p x) ≤ (2 : ℤ) ^ p := by
  have h := significand_bounds p hp hx
  exact ⟨roundHalfEven_ge h.1, roundHalfEven_le h.2.le⟩

theorem roundBinary_pos (p : Nat) (hp : 1 ≤ p) {x : ℝ} (hx : 0 < x) : 0 < roundBinary p x := by
  rw [roundBinary_of_pos p hx]
  have h := (roundHalfEven_significand p hp hx.ne').1
  rw [abs_of_pos hx] at h
  have hpos : (0 : ℤ) < (2 : ℤ) ^ (p - 1) := by positivity
  have hcast : (0 : ℝ) < ((roundHalfEven (x / ulpBinary p x) : ℤ) : ℝ) := by
    exact_mod_cast lt_of_lt_of_le hpos h
  exact mul_pos hcast (ulpBinary_pos p x)

theorem roundBinary_nonneg (p : Nat) (hp : 1 ≤ p) {x : ℝ} (hx : 0 ≤ x) : 0 ≤ roundBinary p x := by
  rcases eq_or_lt_of_le hx with h | h
  · rw [← h, roundBinary_zero]
  · exact (roundBinary_pos p hp h).le

theorem roundBinary_nonpos (p : Nat) (hp : 1 ≤ p) {x : ℝ} (hx : x ≤ 0) : roundBinary p x ≤ 0 := by
  have h := roundBinary_nonneg p hp (neg_nonneg.mpr hx)
  rw [roundBinary_neg] at h
  linarith

theorem pos_of_roundBinary_pos (p : Nat) (hp : 1 ≤ p) {x : ℝ} (h : 0 < roundBinary p x) :
    0 < x := by
  by_contra hx
  have := roundBinary_nonpos p hp (not_lt.mp hx)
  linarith

/-- Numbers with a significand of at most `p` bits are kept. -/
theorem roundBinary_eq_self (p : Nat) (n : ℕ) (k : ℤ) (hn : n < 2 ^ p) :
    roundBinary p ((n : ℝ) * (2 : ℝ) ^ k) = (n : ℝ) * (2 : ℝ) ^ k := by
  rcases Nat.eq_zero_or_pos n with h0 | hpos
  · simp [h0, roundBinary_zero]
  · have hx : (0 : ℝ) < (n : ℝ) * (2 : ℝ) ^ k := by positivity
    rw [roundBinary_of_pos p hx]
    have hu := ulpBinary_pos p ((n : ℝ) * (2 : ℝ) ^ k)
    -- the quotient is the integer n * 2 ^ (k - (e - (p - 1))), the exponent being non-negative
    have hlog : k ≤ Int.log 2 |(n : ℝ) * (2 : ℝ) ^ k| := by
      rw [abs_of_pos hx, ← Int.zpow_le_iff_le_log (by norm_num) hx]
      push_cast
      have h1 : (1 : ℝ) ≤ n := by exact_mod_cast hpos
      have h2 : (0 : ℝ) < (2 : ℝ) ^ k := by positivity
      nlinarith
    have hlog2 : Int.log 2 |(n : ℝ) * (2 : ℝ) ^ k| < k + p := by
      rw [abs_of_pos hx, ← Int.lt_zpow_iff_log_lt (by norm_num) hx]
      push_cast
      rw [zpow_add₀ (by norm_num), mul_comm, zpow_natCast]
      have h1 : (n : ℝ) < (2 : ℝ) ^ p := by exact_mod_cast hn
      have h2 : (0 : ℝ) < (2 : ℝ) ^ k := by positivity
      nlinarith
    obtain ⟨m, hm⟩ : ∃ m : ℕ, k = Int.log 2 |(n : ℝ) * (2 : ℝ) ^ k| - ((p : ℤ) - 1) + m := by
      refine ⟨(k - (Int.log 2 |(n : ℝ) * (2 : ℝ) ^ k| - ((p : ℤ) - 1))).toNat, ?_⟩
      rw [Int.toNat_of_nonneg (by omega)]
      ring
    have hk : (2 : ℝ) ^ k = ulpBinary p ((n : ℝ) * (2 : ℝ) ^ k) * (2 : ℝ) ^ m := by
      unfold ulpBinary
      rw [← zpow_natCast, ← zpow_add₀ (by norm_num), ← hm]
    have hquot : (n : ℝ) * (2 : ℝ) ^ k / ulpBinary p ((n : ℝ) * (2 : ℝ) ^ k)
        = (((n * 2 ^ m : ℕ) : ℤ) : ℝ) := by
      rw [div_eq_iff hu.ne']
      push_cast
      nth_rewrite 1 [hk]
      ring
    rw [hquot, roundHalfEven_intCast]
    push_cast
    rw [mul_assoc, mul_comm ((2 : ℝ) ^ m), ← hk]



theorem binary64_neg (x : ℝ) : binary64 (-x) = -binary64 x := roundBinary_neg 53 x

/-- Numbers `n / 2 ^ m` with `n < 2 ^ 53` are `double` values. -/
theorem binary64_exact (n m : ℕ) (hn : n < 2 ^ 53) (x : ℝ) (hx : x = (n : ℝ) / 2 ^ m) :
    binary64 x = x := by
  have h := roundBinary_eq_self 53 n (-(m : ℤ)) hn
  rw [zpow_neg, zpow_natCast, ← div_eq_mul_inv, ← hx] at h
  exact h

theorem binary64_exact_neg (n m : ℕ) (hn : n < 2 ^ 53) (x : ℝ) (hx : x = -((n : ℝ) / 2 ^ m)) :
    binary64 x = x := by
  rw [hx, binary64_neg, binary64_exact n m hn _ rfl]

theorem StdMap.assign_pairwise {V : Type} (m : StdMap V) (k : Int) (v : V)
    (hsorted : List.Pairwise (fun a b => a < b) m.keys) :
    List.Pairwise (fun a b => a < b) (m.assign k v).keys := by
  induction m with
  | nil => simp [StdMap.assign, StdMap.keys]
  | cons head rest ih =>
    obtain ⟨k0, v0⟩ := head
    have hsorted2 : (∀ key ∈ StdMap.keys rest, k0 < key)
        ∧ List.Pairwise (fun a b => a < b) (StdMap.keys rest) := by
      simpa [StdMap.keys] using hsorted
    obtain ⟨hhead, hrest⟩ := hsorted2
    by_cases h1 : k < k0
    · have : StdMap.assign ((k0, v0) :: rest) k v = (k, v) :: (k0, v0) :: rest := by
        simp [StdMap.assign, h1]
      rw [this]
      refine List.pairwise_cons.mpr ⟨?_, hsorted⟩
      intro key hkey
      simp only [StdMap.keys, List.map_cons, List.mem_cons] at hkey
      rcases hkey with hkey | hkey
      · rw [hkey]; exact h1
      · exact lt_trans h1 (hhead key hkey)
    · by_cases h2 : k = k0
      · have : StdMap.assign ((k0, v0) :: rest) k v = (k, v) :: rest := by
          simp [StdMap.assign, h2]
        rw [this]
        refine List.pairwise_cons.mpr ⟨?_, hrest⟩
        intro key hkey
        rw [h2]
        exact hhead key hkey
      · have : StdMap.assign ((k0, v0) :: rest) k v = (k0, v0) :: StdMap.assign rest k v := by
          simp [StdMap.assign, h1, h2]
        rw [this]
        refine List.pairwise_cons.mpr ⟨?_, ih hrest⟩
        intro key hkey
        rcases (StdMap.keys_assign rest k v key).mp hkey with hkey | hkey
        · rw [hkey]
          omega
        · exact hhead key hkey

theorem storeDetections_Keyed (trackingAreaOffset : Point2) (outputImage : Mat)
    (m : StdMap (MarkerData ℝ)) (detected : List Detection) (hkeyed : m.Keyed) :
    (storeDetections trackingAreaOffset outputImage m detected).Keyed := by
  induction detected generalizing m with
  | nil => exact hkeyed
  | cons d rest ih =>
    apply ih
    refine ⟨StdMap.assign_pairwise m _ _ hkeyed.1, ?_⟩
    intro entry hentry
    rcases StdMap.mem_assign _ _ _ _ hentry with h | h
    · rw [h]
      rfl
    · exact hkeyed.2 entry h

theorem MarkerDetection.Run_Keyed (md : MarkerDetection) (camera : Camera) (poll : DetectionPoll)
    (hkeyed : md.trackingData.Keyed) : (md.Run camera poll).GetTrackingData.Keyed := by
  have hempty : StdMap.Keyed ([] : StdMap (MarkerData ℝ)) := by
    simp [StdMap.Keyed, StdMap.keys]
  by_cases h : md.lastFrameNumber = camera.GetFrameNumber
  · simpa [MarkerDetection.Run, MarkerDetection.GetTrackingData, h] using hkeyed
  · rw [MarkerDetection.GetTrackingData, MarkerDetection.Run_trackingData md camera poll h]
    exact storeDetections_Keyed _ _ _ _ hempty

/-- C28: when the observation map handed to `NetworkCommunication::Run` has its keys in
strictly ascending order and each entry stored under its own id, as every map of
`MarkerDetection` has (the one of the constructor, and the one after every `Run`), and
its members fit their machine types, every datagram the call builds reads back as a
payload whose records are in strictly ascending order of id, so no id occurs twice, and
whose `markerCount` is the number of records and the number of distinct ids of the
map. -/
theorem NetworkCommunication.Run_records_ascending {F : Type} (floatBits : F → Nat)
    (floatOfBits : Nat → F) (nc : NetworkCommunication F) (f : Nat)
    (snapshot : StdMap (MarkerData F)) (poll : NetworkPoll)
    (hkeyed : snapshot.Keyed)
    (hframe : f < 4294967296) (hcount : snapshot.length < 4294967296)
    (hfits : ∀ entry ∈ snapshot, entry.2.Fits floatBits floatOfBits) :
    (∀ datagram ∈ (nc.Run floatBits f snapshot poll).2,
      ∃ payload, decodeDatagram floatOfBits datagram.bytes = some payload ∧
        List.Pairwise (fun a b => a < b) (payload.records.map (fun record => record.id)) ∧
        (payload.records.map (fun record => record.id)).Nodup ∧
        payload.markerCount = payload.records.length ∧
        payload.markerCount
          = ((snapshot.map (fun entry => entry.2.id)).dedup).length) ∧
    (∀ (camera : Camera) (libraryDefaults : DetectorParameters) (now : Nat),
      (MarkerDetection.new camera libraryDefaults now).GetTrackingData.Keyed) ∧
    (∀ (md : MarkerDetection) (camera : Camera) (detection : DetectionPoll),
      md.trackingData.Keyed → (md.Run camera detection).GetTrackingData.Keyed) := by
  have hids : snapshot.map (fun entry => entry.2.id) = snapshot.keys := by
    unfold StdMap.keys
    apply List.map_congr_left
    intro entry hentry
    exact hkeyed.2 entry hentry
  have hpair : List.Pairwise (fun a b => a < b) (snapshot.map (fun entry => entry.2.id)) := by
    rw [hids]
    exact hkeyed.1
  have hnodup : (snapshot.map (fun entry => entry.2.id)).Nodup :=
    hpair.imp (fun h => ne_of_lt h)
  have hdec := decodeDatagram_byteArray floatBits floatOfBits f snapshot hframe hcount hfits
  have hrecords : (snapshot.map (fun entry => entry.2.toRecord)).map (fun record => record.id)
      = snapshot.map (fun entry => entry.2.id) := by
    simp [List.map_map, Function.comp_def, MarkerData.toRecord]
  refine ⟨?_, ?_, fun md camera detection h => MarkerDetection.Run_Keyed md camera detection h⟩
  · intro datagram hdatagram
    have hbytes : datagram.bytes = byteArray floatBits f snapshot := by
      by_cases h : nc.lastFrameNumber = f
      · simp [NetworkCommunication.Run, h] at hdatagram
      · cases hout : poll.outcome <;>
          simp [NetworkCommunication.Run, h, hout] at hdatagram <;>
          rw [hdatagram]
    refine ⟨_, by rw [hbytes]; exact hdec, ?_, ?_, ?_, ?_⟩
    · show List.Pairwise _ ((snapshot.map (fun entry => entry.2.toRecord)).map _)
      rw [hrecords]
      exact hpair
    · show ((snapshot.map (fun entry => entry.2.toRecord)).map _).Nodup
      rw [hrecords]
      exact hnodup
    · simp
    · show snapshot.length = _
      rw [List.Nodup.dedup hnodup, List.length_map]
  · intro camera libraryDefaults now
    simp [MarkerDetection.new, MarkerDetection.GetTrackingData, StdMap.Keyed, StdMap.keys]

/-- Witness of C28: the fresh publisher on frame number 7 with the map of two
observations, ids -3 and 5. -/
theorem NetworkCommunication.Run_records_ascending_witness :
    exampleSnapshot.Keyed ∧
    ∀ datagram ∈ ((NetworkCommunication.new Nat 1 2 0).Run (fun v => v) 7 exampleSnapshot
        ⟨0, SendOutcome.sent⟩).2,
      ∃ payload, decodeDatagram (fun w => w) datagram.bytes = some payload ∧
        List.Pairwise (fun a b => a < b) (payload.records.map (fun record => record.id)) ∧
        (payload.records.map (fun record => record.id)).Nodup ∧
        payload.markerCount = payload.records.length ∧
        payload.markerCount
          = ((exampleSnapshot.map (fun entry => entry.2.id)).dedup).length :=
  have hkeyed : exampleSnapshot.Keyed := by
    simp [StdMap.Keyed, StdMap.keys, exampleSnapshot, exampleMarker]
  ⟨hkeyed,
    (NetworkCommunication.Run_records_ascending (fun v => v) (fun w => w)
      (NetworkCommunication.new Nat 1 2 0) 7 exampleSnapshot ⟨0, SendOutcome.sent⟩ hkeyed
      (by norm_num) (by simp [exampleSnapshot])
      (by simp [exampleSnapshot, exampleMarker, MarkerData.Fits])).1⟩

/-! ## From acquisition to datagram in one iteration (C27) -/

theorem Camera.Run_acquires (c : Camera) (device : DevicePoll)
    (hacquires : c.acquires device = true) :
    (c.Run device).1.GetIsConnected = true ∧
    (c.Run device).1.GetFrameNumber = (c.currentFrameNumber + 1) % 4294967296 := by
  refine ⟨?_, ?_⟩
  · revert hacquires
    unfold Camera.Run Camera.GetFrame Camera.acquires Camera.GetIsConnected
    cases hconn : c.isConnected <;> cases hp : c.pCamera <;> cases hs : device.statusRaises <;>
      cases hi : device.isInitialized <;> cases hst : device.isStreaming <;>
      cases hg : device.grab <;> simp [hconn]
  · rw [Camera.GetFrameNumber, Camera.Run_currentFrameNumber, if_pos hacquires]

theorem Camera.Run_no_acquisition (c : Camera) (device : DevicePoll)
    (hnone : c.acquires device = false) :
    (c.Run device).1.GetFrameNumber = c.GetFrameNumber := by
  rw [Camera.GetFrameNumber, Camera.Run_currentFrameNumber, hnone]
  rfl

theorem exampleAppSwitched_eq :
    exampleAppSwitched.mode = AppMode.Tracking ∧
    exampleAppSwitched.camera = exampleCameraAfterFrame ∧
    exampleAppSwitched.markerDetection.lastFrameNumber = 0 ∧
    exampleAppSwitched.markerDetection.trackingArea = ⟨0, 0, 0, 0⟩ ∧
    exampleAppSwitched.networkCommunication.lastFrameNumber = 0 ∧
    exampleAppSwitched.networkCommunication.address = 1 ∧
    exampleAppSwitched.networkCommunication.port = 2 := by
  have h1 : (exampleCamera.Run exampleDevicePoll).1.GetIsConnected = true :=
    exampleCamera_connects.1
  have h2 : ((exampleCamera.Run exampleDevicePoll).1.Run exampleDevicePoll).1.GetIsConnected
      = true := exampleCameraAfterFrame_eq.2.2.2
  refine ⟨?_, ?_, ?_, ?_, ?_, ?_, ?_⟩ <;>
    simp [exampleAppSwitched, AppManager.SetMode, AppManager.iteration, exampleApp,
      exampleIterationPoll, h1, h2, MarkerDetection.Pause, NetworkCommunication.Pause,
      exampleMarkerDetection, MarkerDetection.new, NetworkCommunication.new,
      exampleCameraAfterFrame, Camera.runs]

/-- C27 (as amended): in one iteration of `AppManager::RunProcessingThread` in Tracking
mode, if the camera acquires a frame, numbered `k`, and `k` differs from the tracker's
`lastFrameNumber`, then after the iteration the camera is connected and the tracker's
`lastFrameNumber` is `k`; if moreover `k` differs from the publisher's `lastFrameNumber`
and the send block does not raise, exactly one datagram has been handed to the socket,
its first word (the frameNumber field) is `k` and the publisher's `lastFrameNumber` is
`k`. If the camera acquires no frame and the tracker's and the publisher's
`lastFrameNumber` both equal the camera's frame number, no datagram is sent. -/
theorem AppManager.iteration_publishes (floatBits : ℝ → Nat) (app : AppManager)
    (poll : IterationPoll) (hmode : app.mode = AppMode.Tracking) :
    (app.camera.acquires poll.device = true →
      (app.camera.Run poll.device).1.GetFrameNumber ≠ app.markerDetection.lastFrameNumber →
      (app.iteration floatBits poll).app.camera.GetIsConnected = true ∧
      (app.iteration floatBits poll).app.camera.GetFrameNumber
        = (app.camera.currentFrameNumber + 1) % 4294967296 ∧
      (app.iteration floatBits poll).app.markerDetection.lastFrameNumber
        = (app.iteration floatBits poll).app.camera.GetFrameNumber ∧
      ((app.iteration floatBits poll).app.camera.GetFrameNumber
          ≠ app.networkCommunication.lastFrameNumber →
        poll.network.outcome ≠ SendOutcome.raised →
        (∃ datagram, (app.iteration floatBits poll).datagrams = [datagram] ∧
          (readWord32 datagram.bytes).map Prod.fst
            = some (app.iteration floatBits poll).app.camera.GetFrameNumber) ∧
        (app.iteration floatBits poll).app.networkCommunication.lastFrameNumber
          = (app.iteration floatBits poll).app.camera.GetFrameNumber)) ∧
    (app.camera.acquires poll.device = false →
      app.markerDetection.lastFrameNumber = app.camera.GetFrameNumber →
      app.networkCommunication.lastFrameNumber = app.camera.GetFrameNumber →
      (app.iteration floatBits poll).datagrams = []) := by
  constructor
  · intro hacquires hnew
    obtain ⟨hconn, hnumber⟩ := Camera.Run_acquires app.camera poll.device hacquires
    obtain ⟨hlast, hcurrent⟩ :=
      MarkerDetection.Run_frameNumbers app.markerDetection (app.camera.Run poll.device).1
        poll.detection
    have hcamera : (app.iteration floatBits poll).app.camera = (app.camera.Run poll.device).1 := by
      simp [AppManager.iteration, hconn, hmode]
    have htracker : (app.iteration floatBits poll).app.markerDetection
        = app.markerDetection.Run (app.camera.Run poll.device).1 poll.detection := by
      simp [AppManager.iteration, hconn, hmode]
    have hpublisher : (app.iteration floatBits poll).app.networkCommunication
        = (app.networkCommunication.Run floatBits (app.camera.Run poll.device).1.GetFrameNumber
            (app.markerDetection.Run (app.camera.Run poll.device).1
              poll.detection).GetTrackingData poll.network).1 := by
      simp [AppManager.iteration, hconn, hmode, MarkerDetection.GetFrameNumber, hcurrent]
    have hdatagrams : (app.iteration floatBits poll).datagrams
        = (app.networkCommunication.Run floatBits (app.camera.Run poll.device).1.GetFrameNumber
            (app.markerDetection.Run (app.camera.Run poll.device).1
              poll.detection).GetTrackingData poll.network).2 := by
      simp [AppManager.iteration, hconn, hmode, MarkerDetection.GetFrameNumber, hcurrent]
    rw [hcamera, htracker, hpublisher, hdatagrams]
    refine ⟨hconn, hnumber, hlast, ?_⟩
    intro hfresh hsend
    have hbound : (app.camera.Run poll.device).1.GetFrameNumber < 4294967296 := by
      rw [hnumber]
      exact Nat.mod_lt _ (by norm_num)
    have hfresh2 : ¬ app.networkCommunication.lastFrameNumber
        = (app.camera.Run poll.device).1.GetFrameNumber := fun e => hfresh e.symm
    refine ⟨?_, (NetworkCommunication.Run_marks_frame floatBits _ _ _ _ hsend).1⟩
    cases hout : poll.network.outcome with
    | raised => exact absurd hout hsend
    | sent =>
      refine ⟨⟨byteArray floatBits (app.camera.Run poll.device).1.GetFrameNumber
          (app.markerDetection.Run (app.camera.Run poll.device).1
            poll.detection).GetTrackingData,
          app.networkCommunication.address, app.networkCommunication.port, true⟩,
        by simp [NetworkCommunication.Run, hfresh2, hout], ?_⟩
      simp only [byteArray, List.append_assoc, readWord32_rawBytes32 _ hbound, Option.map_some']
    | failed =>
      refine ⟨⟨byteArray floatBits (app.camera.Run poll.device).1.GetFrameNumber
          (app.markerDetection.Run (app.camera.Run poll.device).1
            poll.detection).GetTrackingData,
          app.networkCommunication.address, app.networkCommunication.port, false⟩,
        by simp [NetworkCommunication.Run, hfresh2, hout], ?_⟩
      simp only [byteArray, List.append_assoc, readWord32_rawBytes32 _ hbound, Option.map_some']
  · intro hnone htracker hpublisher
    have hsame := Camera.Run_no_acquisition app.camera poll.device hnone
    cases hconn : (app.camera.Run poll.device).1.GetIsConnected with
    | false => simp [AppManager.iteration, hconn]
    | true =>
      have hcurrent :=
        (MarkerDetection.Run_frameNumbers app.markerDetection (app.camera.Run poll.device).1
          poll.detection).2
      simp [AppManager.iteration, hconn, hmode, MarkerDetection.GetFrameNumber, hcurrent,
        NetworkCommunication.Run, hsame, hpublisher]

theorem exampleAppSwitched_acquires :
    exampleAppSwitched.camera.acquires exampleDevicePoll = true ∧
    exampleAppSwitched.camera.acquires exampleIncompletePoll = false ∧
    exampleAppSwitched.camera.currentFrameNumber = 1 ∧
    (exampleAppSwitched.camera.Run exampleIncompletePoll).1.GetIsConnected = true ∧
    (exampleAppSwitched.camera.Run exampleIncompletePoll).1.GetFrameNumber = 1 ∧
    (exampleAppSwitched.camera.Run exampleIncompletePoll).1.CopyImageTo
      = ⟨2048, 3072, Pixels.raster 0⟩ := by
  obtain ⟨himage, hframe, hp, hconn⟩ := exampleCameraAfterFrame_eq
  rw [exampleAppSwitched_eq.2.1]
  have hnumber : exampleCameraAfterFrame.currentFrameNumber = 1 := hframe
  have himage2 : exampleCameraAfterFrame.outputImage = ⟨2048, 3072, Pixels.raster 0⟩ := himage
  refine ⟨?_, ?_, hnumber, ?_, ?_, ?_⟩ <;>
    simp [Camera.acquires, Camera.Run, Camera.GetFrame, Camera.GetIsConnected,
      Camera.GetFrameNumber, Camera.CopyImageTo, hp, hconn, hnumber, himage2,
      exampleDevicePoll, exampleIncompletePoll]

/-- Witness of C27: the application switched to Tracking after the camera acquired frame
number 1 acquires frame number 2 in this iteration and the send succeeds. -/
theorem AppManager.iteration_publishes_witness :
    exampleAppSwitched.mode = AppMode.Tracking ∧
    exampleAppSwitched.camera.acquires exampleDevicePoll = true ∧
    (exampleAppSwitched.iteration (fun _ => 0)
      (exampleIterationPoll exampleDevicePoll)).app.camera.GetFrameNumber = 2 ∧
    (exampleAppSwitched.iteration (fun _ => 0)
      (exampleIterationPoll exampleDevicePoll)).app.markerDetection.lastFrameNumber
      = (exampleAppSwitched.iteration (fun _ => 0)
          (exampleIterationPoll exampleDevicePoll)).app.camera.GetFrameNumber ∧
    ∃ datagram, (exampleAppSwitched.iteration (fun _ => 0)
        (exampleIterationPoll exampleDevicePoll)).datagrams = [datagram] ∧
      (readWord32 datagram.bytes).map Prod.fst
        = some (exampleAppSwitched.iteration (fun _ => 0)
            (exampleIterationPoll exampleDevicePoll)).app.camera.GetFrameNumber :=
  have hacquires : exampleAppSwitched.camera.acquires
      (exampleIterationPoll exampleDevicePoll).device = true := exampleAppSwitched_acquires.1
  have hnumber : (exampleAppSwitched.camera.Run
      (exampleIterationPoll exampleDevicePoll).device).1.GetFrameNumber = 2 := by
    rw [(Camera.Run_acquires _ _ hacquires).2, exampleAppSwitched_acquires.2.2.1]
  have h := (AppManager.iteration_publishes (fun _ => 0) exampleAppSwitched
    (exampleIterationPoll exampleDevicePoll) exampleAppSwitched_eq.1).1 hacquires
    (by rw [hnumber, exampleAppSwitched_eq.2.2.1]; decide)
  have hresult : (exampleAppSwitched.iteration (fun _ => 0)
      (exampleIterationPoll exampleDevicePoll)).app.camera.GetFrameNumber = 2 := by
    rw [h.2.1, exampleAppSwitched_acquires.2.2.1]
  ⟨exampleAppSwitched_eq.1, exampleAppSwitched_acquires.1, hresult, h.2.2.1,
    (h.2.2.2 (by rw [hresult, exampleAppSwitched_eq.2.2.2.2.1]; decide)
      (by simp [exampleIterationPoll])).1⟩

/-- Counterexample to C27 as stated. The application was in Calibration mode while the
camera acquired frame number 1 and is then switched to Tracking: in the next iteration
the grab is incomplete, so the camera acquires no new frame, yet the tracker processes
frame number 1 and one datagram is sent. In an iteration in which the camera acquires
frame number 2 and the send block raises, no datagram is sent and the publisher's
`lastFrameNumber` stays 0. -/
theorem AppManager.iteration_without_new_frame :
    exampleAppSwitched.mode = AppMode.Tracking ∧
    exampleAppSwitched.camera.GetIsConnected = true ∧
    exampleAppSwitched.camera.acquires exampleIncompletePoll = false ∧
    (exampleAppSwitched.iteration (fun _ => 0)
      (exampleIterationPoll exampleIncompletePoll)).datagrams
      = [⟨byteArray (fun (_ : ℝ) => 0) 1 ([] : StdMap (MarkerData ℝ)), 1, 2, true⟩] ∧
    exampleAppSwitched.camera.acquires exampleDevicePoll = true ∧
    (exampleAppSwitched.iteration (fun _ => 0) (exampleRaisingPoll exampleDevicePoll)).datagrams
      = [] ∧
    (exampleAppSwitched.iteration (fun _ => 0)
      (exampleRaisingPoll exampleDevicePoll)).app.networkCommunication.lastFrameNumber = 0 ∧
    (exampleAppSwitched.iteration (fun _ => 0)
      (exampleRaisingPoll exampleDevicePoll)).app.camera.GetFrameNumber = 2 := by
  obtain ⟨hmode, hcamera, hlast, harea, hsent, haddress, hport⟩ := exampleAppSwitched_eq
  obtain ⟨hacq, hnone, hnumber, hconn1, hframe1, himage1⟩ := exampleAppSwitched_acquires
  obtain ⟨hconn2, hframe2⟩ := Camera.Run_acquires _ _ hacq
  rw [hnumber] at hframe2
  have hnew1 : ¬ exampleAppSwitched.markerDetection.lastFrameNumber
      = (exampleAppSwitched.camera.Run exampleIncompletePoll).1.GetFrameNumber := by
    rw [hlast, hframe1]
    decide
  have hnew2 : ¬ exampleAppSwitched.markerDetection.lastFrameNumber
      = (exampleAppSwitched.camera.Run exampleDevicePoll).1.GetFrameNumber := by
    rw [hlast, hframe2]
    decide
  refine ⟨hmode, by rw [hcamera]; exact exampleCameraAfterFrame_eq.2.2.2, hnone, ?_, hacq,
    ?_, ?_, ?_⟩
  · simp [AppManager.iteration, exampleIterationPoll, hmode, hconn1, hframe1, himage1,
      MarkerDetection.Run, MarkerDetection.GetFrameNumber, MarkerDetection.GetTrackingData,
      MarkerDetection.applyDetectorParameters, NetworkCommunication.Run, hlast, hsent,
      haddress, hport, harea, trackingAreaInPixels, Mat.roi, Rect2d.toRect, Mat.empty, cvRound]
  · simp [AppManager.iteration, exampleRaisingPoll, exampleIterationPoll, hmode, hconn2,
      hframe2, MarkerDetection.Run, MarkerDetection.GetFrameNumber,
      MarkerDetection.applyDetectorParameters, NetworkCommunication.Run, hlast, hsent]
  · simp [AppManager.iteration, exampleRaisingPoll, exampleIterationPoll, hmode, hconn2,
      hframe2, MarkerDetection.Run, MarkerDetection.GetFrameNumber,
      MarkerDetection.applyDetectorParameters, NetworkCommunication.Run, hlast, hsent]
  · simp [AppManager.iteration, exampleRaisingPoll, exampleIterationPoll, hmode, hconn2,
      hframe2]

/-! ## Copies of the camera frame across threads (C23) -/

theorem FrameCopy.run_append (s : FrameCopy) (first second : List Turn) :
    s.run (first ++ second) = (s.run first).run second := by
  induction first generalizing s with
  | nil => rfl
  | cons turn rest ih => exact ih (s.step turn)

theorem FrameCopy.run_pipeline (s : FrameCopy) (count : Nat)
    (hcount : count ≤ s.pending.length) :
    s.run (List.replicate count Turn.pipeline)
      = ⟨s.stored ++ s.pending.take count, s.stale.drop count, s.pending.drop count, s.copied⟩ := by
  induction count generalizing s with
  | zero => simp [FrameCopy.run]
  | succ n ih =>
    cases hpending : s.pending with
    | nil =>
      rw [hpending] at hcount
      simp at hcount
    | cons cell rest =>
      rw [hpending] at hcount
      have hstep : s.step Turn.pipeline
          = ⟨s.stored ++ [cell], s.stale.tail, rest, s.copied⟩ := by
        simp [FrameCopy.step, hpending]
      rw [List.replicate_succ, FrameCopy.run, hstep,
        ih _ (by simpa using Nat.le_of_succ_le_succ hcount)]
      simp [List.drop_tail]

theorem FrameCopy.run_consumer (s : FrameCopy) (count : Nat) :
    s.run (List.replicate count Turn.consumer)
      = ⟨s.stored, s.stale, s.pending,
          s.copied ++ (s.outputImage.drop s.copied.length).take count⟩ := by
  induction count generalizing s with
  | zero => simp [FrameCopy.run]
  | succ n ih =>
    rw [List.replicate_succ, FrameCopy.run]
    cases hcell : s.outputImage[s.copied.length]? with
    | none =>
      have hdrop : s.outputImage.drop s.copied.length = [] := by
        rw [List.drop_eq_nil_iff]
        exact List.getElem?_eq_none_iff.mp hcell
      have hstep : s.step Turn.consumer = s := by
        simp [FrameCopy.step, hcell]
      rw [hstep, ih, hdrop]
      simp
    | some cell =>
      obtain ⟨hlt, hget⟩ := List.getElem?_eq_some_iff.mp hcell
      have hdrop : s.outputImage.drop s.copied.length
          = cell :: s.outputImage.drop (s.copied.length + 1) := by
        rw [← hget]
        exact List.drop_eq_getElem_cons hlt
      have hstep : s.step Turn.consumer
          = ⟨s.stored, s.stale, s.pending, s.copied ++ [cell]⟩ := by
        simp [FrameCopy.step, hcell]
      rw [hstep, ih, hdrop]
      simp [FrameCopy.outputImage]

theorem FrameCopy.run_pending (s : FrameCopy) (schedule : List Turn) :
    (s.run schedule).pending.length = s.pending.length - schedule.count Turn.pipeline := by
  induction schedule generalizing s with
  | nil => simp [FrameCopy.run]
  | cons turn rest ih =>
    rw [FrameCopy.run, ih]
    cases turn with
    | pipeline =>
      cases hpending : s.pending with
      | nil => simp [FrameCopy.step, hpending]
      | cons cell more =>
        simp [FrameCopy.step, hpending]
    | consumer =>
      cases hcell : s.outputImage[s.copied.length]? <;>
        simp [FrameCopy.step, hcell]

/-- C23 (as amended): `Camera::CopyImageTo` and the store of a new frame in
`Camera::GetFrame` take no mutex, so the pipeline thread is never held up: after any
schedule of the two threads it has stored one cell of the new frame for each of its
turns. A copy that does not overlap the store is complete: made before the store it is
the previous frame, made after the store it is the new frame (frames of equal size). -/
theorem FrameCopy.copy_between_stores (previous next : List Nat)
    (hsize : previous.length = next.length) :
    ((FrameCopy.start previous next).run
        (List.replicate previous.length Turn.consumer
          ++ List.replicate next.length Turn.pipeline)).copied = previous ∧
    ((FrameCopy.start previous next).run
        (List.replicate next.length Turn.pipeline
          ++ List.replicate previous.length Turn.consumer)).copied = next ∧
    (∀ schedule : List Turn,
      ((FrameCopy.start previous next).run schedule).pending.length
        = next.length - schedule.count Turn.pipeline) := by
  refine ⟨?_, ?_, fun schedule => FrameCopy.run_pending _ schedule⟩
  · rw [FrameCopy.run_append, FrameCopy.run_consumer, FrameCopy.run_pipeline _ _ (by
      simp [FrameCopy.start])]
    simp [FrameCopy.start, FrameCopy.outputImage]
  · rw [FrameCopy.run_append, FrameCopy.run_pipeline _ _ (by simp [FrameCopy.start]),
      FrameCopy.run_consumer]
    simp [FrameCopy.start, FrameCopy.outputImage, hsize]

/-- Witness of C23: frames of three cells, the copy made after the store. -/
theorem FrameCopy.copy_between_stores_witness :
    ((FrameCopy.start [10, 11, 12] [20, 21, 22]).run
        [Turn.pipeline, Turn.pipeline, Turn.pipeline,
         Turn.consumer, Turn.consumer, Turn.consumer]).copied = [20, 21, 22] :=
  (FrameCopy.copy_between_stores [10, 11, 12] [20, 21, 22] rfl).2.1

/-- Counterexample to C23 as stated: `outputImage` holds the two cells of frame
`[0, 0]` and `Camera::GetFrame` stores frame `[1, 1]`. The consumer copies the first
cell, the pipeline thread stores both cells, the consumer copies the second cell: the
copy is `[0, 1]`, which is neither frame. -/
theorem FrameCopy.torn_copy :
    ((FrameCopy.start [0, 0] [1, 1]).run
        [Turn.consumer, Turn.pipeline, Turn.pipeline, Turn.consumer]).copied = [0, 1] ∧
    ((FrameCopy.start [0, 0] [1, 1]).run
        [Turn.consumer, Turn.pipeline, Turn.pipeline, Turn.consumer]).outputImage = [1, 1] ∧
    ([0, 1] : List Nat) ≠ [0, 0] ∧ ([0, 1] : List Nat) ≠ [1, 1] := by
  refine ⟨?_, ?_, by decide, by decide⟩ <;>
    simp [FrameCopy.run, FrameCopy.step, FrameCopy.start, FrameCopy.outputImage]

/-! ## Mutexes held around library calls (C25) -/

theorem callsWithHeld_iterations (held : List Mutex) (first second : LibraryCall)
    (count : Nat) (rest : List Event) :
    callsWithHeld held
        (((List.replicate count [Event.call first, Event.call second]).flatten) ++ rest)
      = (List.replicate count [(first, held), (second, held)]).flatten
        ++ callsWithHeld held rest := by
  induction count with
  | zero => simp
  | succ n ih =>
    simp only [List.replicate_succ, List.flatten_cons, List.cons_append, List.nil_append]
    rw [callsWithHeld, callsWithHeld, ih]

/-- C25 (as amended): the library calls of `MarkerDetection::Run`,
`MarkerDetection::GenerateMarkerImages`, `NetworkCommunication::Run` and
`Calibration::Run`, each with the mutexes held while it runs. The detector call
`detectMarkers` runs with no mutex held. The dictionary generation runs with
`detectorParametersMutex` held, each marker rendering and each marker image write with
`detectorParametersMutex` held, the UDP send with `udpParametersMutex` held, and the
chessboard corner search with `calibrationParametersMutex` held; no call runs with more
than one mutex held. -/
theorem library_calls_with_mutexes {F : Type} (md : MarkerDetection) (camera : Camera)
    (imageSize : Int) (raisesAt : Option Nat) (nc : NetworkCommunication F) (frameNumber : Nat)
    (network : NetworkPoll) (cal : Calibration) :
    callsWithHeld [] (md.RunEvents camera)
      = (if md.lastFrameNumber = camera.GetFrameNumber then []
         else
          (if md.markerDictionary.bytesListRows ≠ md.detectorParameters.markerDictionarySize ∨
              md.markerDictionary.markerSize ≠ md.detectorParameters.markerNumBits then
            [(LibraryCall.generateCustomDictionary, [Mutex.detectorParametersMutex])] else [])
          ++ (if !(camera.CopyImageTo.roi
                (trackingAreaInPixels md.trackingArea camera.CopyImageTo).toRect).empty then
            [(LibraryCall.detectMarkers, [])] else [])) ∧
    callsWithHeld [] (md.GenerateMarkerImagesEvents imageSize raisesAt)
      = (List.replicate (md.GenerateMarkerImages imageSize raisesAt).1.length
          [(LibraryCall.drawMarker, [Mutex.detectorParametersMutex]),
           (LibraryCall.imwrite, [Mutex.detectorParametersMutex])]).flatten ∧
    callsWithHeld [] (nc.RunEvents frameNumber network)
      = (if nc.lastFrameNumber = frameNumber ∨ network.outcome = SendOutcome.raised then []
         else [(LibraryCall.writeDatagram, [Mutex.udpParametersMutex])]) ∧
    callsWithHeld [] (cal.RunEvents camera)
      = (if cal.lastFrameNumber = camera.GetFrameNumber ∨ cal.isCaptureImage = false then []
         else [(if cal.isChessboardDetectedPrevious then LibraryCall.findChessboardCornersSB
                else LibraryCall.findChessboardCorners,
                [Mutex.calibrationParametersMutex])]) := by
  refine ⟨?_, ?_, ?_, ?_⟩
  · unfold MarkerDetection.RunEvents
    split_ifs <;> simp [callsWithHeld]
  · have hmap : ((md.GenerateMarkerImages imageSize raisesAt).1.map (fun _ =>
        [Event.call LibraryCall.drawMarker, Event.call LibraryCall.imwrite]))
        = List.replicate (md.GenerateMarkerImages imageSize raisesAt).1.length
            [Event.call LibraryCall.drawMarker, Event.call LibraryCall.imwrite] := by
      rw [List.eq_replicate_iff]
      simp
    have hevents : md.GenerateMarkerImagesEvents imageSize raisesAt
        = Event.lock Mutex.detectorParametersMutex ::
          ((List.replicate (md.GenerateMarkerImages imageSize raisesAt).1.length
              [Event.call LibraryCall.drawMarker, Event.call LibraryCall.imwrite]).flatten
            ++ [Event.unlock Mutex.detectorParametersMutex]) := by
      simp [MarkerDetection.GenerateMarkerImagesEvents, hmap]
    rw [hevents, callsWithHeld, callsWithHeld_iterations]
    simp [callsWithHeld]
  · unfold NetworkCommunication.RunEvents
    by_cases h : nc.lastFrameNumber = frameNumber
    · simp [h, callsWithHeld]
    · cases hout : network.outcome <;> simp [h, hout, callsWithHeld]
  · unfold Calibration.RunEvents
    by_cases h : cal.lastFrameNumber = camera.GetFrameNumber
    · simp [h, callsWithHeld]
    · cases harmed : cal.isCaptureImage <;> simp [h, harmed, callsWithHeld]

/-- Counterexample to C25 as stated: the fresh publisher sending frame number 1 calls
`writeDatagram` with `udpParametersMutex` held; the armed engine that detected the
chessboard searches it on the next frame with `calibrationParametersMutex` held; the
tracker whose configuration was changed generates the dictionary with
`detectorParametersMutex` held; and `GenerateMarkerImages` renders and writes its first
image with `detectorParametersMutex` held. -/
theorem calls_under_mutex :
    callsWithHeld [] ((NetworkCommunication.new Nat 1 2 0).RunEvents 1 ⟨0, SendOutcome.sent⟩)
      = [(LibraryCall.writeDatagram, [Mutex.udpParametersMutex])] ∧
    callsWithHeld [] (exampleDetecting.RunEvents exampleCameraTwoFrames)
      = [(LibraryCall.findChessboardCornersSB, [Mutex.calibrationParametersMutex])] ∧
    (callsWithHeld [] (exampleReconfiguredTracker.RunEvents exampleCameraAfterFrame)).head?
      = some (LibraryCall.generateCustomDictionary, [Mutex.detectorParametersMutex]) ∧
    (callsWithHeld [] (exampleMarkerDetection.GenerateMarkerImagesEvents 200 none)).take 2
      = [(LibraryCall.drawMarker, [Mutex.detectorParametersMutex]),
         (LibraryCall.imwrite, [Mutex.detectorParametersMutex])] := by
  obtain ⟨harmed, hlast, hprev, htimer, himages, hacquired⟩ := exampleDetecting_eq
  refine ⟨?_, ?_, ?_, ?_⟩
  · simp [NetworkCommunication.RunEvents, NetworkCommunication.new, callsWithHeld]
  · simp [Calibration.RunEvents, hlast, exampleCameraTwoFrames_eq.2, harmed, hprev,
      callsWithHeld]
  · simp [MarkerDetection.RunEvents, exampleCameraAfterFrame_eq.2.1, exampleReconfiguredTracker,
      MarkerDetection.UpdateDetectorParameters, exampleFiveBitParameters,
      exampleMarkerDetection, MarkerDetection.new, generateCustomDictionary, callsWithHeld]
  · simp [MarkerDetection.GenerateMarkerImagesEvents, MarkerDetection.GenerateMarkerImages,
      renderMarkers, exampleMarkerDetection, MarkerDetection.new, callsWithHeld]

end FAST
